import Mathlib

/-!
# ExoAI Explorer: a shallow embedding of `server.js`, `script.js` and `login.js`

The Express application of `server.js` is embedded as pure functions over an explicit
datastore state.  Third-party packages (`express-validator`, `bcryptjs`, `jsonwebtoken`)
are not part of the repository: the string predicates the route definitions spell out
(`isLength`, `matches` with its regular expression, `notEmpty`) are embedded directly,
the remaining library entry points are parameters (`EmailLib`, `Bcrypt`, `Jwt`).

Conventions.
* A request body field is a string (a missing field is the empty string, which is what
  `express-validator` validates in that case).
* A character is a Unicode code point; `isLength` counts code points.
* Time is the reading of the token clock: whole seconds since the epoch.
* `handle` serves a request that has reached its route; `serve` is the middleware stack
  around the routes (rate limiter, CORS, static files, catch-all route, 404 handler).
* The two generators and the gamification state of `script.js`, and the demo login of
  `login.js`, follow the server; numbers of `script.js` are rationals.
-/

namespace ExoAI

/-! ## Validation chains (`validateSignup`, `validateLogin`) -/

/-- One entry of `validationResult(req).array()`. -/
structure ValidationError where
  param : String
  msg : String
  value : String
deriving DecidableEq, Repr

/-- The `.isLength({ min, max })` validator. -/
def isLength (min : Nat) (max : Option Nat) (s : String) : Bool :=
  decide (min ≤ s.length) &&
    (match max with
     | none => true
     | some m => decide (s.length ≤ m))

/-- The `.notEmpty()` validator. -/
def notEmpty (s : String) : Bool := !(s.length == 0)

/-- The character class `[a-z]`. -/
def isLowerAZ (c : Char) : Bool := decide ('a'.toNat ≤ c.toNat) && decide (c.toNat ≤ 'z'.toNat)

/-- The character class `[A-Z]`. -/
def isUpperAZ (c : Char) : Bool := decide ('A'.toNat ≤ c.toNat) && decide (c.toNat ≤ 'Z'.toNat)

/-- The character class `\d` (without the `u` flag: `[0-9]`). -/
def isDigit09 (c : Char) : Bool := decide ('0'.toNat ≤ c.toNat) && decide (c.toNat ≤ '9'.toNat)

/-- The character class `[a-zA-Z0-9_]`. -/
def isWordChar (c : Char) : Bool :=
  isLowerAZ c || isUpperAZ c || isDigit09 c || decide (c.toNat = '_'.toNat)

/-- Line terminators: the characters `.` does not match (no `s` flag). -/
def isLineTerminator (c : Char) : Bool :=
  decide (c.toNat = 0x0A) || decide (c.toNat = 0x0D) ||
    decide (c.toNat = 0x2028) || decide (c.toNat = 0x2029)

/-- The tail `[a-zA-Z0-9_]*$` of the username pattern: class characters up to the end of
the input (`$` without the `m` flag matches only at the very end). -/
def wordStarEnd : List Char → Bool
  | [] => true
  | c :: cs => isWordChar c && wordStarEnd cs

/-- The pattern `/^[a-zA-Z0-9_]+$/` tried at the start of the input. -/
def usernamePattern : List Char → Bool
  | [] => false
  | c :: cs => isWordChar c && wordStarEnd cs

/-- The regular expression `.*[cls]` matched at the current position: either the class
matches here, or `.` consumes one character that is not a line terminator and the rest
of the pattern is tried again. -/
def dotStarThen (cls : Char → Bool) : List Char → Bool
  | [] => false
  | c :: cs => cls c || (!isLineTerminator c && dotStarThen cls cs)

/-- The pattern `/^(?=.*[a-z])(?=.*[A-Z])(?=.*\d)/`: three lookaheads at position 0. -/
def passwordPattern (s : List Char) : Bool :=
  dotStarThen isLowerAZ s && dotStarThen isUpperAZ s && dotStarThen isDigit09 s

/-- The `.matches(pattern)` validator for the two patterns of `validateSignup`. -/
def matchesUsername (s : String) : Bool := usernamePattern s.data

/-- The `.matches(pattern)` validator of the password chain. -/
def matchesPassword (s : String) : Bool := passwordPattern s.data

/-- The parts of `validator.js` reached through `.isEmail()` and `.normalizeEmail()`.  The
law is the one fact about addresses the server relies on: the normalized form of a valid
address is `local@domain`, so it holds an `@`. -/
structure EmailLib where
  isEmail : String → Bool
  normalizeEmail : String → String
  normalize_at : ∀ e, isEmail e = true → '@' ∈ (normalizeEmail e).data

/-- Body of `POST /api/signup`. -/
structure SignupBody where
  username : String
  email : String
  password : String
deriving DecidableEq, Repr

/-- Body of `POST /api/login`. -/
structure LoginBody where
  username : String
  password : String
deriving DecidableEq, Repr

def msgUsernameLength : String := "Username must be between 3 and 20 characters"
def msgUsernameChars : String := "Username can only contain letters, numbers, and underscores"
def msgEmail : String := "Please provide a valid email address"
def msgPasswordLength : String := "Password must be at least 6 characters long"
def msgPasswordRule : String :=
  "Password must contain at least one lowercase letter, one uppercase letter, and one number"

/-- One validator of a chain: an error entry when the check fails. -/
def check (ok : Bool) (param msg value : String) : List ValidationError :=
  if ok then [] else [⟨param, msg, value⟩]

/-- The chain `body('username')` of `validateSignup`. -/
def usernameErrors (u : String) : List ValidationError :=
  check (isLength 3 (some 20) u) "username" msgUsernameLength u ++
  check (matchesUsername u) "username" msgUsernameChars u

/-- The chain `body('email')` of `validateSignup` (its validator; the sanitizer is
`sanitizeSignup`). -/
def emailErrors (E : EmailLib) (e : String) : List ValidationError :=
  check (E.isEmail e) "email" msgEmail e

/-- The chain `body('password')` of `validateSignup`. -/
def passwordErrors (p : String) : List ValidationError :=
  check (isLength 6 none p) "password" msgPasswordLength p ++
  check (matchesPassword p) "password" msgPasswordRule p

/-- The errors `validationResult(req)` holds after the `validateSignup` chains ran. -/
def validateSignup (E : EmailLib) (b : SignupBody) : List ValidationError :=
  usernameErrors b.username ++ emailErrors E b.email ++ passwordErrors b.password

/-- The request body after the chains ran: `normalizeEmail()` rewrote `email`. -/
def sanitizeSignup (E : EmailLib) (b : SignupBody) : SignupBody :=
  { b with email := E.normalizeEmail b.email }

/-- The errors `validationResult(req)` holds after the `validateLogin` chains ran. -/
def validateLogin (b : LoginBody) : List ValidationError :=
  check (notEmpty b.username) "username" "Username is required" b.username ++
  check (notEmpty b.password) "password" "Password is required" b.password

/-! ## Library interfaces: `bcryptjs` and `jsonwebtoken` -/

/-- The two `bcryptjs` entry points the server calls.  `hash pw rounds salt` is
`bcrypt.hash(pw, rounds)` when the generator draws `salt`; `compare pw digest` is
`bcrypt.compare(pw, digest)`.  The two laws are the contract of the package: a digest
verifies against the password it was made from, and a digest is not its own preimage. -/
structure Bcrypt where
  hash : String → Nat → String → String
  compare : String → String → Bool
  compare_hash : ∀ pw rounds salt, compare pw (hash pw rounds salt) = true
  hash_ne : ∀ pw rounds salt, hash pw rounds salt ≠ pw

/-- The decoded payload `jwt.verify` hands to its callback (`req.user`). -/
structure Payload where
  userId : Nat
  username : String
  email : String
  iat : Nat
  exp : Nat
deriving DecidableEq, Repr

/-- A token of the shape the server issues: a payload and the key that signed it (an
idealised signature: it verifies exactly under the key that produced it). -/
structure Token where
  payload : Payload
  key : String
deriving DecidableEq, Repr

/-- The compact serialisation of `jsonwebtoken`: `encode` writes a signed token as the
string sent to the client, `decode` reads one back.  A serialised token is a non-empty
string of base64url characters and dots, so it holds no space. -/
structure Jwt where
  encode : Token → String
  decode : String → Option Token
  decode_encode : ∀ t, decode (encode t) = some t
  encode_noSpace : ∀ t, ' ' ∉ (encode t).data
  encode_ne_empty : ∀ t, encode t ≠ ""

/-- The configured application: the libraries it links and the environment variable
`JWT_SECRET`. -/
structure App where
  email : EmailLib
  bcrypt : Bcrypt
  jwt : Jwt
  envSecret : Option String

/-- `process.env.JWT_SECRET || 'exoai-explorer-secret-key-2024'`. -/
def App.JWT_SECRET (A : App) : String :=
  match A.envSecret with
  | none => "exoai-explorer-secret-key-2024"
  | some v => if v = "" then "exoai-explorer-secret-key-2024" else v

/-- Twenty-four hours (`expiresIn: '24h'`) in seconds. -/
def expiresIn : Nat := 24 * 60 * 60

/-- `jwt.sign({ userId, username, email }, secret, { expiresIn: '24h' })` at clock `now`. -/
def jwtSign (J : Jwt) (userId : Nat) (username email : String) (secret : String)
    (now : Nat) : String :=
  J.encode ⟨⟨userId, username, email, now, now + expiresIn⟩, secret⟩

/-- `jwt.verify(token, secret, cb)` at clock `now`: `none` is the error case of the
callback (malformed token, bad signature, or `now >= exp`). -/
def jwtVerify (J : Jwt) (token : String) (secret : String) (now : Nat) : Option Payload :=
  match J.decode token with
  | none => none
  | some t =>
    if t.key ≠ secret then none
    else if now ≥ t.payload.exp then none
    else some t.payload

/-! ## Datastore (`users.db`) and session store -/

/-- Row of `users`. -/
structure UserRow where
  id : Nat
  username : String
  email : String
  password : String
  created_at : Nat
  last_login : Option Nat
  is_active : Bool
deriving DecidableEq, Repr

/-- Row of `user_stats`; a counter column is an integer or `NULL`. -/
structure StatsRow where
  id : Nat
  user_id : Nat
  analyses : Option Int
  discoveries : Option Int
  stars_explored : Option Int
  uploads : Option Int
  total_xp : Option Int
  last_updated : Nat
deriving DecidableEq, Repr

/-- Row of `user_achievements`. -/
structure AchievementRow where
  id : Nat
  user_id : Nat
  achievement_id : String
  unlocked_at : Nat
deriving DecidableEq, Repr

/-- The tables of `users.db` the handlers touch, each in rowid order. -/
structure Db where
  users : List UserRow
  stats : List StatsRow
  achievements : List AchievementRow
deriving DecidableEq, Repr

/-- Record of the `express-session` store. -/
structure Session where
  sid : String
  userId : Nat
  username : String
deriving DecidableEq, Repr

/-- Server state between requests. -/
structure State where
  db : Db
  sessions : List Session
deriving DecidableEq, Repr

/-- The state of a freshly initialised server. -/
def State.empty : State := ⟨⟨[], [], []⟩, []⟩

/-- What a request draws from its surroundings: the clock, the salt `bcrypt` generates,
the id `express-session` generates, and which of the store calls the handler makes (in
program order, from 0) come back with an error. -/
structure Env where
  now : Nat
  salt : String
  sid : String
  failing : List Nat
deriving DecidableEq, Repr

/-- Whether the `n`-th store call of the request reports an error. -/
def Env.fails (e : Env) (n : Nat) : Bool := decide (n ∈ e.failing)

/-- The id an `INTEGER PRIMARY KEY AUTOINCREMENT` column gives the next row: one more
than the largest id so far (rows are never deleted). -/
def nextId (ids : List Nat) : Nat := ids.foldr max 0 + 1

/-- JSON bodies the server sends. `loginCutShort` is the body of a login of which the
client gets all but the last byte before the connection closes. -/
inductive Body
  | error (msg : String)
  | validationFailed (details : List ValidationError)
  | userCreated (userId : Nat)
  | loginOk (token : String) (id : Nat) (username email : String)
  | loginCutShort (token : String) (id : Nat) (username email : String)
  | message (msg : String)
  | profile (id : Nat) (username email : String) (created_at : Nat) (last_login : Option Nat)
  | stats (analyses discoveries starsExplored uploads xp : Option Int)
  | achievements (rows : List (String × Nat))
  | achievementUnlocked (achievementId : String)
  | tokenValid (id : Nat) (username email : String)
  | health
deriving DecidableEq, Repr

/-- Status code and JSON body of a response. -/
structure Response where
  status : Nat
  body : Body
deriving DecidableEq, Repr

/-- The `res.json(...)` shorthand: status 200. -/
def Response.json (b : Body) : Response := ⟨200, b⟩

/-! ## Middleware `authenticateToken` -/

/-- The string method `split(' ')`, on the characters of the string. -/
def splitSpace : List Char → List (List Char)
  | [] => [[]]
  | c :: cs =>
    if c = ' ' then [] :: splitSpace cs
    else
      match splitSpace cs with
      | [] => [[c]]
      | f :: fs => (c :: f) :: fs

/-- The expression `authHeader && authHeader.split(' ')[1]`; `none` stands for
`undefined`. -/
def headerToken (authHeader : Option String) : Option String :=
  match authHeader with
  | none => none
  | some h =>
    if h = "" then some ""
    else ((splitSpace h.data).get? 1).map String.mk

/-- The middleware: the response it sends itself, or the payload it stores in `req.user`
before calling `next()`. -/
def authenticateToken (A : App) (authHeader : Option String) (now : Nat) :
    Except Response Payload :=
  match headerToken authHeader with
  | none => .error ⟨401, .error "Access token required"⟩
  | some token =>
    if token = "" then .error ⟨401, .error "Access token required"⟩
    else
      match jwtVerify A.jwt token A.JWT_SECRET now with
      | none => .error ⟨403, .error "Invalid or expired token"⟩
      | some user => .ok user

/-! ## Route handlers -/

/-- The statement `INSERT INTO users (username, email, password) VALUES (?, ?, ?)`, run as
store call `n` of the request: it fails when the store reports an error or a `UNIQUE`
column would repeat; otherwise it yields the new table and `this.lastID`. -/
def insertUser (db : Db) (username email password : String) (env : Env) (n : Nat) :
    Option (Db × Nat) :=
  if env.fails n then none
  else if db.users.any (fun u => u.username == username || u.email == email) then none
  else
    let id := nextId (db.users.map (·.id))
    some ({ db with users := db.users ++ [⟨id, username, email, password, env.now, none, true⟩] },
      id)

/-- The statement `INSERT INTO user_stats (user_id) VALUES (?)`: every counter takes its
column default. -/
def insertStats (db : Db) (userId : Nat) (now : Nat) : Db :=
  { db with stats := db.stats ++
      [⟨nextId (db.stats.map (·.id)), userId, some 0, some 0, some 0, some 0, some 0, now⟩] }

/-- Handler of `POST /api/signup`. -/
def signup (A : App) (s : State) (body : SignupBody) (env : Env) : Response × State :=
  let errors := validateSignup A.email body
  if !errors.isEmpty then (⟨400, .validationFailed errors⟩, s)
  else
    let b := sanitizeSignup A.email body
    if env.fails 0 then (⟨500, .error "Database error"⟩, s)
    else
      match s.db.users.find? (fun u => u.username == b.username || u.email == b.email) with
      | some _ => (⟨409, .error "Username or email already exists"⟩, s)
      | none =>
        let saltRounds := 12
        let hashedPassword := A.bcrypt.hash b.password saltRounds env.salt
        match insertUser s.db b.username b.email hashedPassword env 1 with
        | none => (⟨500, .error "Failed to create user"⟩, s)
        | some (db1, lastID) =>
          let db2 := if env.fails 2 then db1 else insertStats db1 lastID env.now
          (⟨201, .userCreated lastID⟩, { s with db := db2 })

/-- The statement `UPDATE users SET last_login = CURRENT_TIMESTAMP WHERE id = ?`. -/
def updateLastLogin (db : Db) (id : Nat) (now : Nat) : Db :=
  { db with users := db.users.map (fun u => if u.id == id then { u with last_login := some now } else u) }

/-- The session `req.session` refers to: the one the cookie names when the store has it,
a new one otherwise. -/
def sessionId (sessions : List Session) (cookie : Option String) (env : Env) : String :=
  match cookie with
  | none => env.sid
  | some c => if sessions.any (fun x => x.sid == c) then c else env.sid

/-- Saving `req.session` with `userId` and `username` set. -/
def saveSession (sessions : List Session) (sid : String) (userId : Nat) (username : String) :
    List Session :=
  ⟨sid, userId, username⟩ :: sessions.filter (fun x => x.sid != sid)

/-- Handler of `POST /api/login`.

The `UPDATE` of `last_login` (store call 1) is run without a callback. When it fails, the
store emits an `error` event nobody listens to and the process exits. By then the handler
has called `res.json`, and the session middleware has sent the status line and the body up
to its last byte, holding that byte back until the session is stored: the client gets
status 200 and a body cut short. The state is then the one before the request: the
`UPDATE` changed nothing, and the session record is not counted as stored, the exit
coming before the store confirms it. A trace that goes on after such a request describes
the process started again on the same database files. -/
def login (A : App) (s : State) (cookie : Option String) (body : LoginBody) (env : Env) :
    Response × State :=
  let errors := validateLogin body
  if !errors.isEmpty then (⟨400, .validationFailed errors⟩, s)
  else if env.fails 0 then (⟨500, .error "Database error"⟩, s)
  else
    match s.db.users.find?
        (fun u => (u.username == body.username || u.email == body.username) && u.is_active) with
    | none => (⟨401, .error "Invalid credentials"⟩, s)
    | some user =>
      if !A.bcrypt.compare body.password user.password then
        (⟨401, .error "Invalid credentials"⟩, s)
      else
        let token := jwtSign A.jwt user.id user.username user.email A.JWT_SECRET env.now
        if env.fails 1 then (⟨200, .loginCutShort token user.id user.username user.email⟩, s)
        else
          let db1 := updateLastLogin s.db user.id env.now
          let sessions :=
            saveSession s.sessions (sessionId s.sessions cookie env) user.id user.username
          (.json (.loginOk token user.id user.username user.email), ⟨db1, sessions⟩)

/-- Handler of `POST /api/logout`. -/
def logout (s : State) (cookie : Option String) (env : Env) : Response × State :=
  if env.fails 0 then (⟨500, .error "Failed to logout"⟩, s)
  else
    let sid := sessionId s.sessions cookie env
    (.json (.message "Logout successful"), { s with sessions := s.sessions.filter (fun x => x.sid != sid) })

/-- Handler of `GET /api/profile`, after the middleware set `req.user`. -/
def profile (s : State) (user : Payload) (env : Env) : Response × State :=
  if env.fails 0 then (⟨500, .error "Database error"⟩, s)
  else
    match s.db.users.find? (fun u => u.id == user.userId) with
    | none => (⟨404, .error "User not found"⟩, s)
    | some u => (.json (.profile u.id u.username u.email u.created_at u.last_login), s)

/-- Handler of `GET /api/user-stats`, after the middleware set `req.user`. -/
def getUserStats (s : State) (user : Payload) (env : Env) : Response × State :=
  if env.fails 0 then (⟨500, .error "Database error"⟩, s)
  else
    match s.db.stats.find? (fun r => r.user_id == user.userId) with
    | none =>
      if env.fails 1 then (⟨500, .error "Failed to create user stats"⟩, s)
      else
        (.json (.stats (some 0) (some 0) (some 0) (some 0) (some 0)),
          { s with db := insertStats s.db user.userId env.now })
    | some stats =>
      (.json (.stats stats.analyses stats.discoveries stats.stars_explored stats.uploads
        stats.total_xp), s)

/-- Body of `POST /api/user-stats`; a missing field is `none`. -/
structure StatsBody where
  analyses : Option Int
  discoveries : Option Int
  starsExplored : Option Int
  uploads : Option Int
  xp : Option Int
deriving DecidableEq, Repr

/-- The statement `UPDATE user_stats SET ... WHERE user_id = ?`. -/
def updateStats (db : Db) (userId : Nat) (b : StatsBody) (now : Nat) : Db :=
  { db with stats := db.stats.map (fun r =>
      if r.user_id == userId then
        { r with analyses := b.analyses, discoveries := b.discoveries,
                 stars_explored := b.starsExplored, uploads := b.uploads, total_xp := b.xp,
                 last_updated := now }
      else r) }

/-- Handler of `POST /api/user-stats`, after the middleware set `req.user`. -/
def postUserStats (s : State) (user : Payload) (body : StatsBody) (env : Env) :
    Response × State :=
  if env.fails 0 then (⟨500, .error "Failed to update stats"⟩, s)
  else
    (.json (.message "Stats updated successfully"),
      { s with db := updateStats s.db user.userId body env.now })

/-- Handler of `GET /api/achievements`, after the middleware set `req.user`. -/
def getAchievements (s : State) (user : Payload) (env : Env) : Response × State :=
  if env.fails 0 then (⟨500, .error "Database error"⟩, s)
  else
    (.json (.achievements
      ((s.db.achievements.filter (fun r => r.user_id == user.userId)).map
        (fun r => (r.achievement_id, r.unlocked_at)))), s)

/-- The statement `INSERT INTO user_achievements (user_id, achievement_id) VALUES (?, ?)`. -/
def insertAchievement (db : Db) (userId : Nat) (achievementId : String) (now : Nat) : Db :=
  { db with achievements := db.achievements ++
      [⟨nextId (db.achievements.map (·.id)), userId, achievementId, now⟩] }

/-- Handler of `POST /api/achievements`, after the middleware set `req.user`;
`achievementId` is `none` when the body has no such field. -/
def postAchievements (s : State) (user : Payload) (achievementId : Option String) (env : Env) :
    Response × State :=
  match achievementId with
  | none => (⟨400, .error "Achievement ID is required"⟩, s)
  | some aid =>
    if aid = "" then (⟨400, .error "Achievement ID is required"⟩, s)
    else if env.fails 0 then (⟨500, .error "Database error"⟩, s)
    else
      match s.db.achievements.find? (fun r => r.user_id == user.userId && r.achievement_id == aid) with
      | some _ => (⟨409, .error "Achievement already unlocked"⟩, s)
      | none =>
        if env.fails 1 then (⟨500, .error "Failed to unlock achievement"⟩, s)
        else
          (.json (.achievementUnlocked aid),
            { s with db := insertAchievement s.db user.userId aid env.now })

/-- Handler of `GET /api/verify-token`, after the middleware set `req.user`. -/
def verifyToken (s : State) (user : Payload) : Response × State :=
  (.json (.tokenValid user.userId user.username user.email), s)

/-- A route with `authenticateToken` in front of its handler. -/
def withAuth (A : App) (s : State) (authHeader : Option String) (env : Env)
    (handler : Payload → Response × State) : Response × State :=
  match authenticateToken A authHeader env.now with
  | .error res => (res, s)
  | .ok user => handler user

/-- The requests the API routes answer. -/
inductive Request
  | health
  | signup (body : SignupBody)
  | login (cookie : Option String) (body : LoginBody)
  | logout (cookie : Option String)
  | profile (auth : Option String)
  | getUserStats (auth : Option String)
  | postUserStats (auth : Option String) (body : StatsBody)
  | getAchievements (auth : Option String)
  | postAchievements (auth : Option String) (achievementId : Option String)
  | verifyToken (auth : Option String)
deriving DecidableEq, Repr

/-- The application: the route a request matches, applied to the state. -/
def handle (A : App) (s : State) (r : Request) (env : Env) : Response × State :=
  match r with
  | .health => (.json .health, s)
  | .signup body => signup A s body env
  | .login cookie body => login A s cookie body env
  | .logout cookie => logout s cookie env
  | .profile auth => withAuth A s auth env (fun user => profile s user env)
  | .getUserStats auth => withAuth A s auth env (fun user => getUserStats s user env)
  | .postUserStats auth body => withAuth A s auth env (fun user => postUserStats s user body env)
  | .getAchievements auth => withAuth A s auth env (fun user => getAchievements s user env)
  | .postAchievements auth aid =>
    withAuth A s auth env (fun user => postAchievements s user aid env)
  | .verifyToken auth => withAuth A s auth env (fun user => verifyToken s user)

/-- The state after a sequence of requests, served one after the other. -/
def run (A : App) (s : State) : List (Request × Env) → State
  | [] => s
  | (r, env) :: rest => run A (handle A s r env).2 rest

/-! ## An instance of the library interfaces

A small implementation of `EmailLib`, `Bcrypt` and `Jwt`: it shows that the laws of the
interfaces can be met, and the handlers are evaluated on it at concrete requests. -/

/-- A number in unary, closed by a dot. -/
def unary (n : Nat) : List Char := List.replicate n 'i' ++ ['.']

/-- Reads back one `unary` numeral and returns the rest of the input. -/
def readUnary : List Char → Nat × List Char
  | [] => (0, [])
  | c :: cs => if c = 'i' then ((readUnary cs).1 + 1, (readUnary cs).2) else (0, cs)

/-- A list of numbers, each in unary. -/
def writeNats (l : List Nat) : List Char := l.flatMap unary

/-- Reads back `k` numerals. -/
def readNats : Nat → List Char → List Nat × List Char
  | 0, cs => ([], cs)
  | k + 1, cs =>
    ((readUnary cs).1 :: (readNats k (readUnary cs).2).1, (readNats k (readUnary cs).2).2)

/-- A string: its length, then the code of each character. -/
def writeString (s : String) : List Char :=
  unary s.length ++ writeNats (s.data.map Char.toNat)

/-- Reads back one `writeString`. -/
def readString (cs : List Char) : String × List Char :=
  (String.mk ((readNats (readUnary cs).1 (readUnary cs).2).1.map Char.ofNat),
    (readNats (readUnary cs).1 (readUnary cs).2).2)

/-- The serialisation of the instance. -/
def writeToken (t : Token) : List Char :=
  unary t.payload.userId ++ (unary t.payload.iat ++ (unary t.payload.exp ++
    (writeString t.payload.username ++ (writeString t.payload.email ++
      (writeString t.key ++ [])))))

/-- The parser of the instance. -/
def readToken (cs : List Char) : Option Token :=
  let r1 := readUnary cs
  let r2 := readUnary r1.2
  let r3 := readUnary r2.2
  let r4 := readString r3.2
  let r5 := readString r4.2
  let r6 := readString r5.2
  let t : Token := ⟨⟨r1.1, r4.1, r5.1, r2.1, r3.1⟩, r6.1⟩
  if r6.2 = [] then some t else none

theorem readUnary_unary (n : Nat) (rest : List Char) :
    readUnary (unary n ++ rest) = (n, rest) := by
  induction n with
  | zero => simp [unary, readUnary]
  | succ k ih =>
    have : unary (k + 1) ++ rest = 'i' :: (unary k ++ rest) := by
      simp [unary, List.replicate_succ]
    rw [this, readUnary, if_pos rfl, ih]

theorem readNats_writeNats (l : List Nat) (rest : List Char) :
    readNats l.length (writeNats l ++ rest) = (l, rest) := by
  induction l with
  | nil => simp [writeNats, readNats]
  | cons n ns ih =>
    have : writeNats (n :: ns) ++ rest = unary n ++ (writeNats ns ++ rest) := by
      simp [writeNats]
    rw [this, List.length_cons, readNats, readUnary_unary]
    simp [ih]

theorem readString_writeString (s : String) (rest : List Char) :
    readString (writeString s ++ rest) = (s, rest) := by
  have h := readNats_writeNats (s.data.map Char.toNat) rest
  simp only [List.length_map] at h
  simp only [readString, writeString, List.append_assoc, readUnary_unary]
  have hl : s.length = s.data.length := rfl
  rw [hl, h]
  simp [List.map_map, Function.comp_def]

theorem readToken_writeToken (t : Token) : readToken (writeToken t) = some t := by
  simp only [readToken, writeToken, readUnary_unary, readString_writeString]
  simp

theorem unary_noSpace (n : Nat) : ' ' ∉ unary n := by
  simp [unary, List.mem_replicate]

theorem writeNats_noSpace (l : List Nat) : ' ' ∉ writeNats l := by
  simp only [writeNats, List.mem_flatMap, not_exists, not_and]
  intro n _
  exact unary_noSpace n

theorem writeString_noSpace (s : String) : ' ' ∉ writeString s := by
  simp [writeString, unary_noSpace, writeNats_noSpace]

theorem writeToken_noSpace (t : Token) : ' ' ∉ writeToken t := by
  simp [writeToken, unary_noSpace, writeString_noSpace]

theorem writeToken_ne_nil (t : Token) : writeToken t ≠ [] := by
  simp [writeToken, unary]

/-- The `Jwt` instance. -/
def demoJwt : Jwt where
  encode t := String.mk (writeToken t)
  decode s := readToken s.data
  decode_encode t := readToken_writeToken t
  encode_noSpace t := writeToken_noSpace t
  encode_ne_empty t := by
    intro h
    exact writeToken_ne_nil t (congrArg String.data h)

/-- The `Bcrypt` instance: the digest is the salted password behind a marker. -/
def demoBcrypt : Bcrypt where
  hash pw _ _ := String.mk ('$' :: pw.data)
  compare pw digest := digest == String.mk ('$' :: pw.data)
  compare_hash := by intro pw _ _; simp
  hash_ne := by
    intro pw _ _ h
    have hlen : (pw.data.length + 1) = pw.data.length := congrArg (fun x => x.data.length) h
    omega

/-- The `EmailLib` instance: an address holds an `@`; normalising lowers the case. -/
def demoEmail : EmailLib where
  isEmail s := s.data.contains '@'
  normalizeEmail s := String.mk (s.data.map Char.toLower)
  normalize_at := by
    intro e h
    have hmem : '@' ∈ e.data := by simpa using h
    exact List.mem_map.2 ⟨'@', hmem, rfl⟩

/-- The application linked against the instance, with `JWT_SECRET` unset. -/
def demoApp : App := ⟨demoEmail, demoBcrypt, demoJwt, none⟩

/-- The characters of a string up to its first line terminator. -/
def firstLine (s : String) : List Char := s.data.takeWhile (fun c => !isLineTerminator c)

/-- A clock and generator values for evaluating single requests, with no store error. -/
def env0 : Env := ⟨1000, "salt", "sid-1", []⟩

/-! ## The validators -/

theorem isLowerAZ_eq (c : Char) : isLowerAZ c = c.isLower := by
  simp only [isLowerAZ, Char.isLower, Char.toNat, ge_iff_le, UInt32.le_def]
  rfl

theorem isUpperAZ_eq (c : Char) : isUpperAZ c = c.isUpper := by
  simp only [isUpperAZ, Char.isUpper, Char.toNat, ge_iff_le, UInt32.le_def]
  rfl

theorem isDigit09_eq (c : Char) : isDigit09 c = c.isDigit := by
  simp only [isDigit09, Char.isDigit, Char.toNat, ge_iff_le, UInt32.le_def]
  rfl

theorem toNat_eq_underscore (c : Char) : c.toNat = '_'.toNat ↔ c = '_' := by
  constructor
  · intro h
    exact Char.ext (UInt32.ext h)
  · intro h
    rw [h]

theorem isWordChar_iff (c : Char) :
    isWordChar c = true ↔ (c.isAlpha = true ∨ c.isDigit = true ∨ c = '_') := by
  simp only [isWordChar, isLowerAZ_eq, isUpperAZ_eq, isDigit09_eq, Char.isAlpha,
    Bool.or_eq_true, decide_eq_true_eq, toNat_eq_underscore]
  tauto

theorem wordStarEnd_iff (l : List Char) :
    wordStarEnd l = true ↔ ∀ c ∈ l, isWordChar c = true := by
  induction l with
  | nil => simp [wordStarEnd]
  | cons c cs ih => simp [wordStarEnd, ih]

theorem usernamePattern_iff (l : List Char) :
    usernamePattern l = true ↔ l ≠ [] ∧ ∀ c ∈ l, isWordChar c = true := by
  cases l with
  | nil => simp [usernamePattern]
  | cons c cs => simp [usernamePattern, wordStarEnd_iff]

theorem check_eq_nil (ok : Bool) (param msg value : String) :
    check ok param msg value = [] ↔ ok = true := by
  cases ok <;> simp [check]

theorem mem_check (ok : Bool) (param msg value : String) (e : ValidationError) :
    e ∈ check ok param msg value ↔ ok = false ∧ e = ⟨param, msg, value⟩ := by
  cases ok <;> simp [check]

theorem usernameErrors_eq_nil (u : String) :
    usernameErrors u = [] ↔ isLength 3 (some 20) u = true ∧ matchesUsername u = true := by
  simp [usernameErrors, check_eq_nil]

theorem passwordErrors_eq_nil (p : String) :
    passwordErrors p = [] ↔ isLength 6 none p = true ∧ matchesPassword p = true := by
  simp [passwordErrors, check_eq_nil]

theorem validateSignup_eq_nil (E : EmailLib) (b : SignupBody) :
    validateSignup E b = [] ↔
      usernameErrors b.username = [] ∧ E.isEmail b.email = true ∧ passwordErrors b.password = [] := by
  simp [validateSignup, emailErrors, check_eq_nil, and_assoc]

/-- A match of `.*[cls]` ends on a character of the class. -/
theorem dotStarThen_exists (cls : Char → Bool) (l : List Char) (h : dotStarThen cls l = true) :
    ∃ c ∈ l, cls c = true := by
  induction l with
  | nil => simp [dotStarThen] at h
  | cons c cs ih =>
    simp only [dotStarThen, Bool.or_eq_true, Bool.and_eq_true] at h
    rcases h with h | ⟨_, h⟩
    · exact ⟨c, List.mem_cons_self _ _, h⟩
    · obtain ⟨d, hd, hc⟩ := ih h
      exact ⟨d, List.mem_cons_of_mem _ hd, hc⟩

/-- For a class without line terminators, `.*[cls]` matches exactly when the first line
holds a character of the class. -/
theorem dotStarThen_firstLine (cls : Char → Bool)
    (hcls : ∀ c, cls c = true → isLineTerminator c = false) (l : List Char) :
    dotStarThen cls l = true ↔
      ∃ c ∈ l.takeWhile (fun c => !isLineTerminator c), cls c = true := by
  induction l with
  | nil => simp [dotStarThen]
  | cons c cs ih =>
    simp only [dotStarThen, Bool.or_eq_true, Bool.and_eq_true, List.takeWhile_cons]
    by_cases hlt : isLineTerminator c = true
    · have hc : cls c ≠ true := fun h => by simp [hcls c h] at hlt
      simp [hlt, hc]
    · simp only [Bool.not_eq_true] at hlt
      simp [hlt, ih]

theorem isLower_not_lineTerminator (c : Char) (h : isLowerAZ c = true) :
    isLineTerminator c = false := by
  simp only [isLowerAZ, Bool.and_eq_true, decide_eq_true_eq] at h
  have h1 : 'a'.toNat = 97 := rfl
  have h2 : 'z'.toNat = 122 := rfl
  simp only [isLineTerminator, Bool.or_eq_false_iff, decide_eq_false_iff_not]
  omega

theorem isUpper_not_lineTerminator (c : Char) (h : isUpperAZ c = true) :
    isLineTerminator c = false := by
  simp only [isUpperAZ, Bool.and_eq_true, decide_eq_true_eq] at h
  have h1 : 'A'.toNat = 65 := rfl
  have h2 : 'Z'.toNat = 90 := rfl
  simp only [isLineTerminator, Bool.or_eq_false_iff, decide_eq_false_iff_not]
  omega

theorem isDigit_not_lineTerminator (c : Char) (h : isDigit09 c = true) :
    isLineTerminator c = false := by
  simp only [isDigit09, Bool.and_eq_true, decide_eq_true_eq] at h
  have h1 : '0'.toNat = 48 := rfl
  have h2 : '9'.toNat = 57 := rfl
  simp only [isLineTerminator, Bool.or_eq_false_iff, decide_eq_false_iff_not]
  omega

/-- A failed validation is answered 400 with the error list, and nothing is written. -/
theorem signup_invalid (A : App) (s : State) (b : SignupBody) (env : Env)
    (h : validateSignup A.email b ≠ []) :
    signup A s b env = (⟨400, .validationFailed (validateSignup A.email b)⟩, s) := by
  have he : (validateSignup A.email b).isEmpty = false := by
    cases hv : validateSignup A.email b with
    | nil => exact absurd hv h
    | cons _ _ => rfl
  simp [signup, he]

/-- C6: a signup whose password holds no uppercase letter is answered 400 'Validation
failed', and the details list holds an entry for the field `password` with the message
about a lowercase letter, an uppercase letter and a number. -/
theorem signup_password_without_uppercase (A : App) (s : State) (b : SignupBody) (env : Env)
    (h : ∀ c ∈ b.password.data, c.isUpper = false) :
    ∃ details, signup A s b env = (⟨400, .validationFailed details⟩, s) ∧
      (⟨"password",
        "Password must contain at least one lowercase letter, one uppercase letter, and one number",
        b.password⟩ : ValidationError) ∈ details := by
  have hm : matchesPassword b.password = false := by
    cases hmp : matchesPassword b.password with
    | false => rfl
    | true =>
      simp only [matchesPassword, passwordPattern, Bool.and_eq_true] at hmp
      obtain ⟨c, hc, hu⟩ := dotStarThen_exists _ _ hmp.1.2
      rw [isUpperAZ_eq] at hu
      rw [h c hc] at hu
      cases hu
  have hmem : (⟨"password", msgPasswordRule, b.password⟩ : ValidationError) ∈
      validateSignup A.email b := by
    simp [validateSignup, passwordErrors, mem_check, hm]
  refine ⟨validateSignup A.email b, signup_invalid A s b env ?_, hmem⟩
  intro hnil
  rw [hnil] at hmem
  cases hmem

/-- Witness for C6 at the password `"abc123"`. -/
theorem signup_password_without_uppercase_witness :
    ∃ details,
      signup demoApp State.empty ⟨"nova1", "nova1@test.io", "abc123"⟩ env0 =
        (⟨400, .validationFailed details⟩, State.empty) ∧
      (⟨"password",
        "Password must contain at least one lowercase letter, one uppercase letter, and one number",
        "abc123"⟩ : ValidationError) ∈ details :=
  signup_password_without_uppercase demoApp State.empty ⟨"nova1", "nova1@test.io", "abc123"⟩ env0
    (by decide)

/-- C7: the password rule (at least 6 characters, with a lowercase letter, an uppercase
letter and a digit anywhere in the string) is not what the password chain computes on
`"abcdef\nA1"`: the string has nine characters, among them a lowercase letter, an
uppercase letter and a digit, and the chain rejects it with an error, because the
uppercase letter and the digit stand behind a line break. -/
theorem password_linebreak_counterexample :
    (6 ≤ "abcdef\nA1".length ∧ (∃ c ∈ "abcdef\nA1".data, c.isLower = true) ∧
      (∃ c ∈ "abcdef\nA1".data, c.isUpper = true) ∧
      (∃ c ∈ "abcdef\nA1".data, c.isDigit = true)) ∧
    passwordErrors "abcdef\nA1" ≠ [] := by
  decide

/-- What the password chain computes: it accepts a string exactly when it has at least 6
characters and its first line (the characters before the first line terminator) holds a
lowercase letter `a-z`, an uppercase letter `A-Z` and a digit `0-9`. -/
theorem password_validator_first_line (p : String) :
    passwordErrors p = [] ↔
      (6 ≤ p.length ∧ (∃ c ∈ firstLine p, c.isLower = true) ∧
        (∃ c ∈ firstLine p, c.isUpper = true) ∧ (∃ c ∈ firstLine p, c.isDigit = true)) := by
  rw [passwordErrors_eq_nil]
  simp only [isLength, matchesPassword, passwordPattern, Bool.and_eq_true, decide_eq_true_eq,
    and_true, firstLine]
  rw [dotStarThen_firstLine _ isLower_not_lineTerminator,
    dotStarThen_firstLine _ isUpper_not_lineTerminator,
    dotStarThen_firstLine _ isDigit_not_lineTerminator]
  simp only [isLowerAZ_eq, isUpperAZ_eq, isDigit09_eq, and_assoc]

/-- C8: the username chain accepts a string exactly when its length is between 3 and 20
and every character is an ASCII letter, a digit or an underscore; any other username
makes the signup handler answer 400. -/
theorem username_validator_spec (A : App) (s : State) (b : SignupBody) (env : Env) :
    (usernameErrors b.username = [] ↔
      (3 ≤ b.username.length ∧ b.username.length ≤ 20 ∧
        ∀ c ∈ b.username.data, c.isAlpha = true ∨ c.isDigit = true ∨ c = '_')) ∧
    (usernameErrors b.username ≠ [] → (signup A s b env).1.status = 400) := by
  constructor
  · rw [usernameErrors_eq_nil]
    simp only [isLength, matchesUsername, usernamePattern_iff, Bool.and_eq_true,
      decide_eq_true_eq, isWordChar_iff]
    constructor
    · rintro ⟨⟨h3, h20⟩, _, hall⟩
      exact ⟨h3, h20, hall⟩
    · rintro ⟨h3, h20, hall⟩
      refine ⟨⟨h3, h20⟩, ?_, hall⟩
      intro hnil
      have : b.username.length = 0 := by
        show b.username.data.length = 0
        rw [hnil]
        rfl
      omega
  · intro h
    have hv : validateSignup A.email b ≠ [] := by
      intro hnil
      exact h ((validateSignup_eq_nil A.email b).1 hnil).1
    rw [signup_invalid A s b env hv]

/-- Witness for C8: the username `"a!"` is answered 400. -/
theorem username_validator_spec_witness :
    (signup demoApp State.empty ⟨"a!", "nova1@test.io", "Abcdef1"⟩ env0).1.status = 400 :=
  (username_validator_spec demoApp State.empty ⟨"a!", "nova1@test.io", "Abcdef1"⟩ env0).2
    (by decide)

/-! ## Signup -/

/-- A store holding the user of the example scenario (`nova1`, password `Abcdef1`) and
the stats row created with it. -/
def stNova : State :=
  ⟨⟨[⟨1, "nova1", "nova1@test.io", "$Abcdef1", 900, none, true⟩],
    [⟨1, 1, some 0, some 0, some 0, some 0, some 0, 900⟩], []⟩, []⟩

theorem find?_of_exists {α : Type} (p : α → Bool) (l : List α) (h : ∃ x ∈ l, p x = true) :
    ∃ y, l.find? p = some y ∧ p y = true := by
  cases hf : l.find? p with
  | none =>
    obtain ⟨x, hx, hp⟩ := h
    have := List.find?_eq_none.1 hf x hx
    exact absurd hp this
  | some y => exact ⟨y, rfl, List.find?_some hf⟩

theorem le_foldr_max (ids : List Nat) (x : Nat) (h : x ∈ ids) : x ≤ ids.foldr max 0 := by
  induction ids with
  | nil => cases h
  | cons a as ih =>
    simp only [List.foldr_cons]
    rcases List.mem_cons.1 h with rfl | h
    · exact le_max_left _ _
    · exact le_trans (ih h) (le_max_right _ _)

/-- The id `nextId` hands out is larger than every id in use. -/
theorem lt_nextId (ids : List Nat) (x : Nat) (h : x ∈ ids) : x < nextId ids :=
  Nat.lt_succ_of_le (le_foldr_max ids x h)

/-- A valid signup that finds a row with the same username or the same normalized email
is answered 409 and writes nothing. -/
theorem signup_found (A : App) (s : State) (b : SignupBody) (env : Env)
    (hvalid : validateSignup A.email b = [])
    (hdup : ∃ u ∈ s.db.users,
      u.username = b.username ∨ u.email = A.email.normalizeEmail b.email)
    (hstore : env.fails 0 = false) :
    signup A s b env = (⟨409, .error "Username or email already exists"⟩, s) := by
  obtain ⟨u, hu, hm⟩ := hdup
  obtain ⟨y, hy, _⟩ := find?_of_exists
    (fun u => u.username == b.username || u.email == A.email.normalizeEmail b.email)
    s.db.users ⟨u, hu, by simpa using hm⟩
  simp [signup, hvalid, hstore, sanitizeSignup, hy]

/-- C1, as stated, fails: the username `nova1` is in the users table, the submitted
password `"abc123"` violates the password rule, and the signup is answered 400, not 409. -/
theorem signup_duplicate_bad_password_counterexample :
    (∃ u ∈ stNova.db.users, u.username = "nova1" ∧ u.email = "nova1@test.io") ∧
    (signup demoApp stNova ⟨"nova1", "nova1@test.io", "abc123"⟩ env0).1.status = 400 := by
  decide

/-- C1, amended: when the username or the normalized email of a signup is already in the
users table and the lookup succeeds, the answer is 409 if the request passes validation
and 400 if it does not. -/
theorem signup_duplicate_status (A : App) (s : State) (b : SignupBody) (env : Env)
    (hdup : ∃ u ∈ s.db.users,
      u.username = b.username ∨ u.email = A.email.normalizeEmail b.email)
    (hstore : env.fails 0 = false) :
    (signup A s b env).1.status = if validateSignup A.email b = [] then 409 else 400 := by
  by_cases hvalid : validateSignup A.email b = []
  · rw [signup_found A s b env hvalid hdup hstore, if_pos hvalid]
  · rw [signup_invalid A s b env hvalid, if_neg hvalid]

/-- Witness for C1, amended: the taken username with a valid password is answered 409. -/
theorem signup_duplicate_status_witness :
    (signup demoApp stNova ⟨"nova1", "other@test.io", "Abcdef1"⟩ env0).1.status =
      if validateSignup demoApp.email ⟨"nova1", "other@test.io", "Abcdef1"⟩ = [] then 409
      else 400 :=
  signup_duplicate_status demoApp stNova ⟨"nova1", "other@test.io", "Abcdef1"⟩ env0
    (by decide) (by decide)

/-- C9: a signup that passes validation while some stored user, active or not, has the
same username or the same normalized email is answered 409 'Username or email already
exists', and the state (users and stats tables included) is left as it was. -/
theorem signup_conflict (A : App) (s : State) (b : SignupBody) (env : Env)
    (hvalid : validateSignup A.email b = [])
    (hdup : ∃ u ∈ s.db.users,
      u.username = b.username ∨ u.email = A.email.normalizeEmail b.email)
    (hstore : env.fails 0 = false) :
    (signup A s b env).1 = ⟨409, .error "Username or email already exists"⟩ ∧
    (signup A s b env).2 = s ∧
    (signup A s b env).2.db.users = s.db.users ∧
    (signup A s b env).2.db.stats = s.db.stats := by
  rw [signup_found A s b env hvalid hdup hstore]
  exact ⟨rfl, rfl, rfl, rfl⟩

/-- Witness for C9: the email of `nova1`, submitted in upper case with a new username. -/
theorem signup_conflict_witness :
    (signup demoApp stNova ⟨"nova2", "NOVA1@test.io", "Abcdef1"⟩ env0).1 =
      ⟨409, .error "Username or email already exists"⟩ ∧
    (signup demoApp stNova ⟨"nova2", "NOVA1@test.io", "Abcdef1"⟩ env0).2 = stNova ∧
    (signup demoApp stNova ⟨"nova2", "NOVA1@test.io", "Abcdef1"⟩ env0).2.db.users =
      stNova.db.users ∧
    (signup demoApp stNova ⟨"nova2", "NOVA1@test.io", "Abcdef1"⟩ env0).2.db.stats =
      stNova.db.stats :=
  signup_conflict demoApp stNova ⟨"nova2", "NOVA1@test.io", "Abcdef1"⟩ env0
    (by decide) (by decide) (by decide)

/-- A valid signup that finds no row and meets no store error inserts the user row and
its stats row and is answered 201 with the new id. -/
theorem signup_inserts (A : App) (s : State) (b : SignupBody) (env : Env)
    (hvalid : validateSignup A.email b = [])
    (hfresh : ∀ u ∈ s.db.users,
      u.username ≠ b.username ∧ u.email ≠ A.email.normalizeEmail b.email)
    (h0 : env.fails 0 = false) (h1 : env.fails 1 = false) (h2 : env.fails 2 = false) :
    signup A s b env =
      (⟨201, .userCreated (nextId (s.db.users.map (·.id)))⟩,
        ⟨insertStats
          ⟨s.db.users ++
            [⟨nextId (s.db.users.map (·.id)), b.username, A.email.normalizeEmail b.email,
              A.bcrypt.hash b.password 12 env.salt, env.now, none, true⟩],
            s.db.stats, s.db.achievements⟩
          (nextId (s.db.users.map (·.id))) env.now, s.sessions⟩) := by
  have hnone : s.db.users.find?
      (fun u => u.username == b.username || u.email == A.email.normalizeEmail b.email) = none := by
    rw [List.find?_eq_none]
    intro u hu
    have := hfresh u hu
    simp [this.1, this.2]
  have hany : s.db.users.any
      (fun u => u.username == b.username || u.email == A.email.normalizeEmail b.email) = false := by
    rw [List.any_eq_false]
    intro u hu
    have := hfresh u hu
    simp [this.1, this.2]
  simp [signup, hvalid, h0, h1, h2, sanitizeSignup, hnone, insertUser, hany]

/-- C10: a signup that passes validation, matches no stored user by username or
normalized email, and meets no store error is answered 201 with the id of a new user row;
the row holds the submitted username, the normalized email and the bcrypt digest (12
rounds) of the password, which verifies against the password and differs from it; a stats
row with all counters zero is inserted for that id. -/
theorem signup_creates_user (A : App) (s : State) (b : SignupBody) (env : Env)
    (hvalid : validateSignup A.email b = [])
    (hfresh : ∀ u ∈ s.db.users,
      u.username ≠ b.username ∧ u.email ≠ A.email.normalizeEmail b.email)
    (hstore : env.failing = []) :
    ∃ (row : UserRow) (st : StatsRow),
      (signup A s b env).1 = ⟨201, .userCreated row.id⟩ ∧
      (signup A s b env).2.db.users = s.db.users ++ [row] ∧
      (signup A s b env).2.db.stats = s.db.stats ++ [st] ∧
      (∀ u ∈ s.db.users, u.id ≠ row.id) ∧
      row.username = b.username ∧
      row.email = A.email.normalizeEmail b.email ∧
      row.password = A.bcrypt.hash b.password 12 env.salt ∧
      A.bcrypt.compare b.password row.password = true ∧
      row.password ≠ b.password ∧
      st.user_id = row.id ∧
      st.analyses = some 0 ∧ st.discoveries = some 0 ∧ st.stars_explored = some 0 ∧
      st.uploads = some 0 ∧ st.total_xp = some 0 := by
  have hf : ∀ n, env.fails n = false := by
    intro n
    simp [Env.fails, hstore]
  refine ⟨⟨nextId (s.db.users.map (·.id)), b.username, A.email.normalizeEmail b.email,
      A.bcrypt.hash b.password 12 env.salt, env.now, none, true⟩,
    ⟨nextId (s.db.stats.map (·.id)), nextId (s.db.users.map (·.id)),
      some 0, some 0, some 0, some 0, some 0, env.now⟩, ?_⟩
  rw [signup_inserts A s b env hvalid hfresh (hf 0) (hf 1) (hf 2)]
  refine ⟨rfl, rfl, rfl, ?_, rfl, rfl, rfl, A.bcrypt.compare_hash _ _ _,
    A.bcrypt.hash_ne _ _ _, rfl, rfl, rfl, rfl, rfl, rfl⟩
  intro u hu heq
  have hlt := lt_nextId (s.db.users.map (·.id)) u.id (List.mem_map_of_mem _ hu)
  simp only at heq
  omega

/-- Witness for C10: the signup of the example scenario on the empty store. -/
theorem signup_creates_user_witness :
    ∃ (row : UserRow) (st : StatsRow),
      (signup demoApp State.empty ⟨"nova1", "nova1@test.io", "Abcdef1"⟩ env0).1 =
        ⟨201, .userCreated row.id⟩ ∧
      (signup demoApp State.empty ⟨"nova1", "nova1@test.io", "Abcdef1"⟩ env0).2.db.users =
        State.empty.db.users ++ [row] ∧
      (signup demoApp State.empty ⟨"nova1", "nova1@test.io", "Abcdef1"⟩ env0).2.db.stats =
        State.empty.db.stats ++ [st] ∧
      (∀ u ∈ State.empty.db.users, u.id ≠ row.id) ∧
      row.username = "nova1" ∧
      row.email = demoApp.email.normalizeEmail "nova1@test.io" ∧
      row.password = demoApp.bcrypt.hash "Abcdef1" 12 env0.salt ∧
      demoApp.bcrypt.compare "Abcdef1" row.password = true ∧
      row.password ≠ "Abcdef1" ∧
      st.user_id = row.id ∧
      st.analyses = some 0 ∧ st.discoveries = some 0 ∧ st.stars_explored = some 0 ∧
      st.uploads = some 0 ∧ st.total_xp = some 0 :=
  signup_creates_user demoApp State.empty ⟨"nova1", "nova1@test.io", "Abcdef1"⟩ env0
    (by decide) (by decide) (by decide)

/-! ## Login -/

theorem notEmpty_iff (x : String) : notEmpty x = true ↔ x ≠ "" := by
  cases x with
  | mk d =>
    cases d with
    | nil =>
      constructor
      · intro h
        exact absurd h (by decide)
      · intro h
        exact absurd rfl h
    | cons c cs =>
      constructor
      · intro _ h
        have hd : c :: cs = [] := congrArg String.data h
        cases hd
      · intro _
        rfl

theorem validateLogin_eq_nil (b : LoginBody) :
    validateLogin b = [] ↔ b.username ≠ "" ∧ b.password ≠ "" := by
  simp [validateLogin, check_eq_nil, notEmpty_iff]

/-- A login with both fields present, whose lookup succeeds, and for which no active row
named by the identifier has a digest matching the password, is answered 401 'Invalid
credentials' and writes nothing. -/
theorem login_rejected (A : App) (s : State) (cookie : Option String) (b : LoginBody)
    (env : Env) (hu : b.username ≠ "") (hp : b.password ≠ "")
    (hstore : env.fails 0 = false)
    (hwrong : ∀ u ∈ s.db.users, u.is_active = true →
      (u.username = b.username ∨ u.email = b.username) →
      A.bcrypt.compare b.password u.password = false) :
    login A s cookie b env = (⟨401, .error "Invalid credentials"⟩, s) := by
  have hv : validateLogin b = [] := (validateLogin_eq_nil b).2 ⟨hu, hp⟩
  cases hf : s.db.users.find?
      (fun u => (u.username == b.username || u.email == b.username) && u.is_active) with
  | none => simp [login, hv, hstore, hf]
  | some user =>
    have hmem := List.mem_of_find?_eq_some hf
    have hsat := List.find?_some hf
    simp only [Bool.and_eq_true, Bool.or_eq_true, beq_iff_eq] at hsat
    have hc := hwrong user hmem hsat.2 hsat.1
    simp [login, hv, hstore, hf, hc]

/-- C2, as stated, fails: the empty identifier matches no user of the store, and a login
with it is answered 400 'Validation failed', while the login with the existing active
username `nova1` and the same wrong password is answered 401. -/
theorem login_empty_identifier_counterexample :
    (∀ u ∈ stNova.db.users, u.username ≠ "" ∧ u.email ≠ "") ∧
    (∃ u ∈ stNova.db.users, u.username = "nova1" ∧ u.is_active = true ∧
      demoApp.bcrypt.compare "Wrong1x" u.password = false) ∧
    (login demoApp stNova none ⟨"nova1", "Wrong1x"⟩ env0).1 =
      ⟨401, .error "Invalid credentials"⟩ ∧
    (login demoApp stNova none ⟨"", "Wrong1x"⟩ env0).1 =
      ⟨400, .validationFailed [⟨"username", "Username is required", ""⟩]⟩ := by
  decide

/-- C2, amended: in every store state, a login with a non-empty identifier that is the
username of an active user and a non-empty password matching no active user that
identifier names, and a login with a non-empty identifier that matches no user and any
non-empty password, are both answered with status 401 and the body
`{ error: 'Invalid credentials' }` and leave the state as it was (the lookups meeting no
store error). -/
theorem login_non_enumeration (A : App) (s : State) (cookie₁ cookie₂ : Option String)
    (ident₁ pw₁ ident₂ pw₂ : String) (env₁ env₂ : Env)
    (hid₁ : ident₁ ≠ "") (hpw₁ : pw₁ ≠ "") (hid₂ : ident₂ ≠ "") (hpw₂ : pw₂ ≠ "")
    (hexists : ∃ u ∈ s.db.users, u.username = ident₁ ∧ u.is_active = true ∧
      A.bcrypt.compare pw₁ u.password = false)
    (hwrong : ∀ u ∈ s.db.users, u.is_active = true →
      (u.username = ident₁ ∨ u.email = ident₁) → A.bcrypt.compare pw₁ u.password = false)
    (hnone : ∀ u ∈ s.db.users, u.username ≠ ident₂ ∧ u.email ≠ ident₂)
    (hstore₁ : env₁.fails 0 = false) (hstore₂ : env₂.fails 0 = false) :
    login A s cookie₁ ⟨ident₁, pw₁⟩ env₁ = login A s cookie₂ ⟨ident₂, pw₂⟩ env₂ ∧
    (login A s cookie₁ ⟨ident₁, pw₁⟩ env₁).1 = ⟨401, .error "Invalid credentials"⟩ ∧
    (login A s cookie₂ ⟨ident₂, pw₂⟩ env₂).1 = ⟨401, .error "Invalid credentials"⟩ ∧
    (∃ u ∈ s.db.users, (u.username = ident₁ ∨ u.email = ident₁) ∧ u.is_active = true) := by
  have h₁ := login_rejected A s cookie₁ ⟨ident₁, pw₁⟩ env₁ hid₁ hpw₁ hstore₁ hwrong
  have h₂ := login_rejected A s cookie₂ ⟨ident₂, pw₂⟩ env₂ hid₂ hpw₂ hstore₂
    (fun u hu _ hm => by
      rcases hm with hm | hm
      · exact absurd hm (hnone u hu).1
      · exact absurd hm (hnone u hu).2)
  obtain ⟨u, hu, hname, hact, _⟩ := hexists
  rw [h₁, h₂]
  exact ⟨rfl, rfl, rfl, u, hu, Or.inl hname, hact⟩

/-- Witness for C2, amended: `nova1` with a wrong password against the unknown `ghost`. -/
theorem login_non_enumeration_witness :
    login demoApp stNova none ⟨"nova1", "Wrong1x"⟩ env0 =
      login demoApp stNova none ⟨"ghost", "Abcdef1"⟩ env0 ∧
    (login demoApp stNova none ⟨"nova1", "Wrong1x"⟩ env0).1 =
      ⟨401, .error "Invalid credentials"⟩ ∧
    (login demoApp stNova none ⟨"ghost", "Abcdef1"⟩ env0).1 =
      ⟨401, .error "Invalid credentials"⟩ ∧
    (∃ u ∈ stNova.db.users, (u.username = "nova1" ∨ u.email = "nova1") ∧ u.is_active = true) :=
  login_non_enumeration demoApp stNova none none "nova1" "Wrong1x" "ghost" "Abcdef1" env0 env0
    (by decide) (by decide) (by decide) (by decide) (by decide) (by decide) (by decide)
    (by decide) (by decide)

/-! ## Tokens -/

theorem splitSpace_ne_nil (l : List Char) : splitSpace l ≠ [] := by
  cases l with
  | nil => simp [splitSpace]
  | cons c cs =>
    by_cases hc : c = ' '
    · simp [splitSpace, hc]
    · cases h : splitSpace cs <;> simp [splitSpace, hc, h]

/-- A string without a space is a single field. -/
theorem splitSpace_noSpace (l : List Char) (h : ' ' ∉ l) : splitSpace l = [l] := by
  induction l with
  | nil => rfl
  | cons c cs ih =>
    have hc : c ≠ ' ' := fun e => h (by simp [e])
    have hcs : ' ' ∉ cs := fun e => h (List.mem_cons_of_mem _ e)
    simp [splitSpace, hc, ih hcs]

/-- The first field ends at the first space. -/
theorem splitSpace_append (a b : List Char) (h : ' ' ∉ a) :
    splitSpace (a ++ ' ' :: b) = a :: splitSpace b := by
  induction a with
  | nil => simp [splitSpace]
  | cons c cs ih =>
    have hc : c ≠ ' ' := fun e => h (by simp [e])
    have hcs : ' ' ∉ cs := fun e => h (List.mem_cons_of_mem _ e)
    simp [splitSpace, hc, ih hcs]

/-- The header `Bearer <token>` yields the token, when the token holds no space. -/
theorem headerToken_bearer (token : String) (h : ' ' ∉ token.data) :
    headerToken (some ("Bearer " ++ token)) = some token := by
  have hne : ("Bearer " ++ token) ≠ "" := by
    intro e
    have hd : ("Bearer " ++ token).data = [] := congrArg String.data e
    rw [String.data_append] at hd
    cases hd
  have hdata : ("Bearer " ++ token).data = ['B', 'e', 'a', 'r', 'e', 'r'] ++ ' ' :: token.data := by
    rw [String.data_append]
    rfl
  simp only [headerToken, if_neg hne, hdata]
  rw [splitSpace_append _ _ (by decide), splitSpace_noSpace _ h]
  rfl

/-- What `jwt.verify` answers for a token `jwt.sign` made under the same secret. -/
theorem jwtVerify_jwtSign (J : Jwt) (userId : Nat) (username email secret : String)
    (t now : Nat) :
    jwtVerify J (jwtSign J userId username email secret t) secret now =
      if now ≥ t + expiresIn then none
      else some ⟨userId, username, email, t, t + expiresIn⟩ := by
  simp [jwtVerify, jwtSign, J.decode_encode]

/-- What the middleware does with the header `Bearer <token>` for a token the server
signed at clock `t`. -/
theorem authenticateToken_issued (A : App) (userId : Nat) (username email : String)
    (t now : Nat) :
    authenticateToken A
        (some ("Bearer " ++ jwtSign A.jwt userId username email A.JWT_SECRET t)) now =
      if now ≥ t + expiresIn then .error ⟨403, .error "Invalid or expired token"⟩
      else .ok ⟨userId, username, email, t, t + expiresIn⟩ := by
  have hns : ' ' ∉ (jwtSign A.jwt userId username email A.JWT_SECRET t).data :=
    A.jwt.encode_noSpace _
  have hne : jwtSign A.jwt userId username email A.JWT_SECRET t ≠ "" :=
    A.jwt.encode_ne_empty _
  simp only [authenticateToken, headerToken_bearer _ hns, if_neg hne, jwtVerify_jwtSign]
  by_cases hexp : now ≥ t + expiresIn
  · simp only [if_pos hexp]
  · simp only [if_neg hexp]

/-- A login answered 200 found an active row named by the identifier whose digest
matches the password; the body carries that row's id, username and email and a token
signed for them at the clock of the request. -/
theorem login_ok_inv (A : App) (s s' : State) (cookie : Option String) (b : LoginBody)
    (env : Env) (token : String) (id : Nat) (username email : String)
    (h : login A s cookie b env = (⟨200, .loginOk token id username email⟩, s')) :
    ∃ u ∈ s.db.users, (u.username = b.username ∨ u.email = b.username) ∧ u.is_active = true ∧
      A.bcrypt.compare b.password u.password = true ∧
      id = u.id ∧ username = u.username ∧ email = u.email ∧
      token = jwtSign A.jwt u.id u.username u.email A.JWT_SECRET env.now := by
  unfold login at h
  simp only at h
  split at h
  · cases h
  · split at h
    · cases h
    · split at h
      · cases h
      · rename_i user hf
        split at h
        · cases h
        · rename_i hc
          split at h
          · cases h
          · have hmem := List.mem_of_find?_eq_some hf
            have hsat := List.find?_some hf
            simp only [Bool.and_eq_true, Bool.or_eq_true, beq_iff_eq] at hsat
            simp only [Response.json, Prod.mk.injEq, Response.mk.injEq, Body.loginOk.injEq,
              true_and] at h
            obtain ⟨⟨ht, hi, hu, he⟩, _⟩ := h
            refine ⟨user, hmem, hsat.1, hsat.2, ?_, hi.symm, hu.symm, he.symm, ht.symm⟩
            simpa using hc

/-- The token the login of `nova1` at clock 1000 issues in the instance. -/
def novaToken : String := jwtSign demoApp.jwt 1 "nova1" "nova1@test.io" demoApp.JWT_SECRET 1000

/-- An environment at clock `now` with no store error. -/
def envAt (now : Nat) : Env := ⟨now, "salt", "sid-1", []⟩

/-- A route behind the middleware runs its handler on the payload the middleware
accepted. -/
theorem withAuth_ok (A : App) (s : State) (auth : Option String) (env : Env) (user : Payload)
    (handler : Payload → Response × State)
    (h : authenticateToken A auth env.now = .ok user) :
    withAuth A s auth env handler = handler user := by
  simp [withAuth, h]

/-- C3: for a token issued by a successful login of user `u` at clock `t`, at every time
before `t + 24h` the middleware accepts the header `Bearer <token>` and attaches claims
with the id, username and email of `u`, so that the profile, stats, achievement and
verify-token routes run their handlers on these claims; at every time after `t + 24h` the
middleware answers 403 'Invalid or expired token'. -/
theorem token_lifetime (A : App) (s s' : State) (cookie : Option String) (b : LoginBody)
    (env : Env) (token : String) (id : Nat) (username email : String)
    (hlogin : login A s cookie b env = (⟨200, .loginOk token id username email⟩, s')) :
    ∃ u ∈ s.db.users, (u.username = b.username ∨ u.email = b.username) ∧
      id = u.id ∧ username = u.username ∧ email = u.email ∧
      (∀ now, now < env.now + 24 * 60 * 60 →
        ∃ claims, authenticateToken A (some ("Bearer " ++ token)) now = .ok claims ∧
          claims.userId = u.id ∧ claims.username = u.username ∧ claims.email = u.email ∧
          ∀ (s₂ : State) (e : Env) (body : StatsBody) (aid : Option String), e.now = now →
            handle A s₂ (.profile (some ("Bearer " ++ token))) e = profile s₂ claims e ∧
            handle A s₂ (.getUserStats (some ("Bearer " ++ token))) e =
              getUserStats s₂ claims e ∧
            handle A s₂ (.postUserStats (some ("Bearer " ++ token)) body) e =
              postUserStats s₂ claims body e ∧
            handle A s₂ (.getAchievements (some ("Bearer " ++ token))) e =
              getAchievements s₂ claims e ∧
            handle A s₂ (.postAchievements (some ("Bearer " ++ token)) aid) e =
              postAchievements s₂ claims aid e ∧
            handle A s₂ (.verifyToken (some ("Bearer " ++ token))) e =
              (⟨200, .tokenValid u.id u.username u.email⟩, s₂)) ∧
      (∀ now, env.now + 24 * 60 * 60 < now →
        authenticateToken A (some ("Bearer " ++ token)) now =
          .error ⟨403, .error "Invalid or expired token"⟩) := by
  obtain ⟨u, hu, hname, _, _, hid, hun, hem, htok⟩ :=
    login_ok_inv A s s' cookie b env token id username email hlogin
  refine ⟨u, hu, hname, hid, hun, hem, ?_, ?_⟩
  · intro now hnow
    have hacc : authenticateToken A (some ("Bearer " ++ token)) now =
        .ok ⟨u.id, u.username, u.email, env.now, env.now + expiresIn⟩ := by
      rw [htok, authenticateToken_issued, if_neg]
      simp only [expiresIn, ge_iff_le, not_le]
      exact hnow
    refine ⟨_, hacc, rfl, rfl, rfl, ?_⟩
    intro s₂ e body aid he
    rw [← he] at hacc
    simp only [handle]
    rw [withAuth_ok A s₂ _ e _ _ hacc, withAuth_ok A s₂ _ e _ _ hacc,
      withAuth_ok A s₂ _ e _ _ hacc, withAuth_ok A s₂ _ e _ _ hacc,
      withAuth_ok A s₂ _ e _ _ hacc, withAuth_ok A s₂ _ e _ _ hacc]
    exact ⟨rfl, rfl, rfl, rfl, rfl, rfl⟩
  · intro now hnow
    rw [htok, authenticateToken_issued, if_pos]
    simp only [expiresIn, ge_iff_le]
    exact Nat.le_of_lt hnow

/-- The login of `nova1` in the instance is answered 200 with `novaToken`. -/
theorem login_nova :
    login demoApp stNova none ⟨"nova1", "Abcdef1"⟩ env0 =
      (⟨200, .loginOk novaToken 1 "nova1" "nova1@test.io"⟩,
        (login demoApp stNova none ⟨"nova1", "Abcdef1"⟩ env0).2) := by
  rfl

/-- An environment in which the second store call of the request fails. -/
def envUpdateFails : Env := ⟨1000, "salt", "sid-1", [1]⟩

/-- The login of `nova1` in the instance when the `UPDATE` of `last_login` fails: status 200
with the body cut short, and the state as it was. -/
theorem login_nova_update_fails :
    login demoApp stNova none ⟨"nova1", "Abcdef1"⟩ envUpdateFails =
      (⟨200, .loginCutShort novaToken 1 "nova1" "nova1@test.io"⟩, stNova) := by
  rfl

/-- Witness for C3: the token of `nova1`, issued at clock 1000. -/
theorem token_lifetime_witness :
    ∃ u ∈ stNova.db.users, (u.username = "nova1" ∨ u.email = "nova1") ∧
      1 = u.id ∧ "nova1" = u.username ∧ "nova1@test.io" = u.email ∧
      (∀ now, now < env0.now + 24 * 60 * 60 →
        ∃ claims, authenticateToken demoApp (some ("Bearer " ++ novaToken)) now = .ok claims ∧
          claims.userId = u.id ∧ claims.username = u.username ∧ claims.email = u.email ∧
          ∀ (s₂ : State) (e : Env) (body : StatsBody) (aid : Option String), e.now = now →
            handle demoApp s₂ (.profile (some ("Bearer " ++ novaToken))) e =
              profile s₂ claims e ∧
            handle demoApp s₂ (.getUserStats (some ("Bearer " ++ novaToken))) e =
              getUserStats s₂ claims e ∧
            handle demoApp s₂ (.postUserStats (some ("Bearer " ++ novaToken)) body) e =
              postUserStats s₂ claims body e ∧
            handle demoApp s₂ (.getAchievements (some ("Bearer " ++ novaToken))) e =
              getAchievements s₂ claims e ∧
            handle demoApp s₂ (.postAchievements (some ("Bearer " ++ novaToken)) aid) e =
              postAchievements s₂ claims aid e ∧
            handle demoApp s₂ (.verifyToken (some ("Bearer " ++ novaToken))) e =
              (⟨200, .tokenValid u.id u.username u.email⟩, s₂)) ∧
      (∀ now, env0.now + 24 * 60 * 60 < now →
        authenticateToken demoApp (some ("Bearer " ++ novaToken)) now =
          .error ⟨403, .error "Invalid or expired token"⟩) :=
  token_lifetime demoApp stNova _ none ⟨"nova1", "Abcdef1"⟩ env0 novaToken 1 "nova1"
    "nova1@test.io" login_nova

/-! ## Achievements -/

/-- The header `Bearer novaToken` authenticates as user 1 at every clock before the
expiry of the token. -/
theorem authenticate_nova (now : Nat) (h : now < 1000 + expiresIn) :
    authenticateToken demoApp (some ("Bearer " ++ novaToken)) now =
      .ok ⟨1, "nova1", "nova1@test.io", 1000, 1000 + expiresIn⟩ := by
  rw [novaToken, authenticateToken_issued, if_neg]
  exact Nat.not_le.2 h

/-- Unlocking an achievement the user does not have yet inserts its row and is answered
200. -/
theorem postAchievements_new (s : State) (user : Payload) (aid : String) (env : Env)
    (haid : aid ≠ "")
    (hnew : ∀ r ∈ s.db.achievements, ¬ (r.user_id = user.userId ∧ r.achievement_id = aid))
    (h0 : env.fails 0 = false) (h1 : env.fails 1 = false) :
    postAchievements s user (some aid) env =
      (⟨200, .achievementUnlocked aid⟩,
        { s with db := insertAchievement s.db user.userId aid env.now }) := by
  have hnone : s.db.achievements.find?
      (fun r => r.user_id == user.userId && r.achievement_id == aid) = none := by
    rw [List.find?_eq_none]
    intro r hr
    have := hnew r hr
    simpa using this
  simp [postAchievements, haid, h0, h1, hnone, Response.json]

/-- Unlocking an achievement the user already has is answered 409 and writes nothing. -/
theorem postAchievements_dup (s : State) (user : Payload) (aid : String) (env : Env)
    (haid : aid ≠ "")
    (hold : ∃ r ∈ s.db.achievements, r.user_id = user.userId ∧ r.achievement_id = aid)
    (h0 : env.fails 0 = false) :
    postAchievements s user (some aid) env =
      (⟨409, .error "Achievement already unlocked"⟩, s) := by
  obtain ⟨r, hr, hm⟩ := hold
  obtain ⟨y, hy, _⟩ := find?_of_exists
    (fun r => r.user_id == user.userId && r.achievement_id == aid)
    s.db.achievements ⟨r, hr, by simpa using hm⟩
  simp [postAchievements, haid, h0, hy]

/-- C4: when a user authenticated on both requests posts the same non-empty
`achievementId`, not unlocked by that user before, twice in a row, the first request is
answered 200, the second 409 'Achievement already unlocked', and afterwards exactly one
row for that user and achievement is stored. -/
theorem achievement_twice (A : App) (s : State) (auth₁ auth₂ : Option String)
    (env₁ env₂ : Env) (user₁ user₂ : Payload) (aid : String)
    (hauth₁ : authenticateToken A auth₁ env₁.now = .ok user₁)
    (hauth₂ : authenticateToken A auth₂ env₂.now = .ok user₂)
    (hsame : user₂.userId = user₁.userId)
    (haid : aid ≠ "")
    (hnew : ∀ r ∈ s.db.achievements, ¬ (r.user_id = user₁.userId ∧ r.achievement_id = aid))
    (hstore₁ : env₁.failing = []) (hstore₂ : env₂.failing = []) :
    (handle A s (.postAchievements auth₁ (some aid)) env₁).1 =
      ⟨200, .achievementUnlocked aid⟩ ∧
    (handle A (handle A s (.postAchievements auth₁ (some aid)) env₁).2
      (.postAchievements auth₂ (some aid)) env₂).1 =
      ⟨409, .error "Achievement already unlocked"⟩ ∧
    ((handle A (handle A s (.postAchievements auth₁ (some aid)) env₁).2
      (.postAchievements auth₂ (some aid)) env₂).2.db.achievements.filter
        (fun r => r.user_id == user₁.userId && r.achievement_id == aid)).length = 1 := by
  have hf₁ : ∀ n, env₁.fails n = false := fun n => by simp [Env.fails, hstore₁]
  have hf₂ : ∀ n, env₂.fails n = false := fun n => by simp [Env.fails, hstore₂]
  have hfirst : handle A s (.postAchievements auth₁ (some aid)) env₁ =
      (⟨200, .achievementUnlocked aid⟩,
        { s with db := insertAchievement s.db user₁.userId aid env₁.now }) := by
    simp only [handle]
    rw [withAuth_ok A s _ env₁ _ _ hauth₁]
    exact postAchievements_new s user₁ aid env₁ haid hnew (hf₁ 0) (hf₁ 1)
  have hsecond : handle A { s with db := insertAchievement s.db user₁.userId aid env₁.now }
      (.postAchievements auth₂ (some aid)) env₂ =
      (⟨409, .error "Achievement already unlocked"⟩,
        { s with db := insertAchievement s.db user₁.userId aid env₁.now }) := by
    simp only [handle]
    rw [withAuth_ok A _ _ env₂ _ _ hauth₂]
    apply postAchievements_dup _ user₂ aid env₂ haid _ (hf₂ 0)
    refine ⟨⟨nextId (s.db.achievements.map (·.id)), user₁.userId, aid, env₁.now⟩, ?_, ?_⟩
    · simp [insertAchievement]
    · exact ⟨hsame.symm, rfl⟩
  rw [hfirst, hsecond]
  refine ⟨rfl, rfl, ?_⟩
  have hold : s.db.achievements.filter
      (fun r => r.user_id == user₁.userId && r.achievement_id == aid) = [] := by
    rw [List.filter_eq_nil_iff]
    intro r hr
    have := hnew r hr
    simpa using this
  simp [insertAchievement, List.filter_append, hold]

/-- Witness for C4: user 1 unlocks `first_analysis` twice, at clocks 2000 and 2001. -/
theorem achievement_twice_witness :
    (handle demoApp stNova
      (.postAchievements (some ("Bearer " ++ novaToken)) (some "first_analysis"))
      (envAt 2000)).1 = ⟨200, .achievementUnlocked "first_analysis"⟩ ∧
    (handle demoApp
      (handle demoApp stNova
        (.postAchievements (some ("Bearer " ++ novaToken)) (some "first_analysis"))
        (envAt 2000)).2
      (.postAchievements (some ("Bearer " ++ novaToken)) (some "first_analysis"))
      (envAt 2001)).1 = ⟨409, .error "Achievement already unlocked"⟩ ∧
    ((handle demoApp
      (handle demoApp stNova
        (.postAchievements (some ("Bearer " ++ novaToken)) (some "first_analysis"))
        (envAt 2000)).2
      (.postAchievements (some ("Bearer " ++ novaToken)) (some "first_analysis"))
      (envAt 2001)).2.db.achievements.filter
        (fun r => r.user_id == 1 && r.achievement_id == "first_analysis")).length = 1 :=
  achievement_twice demoApp stNova _ _ (envAt 2000) (envAt 2001)
    ⟨1, "nova1", "nova1@test.io", 1000, 1000 + expiresIn⟩
    ⟨1, "nova1", "nova1@test.io", 1000, 1000 + expiresIn⟩ "first_analysis"
    (authenticate_nova 2000 (by decide)) (authenticate_nova 2001 (by decide)) rfl
    (by decide) (by decide) rfl rfl

/-! ## Stats of a new user -/

/-- Whether a request is a `POST /api/user-stats` the middleware lets through with the
user id `uid`. -/
def postsStatsAs (A : App) (uid : Nat) (r : Request) (env : Env) : Bool :=
  match r with
  | .postUserStats auth _ =>
    match authenticateToken A auth env.now with
    | .ok user => user.userId == uid
    | .error _ => false
  | _ => false

/-- Every stats row of user `uid` has all five counters at zero. -/
def ZeroStats (uid : Nat) (s : State) : Prop :=
  ∀ r ∈ s.db.stats, r.user_id = uid →
    r.analyses = some 0 ∧ r.discoveries = some 0 ∧ r.stars_explored = some 0 ∧
      r.uploads = some 0 ∧ r.total_xp = some 0

theorem zeroStats_of_stats_eq (uid : Nat) (s t : State) (h : t.db.stats = s.db.stats)
    (hz : ZeroStats uid s) : ZeroStats uid t := by
  intro r hr
  rw [h] at hr
  exact hz r hr

theorem zeroStats_insertStats (uid : Nat) (s : State) (db : Db) (userId now : Nat)
    (h : db.stats = s.db.stats) (hz : ZeroStats uid s) :
    ZeroStats uid { s with db := insertStats db userId now } := by
  intro r hr _
  simp only [insertStats, h, List.mem_append, List.mem_singleton] at hr
  rcases hr with hr | rfl
  · exact hz r hr ‹_›
  · exact ⟨rfl, rfl, rfl, rfl, rfl⟩

theorem signup_zeroStats (A : App) (uid : Nat) (s : State) (b : SignupBody) (env : Env)
    (hz : ZeroStats uid s) : ZeroStats uid (signup A s b env).2 := by
  unfold signup
  simp only
  split
  · exact hz
  · split
    · exact hz
    · split
      · exact hz
      · split
        · exact hz
        · rename_i db1 lastID hins
          have hst : db1.stats = s.db.stats := by
            unfold insertUser at hins
            split at hins
            · cases hins
            · split at hins
              · cases hins
              · simp only [Option.some.injEq, Prod.mk.injEq] at hins
                rw [← hins.1]
          split
          · exact zeroStats_of_stats_eq uid s _ hst hz
          · exact zeroStats_insertStats uid s db1 lastID env.now hst hz

theorem login_zeroStats (A : App) (uid : Nat) (s : State) (cookie : Option String)
    (b : LoginBody) (env : Env) (hz : ZeroStats uid s) :
    ZeroStats uid (login A s cookie b env).2 := by
  unfold login
  simp only
  split
  · exact hz
  · split
    · exact hz
    · split
      · exact hz
      · split
        · exact hz
        · split
          · exact hz
          · exact zeroStats_of_stats_eq uid s _ rfl hz

theorem getUserStats_zeroStats (uid : Nat) (s : State) (user : Payload) (env : Env)
    (hz : ZeroStats uid s) : ZeroStats uid (getUserStats s user env).2 := by
  unfold getUserStats
  split
  · exact hz
  · split
    · split
      · exact hz
      · exact zeroStats_insertStats uid s s.db user.userId env.now rfl hz
    · exact hz

theorem postUserStats_zeroStats (uid : Nat) (s : State) (user : Payload) (body : StatsBody)
    (env : Env) (hne : user.userId ≠ uid) (hz : ZeroStats uid s) :
    ZeroStats uid (postUserStats s user body env).2 := by
  unfold postUserStats
  split
  · exact hz
  · intro r hr huid
    simp only [updateStats, List.mem_map] at hr
    obtain ⟨r₀, hr₀, hmap⟩ := hr
    by_cases hu : r₀.user_id = user.userId
    · simp only [hu, beq_self_eq_true, if_true] at hmap
      rw [← hmap] at huid
      simp only at huid
      exact absurd huid hne
    · have hb : (r₀.user_id == user.userId) = false := by simpa using hu
      simp only [hb] at hmap
      rw [← hmap] at huid ⊢
      exact hz r₀ hr₀ huid

theorem postAchievements_stats (s : State) (user : Payload) (aid : Option String) (env : Env) :
    (postAchievements s user aid env).2.db.stats = s.db.stats := by
  unfold postAchievements
  split
  · rfl
  · split
    · rfl
    · split
      · rfl
      · split
        · rfl
        · split <;> rfl

/-- A request other than a stats update by `uid` keeps the stats rows of `uid` at zero. -/
theorem handle_zeroStats (A : App) (uid : Nat) (s : State) (r : Request) (env : Env)
    (hr : postsStatsAs A uid r env = false) (hz : ZeroStats uid s) :
    ZeroStats uid (handle A s r env).2 := by
  cases r with
  | health => exact hz
  | signup body => exact signup_zeroStats A uid s body env hz
  | login cookie body => exact login_zeroStats A uid s cookie body env hz
  | logout cookie =>
    apply zeroStats_of_stats_eq uid s _ _ hz
    simp only [handle, logout]
    split <;> rfl
  | profile auth =>
    apply zeroStats_of_stats_eq uid s _ _ hz
    simp only [handle, withAuth, profile]
    split
    · rfl
    · split
      · rfl
      · split <;> rfl
  | getUserStats auth =>
    simp only [handle, withAuth]
    split
    · exact hz
    · exact getUserStats_zeroStats uid s _ env hz
  | postUserStats auth body =>
    simp only [handle, withAuth]
    split
    · exact hz
    · rename_i user hauth
      apply postUserStats_zeroStats uid s user body env _ hz
      simp only [postsStatsAs, hauth] at hr
      simpa using hr
  | getAchievements auth =>
    apply zeroStats_of_stats_eq uid s _ _ hz
    simp only [handle, withAuth, getAchievements]
    split
    · rfl
    · split <;> rfl
  | postAchievements auth aid =>
    simp only [handle, withAuth]
    split
    · exact hz
    · exact zeroStats_of_stats_eq uid s _ (postAchievements_stats s _ aid env) hz
  | verifyToken auth =>
    apply zeroStats_of_stats_eq uid s _ _ hz
    simp only [handle, withAuth, verifyToken]
    split <;> rfl

/-- A sequence of requests without a stats update by `uid` keeps the stats rows of `uid`
at zero. -/
theorem run_zeroStats (A : App) (uid : Nat) (trace : List (Request × Env)) (s : State)
    (ht : ∀ x ∈ trace, postsStatsAs A uid x.1 x.2 = false) (hz : ZeroStats uid s) :
    ZeroStats uid (run A s trace) := by
  induction trace generalizing s with
  | nil => exact hz
  | cons x rest ih =>
    obtain ⟨r, env⟩ := x
    simp only [run]
    apply ih
    · intro y hy
      exact ht y (List.mem_cons_of_mem _ hy)
    · exact handle_zeroStats A uid s r env (ht (r, env) (List.mem_cons_self _ _)) hz

/-- Reading the stats of a user whose rows are all at zero, with no store error, is
answered 200 with five zeros, and afterwards a stats row of that user exists. -/
theorem getUserStats_zero (s : State) (user : Payload) (env : Env)
    (hz : ZeroStats user.userId s) (h0 : env.fails 0 = false) (h1 : env.fails 1 = false) :
    (getUserStats s user env).1 = ⟨200, .stats (some 0) (some 0) (some 0) (some 0) (some 0)⟩ ∧
    ∃ r ∈ (getUserStats s user env).2.db.stats, r.user_id = user.userId := by
  cases hf : s.db.stats.find? (fun r => r.user_id == user.userId) with
  | none =>
    simp only [getUserStats, h0, h1, hf, Response.json, insertStats]
    refine ⟨rfl, _, List.mem_append_right _ (List.mem_singleton_self _), rfl⟩
  | some row =>
    have hmem := List.mem_of_find?_eq_some hf
    have hsat : row.user_id = user.userId := by simpa using List.find?_some hf
    obtain ⟨ha, hd, hs, hu, hx⟩ := hz row hmem hsat
    simp only [getUserStats, h0, hf, Response.json, ha, hd, hs, hu, hx]
    exact ⟨rfl, row, hmem, hsat⟩

/-- A signup answered 201 inserted the user row whose id it reports. -/
theorem signup_created_inv (A : App) (s : State) (b : SignupBody) (env : Env) (uid : Nat)
    (h : (signup A s b env).1 = ⟨201, .userCreated uid⟩) :
    ∃ u ∈ (signup A s b env).2.db.users, u.id = uid := by
  revert h
  unfold signup
  simp only
  split
  · intro h; cases h
  · split
    · intro h; cases h
    · split
      · intro h; cases h
      · split
        · intro h; cases h
        · rename_i db1 lastID hins
          intro h
          simp only [Response.mk.injEq, Body.userCreated.injEq, true_and] at h
          have hmem : ∃ u ∈ db1.users, u.id = lastID := by
            unfold insertUser at hins
            split at hins
            · cases hins
            · split at hins
              · cases hins
              · simp only [Option.some.injEq, Prod.mk.injEq] at hins
                rw [← hins.1, ← hins.2]
                exact ⟨_, List.mem_append_right _ (List.mem_singleton_self _), rfl⟩
          obtain ⟨u, hu, hid⟩ := hmem
          refine ⟨u, ?_, hid.trans h⟩
          split
          · exact hu
          · simpa [insertStats] using hu

/-- C5: start from the empty store and serve any requests `pre`, then a signup answered
201 with user id `uid`, then any requests `post`, none of all these a stats update
authenticated as `uid`.  A following `GET /api/user-stats` authenticated as `uid` (and
meeting no store error) is answered 200 with analyses, discoveries, starsExplored, uploads
and xp all 0, and leaves a stats row for `uid`; this holds whether the stats insert of the
signup succeeded or failed (`envS` is arbitrary), that is whether the row is found or is
created by this read. -/
theorem new_user_stats_zero (A : App) (pre post : List (Request × Env)) (b : SignupBody)
    (envS : Env) (uid : Nat) (auth : Option String) (env : Env) (user : Payload)
    (hsignup : (handle A (run A State.empty pre) (.signup b) envS).1 =
      ⟨201, .userCreated uid⟩)
    (hpre : ∀ x ∈ pre, postsStatsAs A uid x.1 x.2 = false)
    (hpost : ∀ x ∈ post, postsStatsAs A uid x.1 x.2 = false)
    (hauth : authenticateToken A auth env.now = .ok user)
    (huid : user.userId = uid)
    (hstore : env.failing = []) :
    (handle A (run A (handle A (run A State.empty pre) (.signup b) envS).2 post)
      (.getUserStats auth) env).1 =
      ⟨200, .stats (some 0) (some 0) (some 0) (some 0) (some 0)⟩ ∧
    (∃ u ∈ (handle A (run A State.empty pre) (.signup b) envS).2.db.users, u.id = uid) ∧
    ∃ r ∈ (handle A (run A (handle A (run A State.empty pre) (.signup b) envS).2 post)
      (.getUserStats auth) env).2.db.stats, r.user_id = uid := by
  have hf : ∀ n, env.fails n = false := fun n => by simp [Env.fails, hstore]
  have hz0 : ZeroStats uid State.empty := by
    intro r hr
    cases hr
  have hz1 : ZeroStats uid (run A State.empty pre) := run_zeroStats A uid pre _ hpre hz0
  have hz2 : ZeroStats uid (handle A (run A State.empty pre) (.signup b) envS).2 :=
    handle_zeroStats A uid _ _ envS rfl hz1
  have hz3 : ZeroStats uid (run A (handle A (run A State.empty pre) (.signup b) envS).2 post) :=
    run_zeroStats A uid post _ hpost hz2
  have hget : handle A (run A (handle A (run A State.empty pre) (.signup b) envS).2 post)
      (.getUserStats auth) env =
      getUserStats (run A (handle A (run A State.empty pre) (.signup b) envS).2 post)
        user env := by
    simp only [handle]
    rw [withAuth_ok A _ _ env _ _ hauth]
  rw [hget]
  rw [← huid] at hz3
  obtain ⟨hres, hrow⟩ := getUserStats_zero _ user env hz3 (hf 0) (hf 1)
  rw [huid] at hrow
  refine ⟨hres, ?_, hrow⟩
  exact signup_created_inv A _ b envS uid hsignup

/-- The environment of a signup whose stats insert (store call 2) fails. -/
def envStatsInsertFails : Env := ⟨1000, "salt", "sid-1", [2]⟩

/-- Witness for C5: `nova1` signs up on the empty store while the stats insert fails, a
health check follows, and the first stats read of user 1 returns zeros and creates the
row. -/
theorem new_user_stats_zero_witness :
    (handle demoApp
      (run demoApp
        (handle demoApp (run demoApp State.empty [])
          (.signup ⟨"nova1", "nova1@test.io", "Abcdef1"⟩) envStatsInsertFails).2
        [(.health, envAt 1500)])
      (.getUserStats (some ("Bearer " ++ novaToken))) (envAt 2000)).1 =
      ⟨200, .stats (some 0) (some 0) (some 0) (some 0) (some 0)⟩ ∧
    (∃ u ∈ (handle demoApp (run demoApp State.empty [])
        (.signup ⟨"nova1", "nova1@test.io", "Abcdef1"⟩) envStatsInsertFails).2.db.users,
      u.id = 1) ∧
    ∃ r ∈ (handle demoApp
      (run demoApp
        (handle demoApp (run demoApp State.empty [])
          (.signup ⟨"nova1", "nova1@test.io", "Abcdef1"⟩) envStatsInsertFails).2
        [(.health, envAt 1500)])
      (.getUserStats (some ("Bearer " ++ novaToken))) (envAt 2000)).2.db.stats,
      r.user_id = 1 :=
  new_user_stats_zero demoApp [] [(.health, envAt 1500)] ⟨"nova1", "nova1@test.io", "Abcdef1"⟩
    envStatsInsertFails 1 _ (envAt 2000) ⟨1, "nova1", "nova1@test.io", 1000, 1000 + expiresIn⟩
    (by decide) (by decide) (by decide) (authenticate_nova 2000 (by decide)) rfl rfl

/-! ## How requests change the users table -/

/-- What `updateLastLogin` does to one row. -/
def touchLogin (id now : Nat) (u : UserRow) : UserRow :=
  if u.id == id then { u with last_login := some now } else u

theorem isEmpty_eq_false_iff {α : Type} (l : List α) : (!l.isEmpty) = false ↔ l = [] := by
  cases l <;> simp

/-- The users table after a signup: untouched, or one row appended for a request that
passed validation and matched no stored username or normalized email. -/
theorem signup_users (A : App) (s : State) (b : SignupBody) (env : Env) :
    (signup A s b env).2.db.users = s.db.users ∨
    (validateSignup A.email b = [] ∧
      (∀ u ∈ s.db.users,
        u.username ≠ b.username ∧ u.email ≠ A.email.normalizeEmail b.email) ∧
      (signup A s b env).2.db.users = s.db.users ++
        [⟨nextId (s.db.users.map (·.id)), b.username, A.email.normalizeEmail b.email,
          A.bcrypt.hash b.password 12 env.salt, env.now, none, true⟩]) := by
  unfold signup
  simp only
  split
  · exact Or.inl rfl
  · rename_i hv
    split
    · exact Or.inl rfl
    · split
      · exact Or.inl rfl
      · rename_i hfind
        split
        · exact Or.inl rfl
        · rename_i db1 lastID hins
          right
          have hvalid : validateSignup A.email b = [] := by
            cases hl : validateSignup A.email b with
            | nil => rfl
            | cons x xs => simp [hl] at hv
          have hfresh : ∀ u ∈ s.db.users,
              u.username ≠ b.username ∧ u.email ≠ A.email.normalizeEmail b.email := by
            intro u hu
            have := List.find?_eq_none.1 hfind u hu
            simpa [sanitizeSignup, not_or] using this
          refine ⟨hvalid, hfresh, ?_⟩
          unfold insertUser at hins
          split at hins
          · cases hins
          · split at hins
            · cases hins
            · simp only [Option.some.injEq, Prod.mk.injEq] at hins
              have hdb : db1.users = s.db.users ++
                  [⟨nextId (s.db.users.map (·.id)), b.username,
                    A.email.normalizeEmail b.email, A.bcrypt.hash b.password 12 env.salt,
                    env.now, none, true⟩] := by
                rw [← hins.1]
                rfl
              split
              · exact hdb
              · simpa [insertStats] using hdb

/-- The users table after a login: untouched, or `last_login` set on the rows of one id. -/
theorem login_users (A : App) (s : State) (cookie : Option String) (b : LoginBody)
    (env : Env) :
    (login A s cookie b env).2.db.users = s.db.users ∨
    ∃ id now, (login A s cookie b env).2.db.users = s.db.users.map (touchLogin id now) := by
  unfold login
  simp only
  split
  · exact Or.inl rfl
  · split
    · exact Or.inl rfl
    · split
      · exact Or.inl rfl
      · rename_i user _
        split
        · exact Or.inl rfl
        · split
          · exact Or.inl rfl
          · exact Or.inr ⟨user.id, env.now, rfl⟩

theorem withAuth_users (A : App) (s : State) (auth : Option String) (env : Env)
    (handler : Payload → Response × State)
    (h : ∀ user, (handler user).2.db.users = s.db.users) :
    (withAuth A s auth env handler).2.db.users = s.db.users := by
  unfold withAuth
  split
  · rfl
  · exact h _

theorem profile_state (s : State) (user : Payload) (env : Env) :
    (profile s user env).2 = s := by
  unfold profile
  split
  · rfl
  · split <;> rfl

theorem getAchievements_state (s : State) (user : Payload) (env : Env) :
    (getAchievements s user env).2 = s := by
  unfold getAchievements
  split <;> rfl

theorem getUserStats_users (s : State) (user : Payload) (env : Env) :
    (getUserStats s user env).2.db.users = s.db.users := by
  unfold getUserStats
  split
  · rfl
  · split
    · split <;> rfl
    · rfl

theorem postUserStats_users (s : State) (user : Payload) (body : StatsBody) (env : Env) :
    (postUserStats s user body env).2.db.users = s.db.users := by
  unfold postUserStats
  split <;> rfl

theorem postAchievements_users (s : State) (user : Payload) (aid : Option String)
    (env : Env) : (postAchievements s user aid env).2.db.users = s.db.users := by
  unfold postAchievements
  split
  · rfl
  · split
    · rfl
    · split
      · rfl
      · split
        · rfl
        · split <;> rfl

theorem logout_db (s : State) (cookie : Option String) (env : Env) :
    (logout s cookie env).2.db = s.db := by
  unfold logout
  split <;> rfl

/-- How one request changes the users table: not at all, by setting `last_login` on the
rows of one id, or by appending the row of a valid signup with a fresh username and
email. -/
theorem handle_users (A : App) (s : State) (r : Request) (env : Env) :
    (handle A s r env).2.db.users = s.db.users ∨
    (∃ id now, (handle A s r env).2.db.users = s.db.users.map (touchLogin id now)) ∨
    (∃ b : SignupBody, validateSignup A.email b = [] ∧
      (∀ u ∈ s.db.users,
        u.username ≠ b.username ∧ u.email ≠ A.email.normalizeEmail b.email) ∧
      (handle A s r env).2.db.users = s.db.users ++
        [⟨nextId (s.db.users.map (·.id)), b.username, A.email.normalizeEmail b.email,
          A.bcrypt.hash b.password 12 env.salt, env.now, none, true⟩]) := by
  cases r with
  | health => exact Or.inl rfl
  | signup body =>
    rcases signup_users A s body env with h | h
    · exact Or.inl h
    · exact Or.inr (Or.inr ⟨body, h⟩)
  | login cookie body =>
    rcases login_users A s cookie body env with h | h
    · exact Or.inl h
    · exact Or.inr (Or.inl h)
  | logout cookie => exact Or.inl (congrArg Db.users (logout_db s cookie env))
  | profile auth =>
    exact Or.inl (withAuth_users A s auth env _ (fun u => by rw [profile_state]))
  | getUserStats auth =>
    exact Or.inl (withAuth_users A s auth env _ (fun u => getUserStats_users s u env))
  | postUserStats auth body =>
    exact Or.inl (withAuth_users A s auth env _ (fun u => postUserStats_users s u body env))
  | getAchievements auth =>
    exact Or.inl (withAuth_users A s auth env _ (fun u => by rw [getAchievements_state]))
  | postAchievements auth aid =>
    exact Or.inl (withAuth_users A s auth env _ (fun u => postAchievements_users s u aid env))
  | verifyToken auth => exact Or.inl (withAuth_users A s auth env _ (fun _ => rfl))

/-! ## Invariants of the users table -/

/-- What holds of the users table in every state the API can reach: ids, usernames and
emails are each without repetition, every username passed the username chain, and every
email holds an `@`. -/
structure UsersInv (users : List UserRow) : Prop where
  ids : (users.map (·.id)).Nodup
  usernames : (users.map (·.username)).Nodup
  emails : (users.map (·.email)).Nodup
  nameOk : ∀ u ∈ users, usernameErrors u.username = []
  emailAt : ∀ u ∈ users, '@' ∈ u.email.data

theorem touchLogin_id (id now : Nat) (u : UserRow) : (touchLogin id now u).id = u.id := by
  unfold touchLogin
  split <;> rfl

theorem touchLogin_username (id now : Nat) (u : UserRow) :
    (touchLogin id now u).username = u.username := by
  unfold touchLogin
  split <;> rfl

theorem touchLogin_email (id now : Nat) (u : UserRow) :
    (touchLogin id now u).email = u.email := by
  unfold touchLogin
  split <;> rfl

theorem touchLogin_password (id now : Nat) (u : UserRow) :
    (touchLogin id now u).password = u.password := by
  unfold touchLogin
  split <;> rfl

theorem touchLogin_is_active (id now : Nat) (u : UserRow) :
    (touchLogin id now u).is_active = u.is_active := by
  unfold touchLogin
  split <;> rfl

theorem touchLogin_created_at (id now : Nat) (u : UserRow) :
    (touchLogin id now u).created_at = u.created_at := by
  unfold touchLogin
  split <;> rfl

theorem usersInv_nil : UsersInv [] :=
  ⟨List.nodup_nil, List.nodup_nil, List.nodup_nil, fun _ h => (by cases h),
    fun _ h => (by cases h)⟩

theorem usersInv_touch (users : List UserRow) (id now : Nat) (h : UsersInv users) :
    UsersInv (users.map (touchLogin id now)) := by
  have hid : (users.map (touchLogin id now)).map (·.id) = users.map (·.id) := by
    rw [List.map_map]
    exact List.map_congr_left (fun u _ => touchLogin_id id now u)
  have hun : (users.map (touchLogin id now)).map (·.username) = users.map (·.username) := by
    rw [List.map_map]
    exact List.map_congr_left (fun u _ => touchLogin_username id now u)
  have hem : (users.map (touchLogin id now)).map (·.email) = users.map (·.email) := by
    rw [List.map_map]
    exact List.map_congr_left (fun u _ => touchLogin_email id now u)
  refine ⟨by rw [hid]; exact h.ids, by rw [hun]; exact h.usernames,
    by rw [hem]; exact h.emails, ?_, ?_⟩
  · intro u hu
    obtain ⟨v, hv, rfl⟩ := List.mem_map.1 hu
    rw [touchLogin_username]
    exact h.nameOk v hv
  · intro u hu
    obtain ⟨v, hv, rfl⟩ := List.mem_map.1 hu
    rw [touchLogin_email]
    exact h.emailAt v hv

theorem nodup_map_append_singleton {α β : Type} (f : α → β) (l : List α) (x : α)
    (h : (l.map f).Nodup) (hx : ∀ y ∈ l, f y ≠ f x) : ((l ++ [x]).map f).Nodup := by
  rw [List.map_append, List.nodup_append]
  refine ⟨h, by simp, ?_⟩
  intro a ha hb
  simp only [List.map_cons, List.map_nil, List.mem_singleton] at hb
  obtain ⟨y, hy, hya⟩ := List.mem_map.1 ha
  exact hx y hy (hya.trans hb)

theorem usersInv_append (E : EmailLib) (users : List UserRow) (b : SignupBody)
    (password : String) (now : Nat) (last : Option Nat) (active : Bool)
    (h : UsersInv users) (hvalid : validateSignup E b = [])
    (hfresh : ∀ u ∈ users, u.username ≠ b.username ∧ u.email ≠ E.normalizeEmail b.email) :
    UsersInv (users ++
      [⟨nextId (users.map (·.id)), b.username, E.normalizeEmail b.email, password, now, last,
        active⟩]) := by
  have hv := (validateSignup_eq_nil E b).1 hvalid
  refine ⟨?_, ?_, ?_, ?_, ?_⟩
  · apply nodup_map_append_singleton _ _ _ h.ids
    intro y hy heq
    have := lt_nextId (users.map (·.id)) y.id (List.mem_map_of_mem _ hy)
    simp only at heq
    omega
  · apply nodup_map_append_singleton _ _ _ h.usernames
    intro y hy
    exact (hfresh y hy).1
  · apply nodup_map_append_singleton _ _ _ h.emails
    intro y hy
    exact (hfresh y hy).2
  · intro u hu
    rcases List.mem_append.1 hu with hu | hu
    · exact h.nameOk u hu
    · rw [List.mem_singleton.1 hu]
      exact hv.1
  · intro u hu
    rcases List.mem_append.1 hu with hu | hu
    · exact h.emailAt u hu
    · rw [List.mem_singleton.1 hu]
      exact E.normalize_at b.email hv.2.1

/-- Every request keeps the invariant of the users table. -/
theorem handle_usersInv (A : App) (s : State) (r : Request) (env : Env)
    (h : UsersInv s.db.users) : UsersInv (handle A s r env).2.db.users := by
  rcases handle_users A s r env with hu | ⟨id, now, hu⟩ | ⟨b, hvalid, hfresh, hu⟩
  · rw [hu]
    exact h
  · rw [hu]
    exact usersInv_touch _ id now h
  · rw [hu]
    exact usersInv_append A.email _ b _ _ _ _ h hvalid hfresh

/-- Every sequence of requests keeps the invariant of the users table. -/
theorem run_usersInv (A : App) (trace : List (Request × Env)) (s : State)
    (h : UsersInv s.db.users) : UsersInv (run A s trace).db.users := by
  induction trace generalizing s with
  | nil => exact h
  | cons x rest ih =>
    obtain ⟨r, env⟩ := x
    exact ih _ (handle_usersInv A s r env h)

/-- The invariant holds in every state reachable from the empty store. -/
theorem reachable_usersInv (A : App) (trace : List (Request × Env)) :
    UsersInv (run A State.empty trace).db.users :=
  run_usersInv A trace State.empty usersInv_nil

/-- In a list without repeated keys, two members with the same key are equal. -/
theorem eq_of_nodup_map {α β : Type} (f : α → β) (l : List α) (h : (l.map f).Nodup)
    (x y : α) (hx : x ∈ l) (hy : y ∈ l) (hxy : f x = f y) : x = y :=
  List.inj_on_of_nodup_map h hx hy hxy

/-- C14: in every state reachable from the empty store by a sequence of API requests
served one after the other, no two user rows share a username and no two share an email
(rows are compared whatever their `is_active` flag): the username column and the email
column are without repetition, so two rows with the same username, or the same email, are
one row. -/
theorem users_unique (A : App) (trace : List (Request × Env)) :
    ((run A State.empty trace).db.users.map (·.username)).Nodup ∧
    ((run A State.empty trace).db.users.map (·.email)).Nodup ∧
    ∀ u ∈ (run A State.empty trace).db.users, ∀ v ∈ (run A State.empty trace).db.users,
      (u.username = v.username ∨ u.email = v.email) → u = v := by
  have h := reachable_usersInv A trace
  refine ⟨h.usernames, h.emails, ?_⟩
  intro u hu v hv huv
  rcases huv with huv | huv
  · exact eq_of_nodup_map (·.username) _ h.usernames u v hu hv huv
  · exact eq_of_nodup_map (·.email) _ h.emails u v hu hv huv

/-! ## The login lookup in reachable states -/

/-- A string the username chain accepts holds no `@`. -/
theorem no_at_of_usernameErrors (u : String) (h : usernameErrors u = []) : '@' ∉ u.data := by
  have hm := ((usernameErrors_eq_nil u).1 h).2
  have hall := ((usernamePattern_iff u.data).1 hm).2
  intro hat
  have := hall '@' hat
  revert this
  decide

/-- With the invariant of the users table, an identifier names at most one row. -/
theorem lookup_unambiguous (users : List UserRow) (h : UsersInv users) (x : String)
    (u v : UserRow) (hu : u ∈ users) (hv : v ∈ users)
    (hux : u.username = x ∨ u.email = x) (hvx : v.username = x ∨ v.email = x) : u = v := by
  rcases hux with hux | hux <;> rcases hvx with hvx | hvx
  · exact eq_of_nodup_map (·.username) _ h.usernames u v hu hv (hux.trans hvx.symm)
  · exfalso
    have hat := h.emailAt v hv
    rw [hvx, ← hux] at hat
    exact no_at_of_usernameErrors _ (h.nameOk u hu) hat
  · exfalso
    have hat := h.emailAt u hu
    rw [hux, ← hvx] at hat
    exact no_at_of_usernameErrors _ (h.nameOk v hv) hat
  · exact eq_of_nodup_map (·.email) _ h.emails u v hu hv (hux.trans hvx.symm)

/-- The response of a login whose fields are present and whose two store calls succeed,
by the row the lookup returns. -/
theorem login_response (A : App) (s : State) (cookie : Option String) (b : LoginBody)
    (env : Env) (hid : b.username ≠ "") (hpw : b.password ≠ "")
    (hstore : env.fails 0 = false) (hupdate : env.fails 1 = false) :
    (login A s cookie b env).1 =
      match s.db.users.find?
          (fun u => (u.username == b.username || u.email == b.username) && u.is_active) with
      | none => ⟨401, .error "Invalid credentials"⟩
      | some user =>
        if A.bcrypt.compare b.password user.password = true then
          ⟨200, .loginOk (jwtSign A.jwt user.id user.username user.email A.JWT_SECRET env.now)
            user.id user.username user.email⟩
        else ⟨401, .error "Invalid credentials"⟩ := by
  have hv : validateLogin b = [] := (validateLogin_eq_nil b).2 ⟨hid, hpw⟩
  cases hf : s.db.users.find?
      (fun u => (u.username == b.username || u.email == b.username) && u.is_active) with
  | none => simp [login, hv, hstore, hf]
  | some user =>
    by_cases hc : A.bcrypt.compare b.password user.password = true
    · simp [login, hv, hstore, hupdate, hf, hc, Response.json]
    · simp [login, hv, hstore, hf, hc]

/-- A login whose lookup succeeds and finds the user with the matching digest, and whose
`UPDATE` of `last_login` fails: the client gets status 200 and the body cut short, and the
state is the one before the request. -/
theorem login_update_fails (A : App) (s : State) (cookie : Option String) (b : LoginBody)
    (env : Env) (user : UserRow) (hid : b.username ≠ "") (hpw : b.password ≠ "")
    (hstore : env.fails 0 = false) (hupdate : env.fails 1 = true)
    (hf : s.db.users.find?
      (fun u => (u.username == b.username || u.email == b.username) && u.is_active) = some user)
    (hc : A.bcrypt.compare b.password user.password = true) :
    login A s cookie b env =
      (⟨200, .loginCutShort
        (jwtSign A.jwt user.id user.username user.email A.JWT_SECRET env.now)
        user.id user.username user.email⟩, s) := by
  have hv : validateLogin b = [] := (validateLogin_eq_nil b).2 ⟨hid, hpw⟩
  simp [login, hv, hstore, hupdate, hf, hc]

/-- C11: in every state reachable from the empty store, a login with non-empty identifier
and password whose store calls (the lookup and the update of `last_login`) meet no error
is answered 200 exactly when some stored
user with `is_active = 1` has the identifier as username or email and a stored digest
matching the password; the body then carries a token signed for that user and the id,
username and email of exactly that user; in every other case the answer is 401 'Invalid
credentials'. -/
theorem login_spec (A : App) (trace : List (Request × Env)) (cookie : Option String)
    (b : LoginBody) (env : Env) (hid : b.username ≠ "") (hpw : b.password ≠ "")
    (hstore : env.fails 0 = false) (hupdate : env.fails 1 = false) :
    ((login A (run A State.empty trace) cookie b env).1.status = 200 ↔
      ∃ u ∈ (run A State.empty trace).db.users, u.is_active = true ∧
        (u.username = b.username ∨ u.email = b.username) ∧
        A.bcrypt.compare b.password u.password = true) ∧
    (∀ u ∈ (run A State.empty trace).db.users, u.is_active = true →
      (u.username = b.username ∨ u.email = b.username) →
      A.bcrypt.compare b.password u.password = true →
      (login A (run A State.empty trace) cookie b env).1 =
        ⟨200, .loginOk (jwtSign A.jwt u.id u.username u.email A.JWT_SECRET env.now)
          u.id u.username u.email⟩) ∧
    ((login A (run A State.empty trace) cookie b env).1.status ≠ 200 →
      (login A (run A State.empty trace) cookie b env).1 =
        ⟨401, .error "Invalid credentials"⟩) := by
  have hinv := reachable_usersInv A trace
  have hres := login_response A (run A State.empty trace) cookie b env hid hpw hstore hupdate
  cases hf : (run A State.empty trace).db.users.find?
      (fun u => (u.username == b.username || u.email == b.username) && u.is_active) with
  | none =>
    rw [hf] at hres
    simp only at hres
    have hno : ∀ u ∈ (run A State.empty trace).db.users, u.is_active = true →
        (u.username = b.username ∨ u.email = b.username) → False := by
      intro u hu hact hm
      have := List.find?_eq_none.1 hf u hu
      simp only [Bool.and_eq_true, Bool.or_eq_true, beq_iff_eq, not_and] at this
      exact this hm hact
    rw [hres]
    refine ⟨⟨fun h => absurd h (by decide), ?_⟩, ?_, fun _ => rfl⟩
    · rintro ⟨u, hu, hact, hm, _⟩
      exact (hno u hu hact hm).elim
    · intro u hu hact hm _
      exact (hno u hu hact hm).elim
  | some user =>
    rw [hf] at hres
    simp only at hres
    have hmem := List.mem_of_find?_eq_some hf
    have hsat := List.find?_some hf
    simp only [Bool.and_eq_true, Bool.or_eq_true, beq_iff_eq] at hsat
    have huniq : ∀ u ∈ (run A State.empty trace).db.users,
        (u.username = b.username ∨ u.email = b.username) → u = user :=
      fun u hu hm => lookup_unambiguous _ hinv b.username u user hu hmem hm hsat.1
    by_cases hc : A.bcrypt.compare b.password user.password = true
    · rw [if_pos hc] at hres
      rw [hres]
      refine ⟨⟨fun _ => ⟨user, hmem, hsat.2, hsat.1, hc⟩, fun _ => rfl⟩, ?_,
        fun h => absurd rfl h⟩
      intro u hu _ hm _
      rw [huniq u hu hm]
    · rw [if_neg hc] at hres
      rw [hres]
      refine ⟨⟨fun h => absurd h (by decide), ?_⟩, ?_, fun _ => rfl⟩
      · rintro ⟨u, hu, _, hm, hcu⟩
        rw [huniq u hu hm] at hcu
        exact absurd hcu hc
      · intro u hu _ hm hcu
        rw [huniq u hu hm] at hcu
        exact absurd hcu hc

/-- The signup of the example scenario, as a one-request history. -/
def novaTrace : List (Request × Env) :=
  [(.signup ⟨"nova1", "nova1@test.io", "Abcdef1"⟩, env0)]

/-- Witness for C11: after the signup of `nova1`, the login of `nova1` with its password. -/
theorem login_spec_witness :
    ((login demoApp (run demoApp State.empty novaTrace) none ⟨"nova1", "Abcdef1"⟩
        (envAt 1500)).1.status = 200 ↔
      ∃ u ∈ (run demoApp State.empty novaTrace).db.users, u.is_active = true ∧
        (u.username = "nova1" ∨ u.email = "nova1") ∧
        demoApp.bcrypt.compare "Abcdef1" u.password = true) ∧
    (∀ u ∈ (run demoApp State.empty novaTrace).db.users, u.is_active = true →
      (u.username = "nova1" ∨ u.email = "nova1") →
      demoApp.bcrypt.compare "Abcdef1" u.password = true →
      (login demoApp (run demoApp State.empty novaTrace) none ⟨"nova1", "Abcdef1"⟩
        (envAt 1500)).1 =
        ⟨200, .loginOk
          (jwtSign demoApp.jwt u.id u.username u.email demoApp.JWT_SECRET (envAt 1500).now)
          u.id u.username u.email⟩) ∧
    ((login demoApp (run demoApp State.empty novaTrace) none ⟨"nova1", "Abcdef1"⟩
        (envAt 1500)).1.status ≠ 200 →
      (login demoApp (run demoApp State.empty novaTrace) none ⟨"nova1", "Abcdef1"⟩
        (envAt 1500)).1 = ⟨401, .error "Invalid credentials"⟩) :=
  login_spec demoApp novaTrace none ⟨"nova1", "Abcdef1"⟩ (envAt 1500)
    (by decide) (by decide) (by decide) (by decide)

/-! ## The middleware as a gate -/

/-- The Authorization header of a request to a non-public endpoint; `none` for a public
endpoint. -/
def Request.authHeader : Request → Option (Option String)
  | .profile auth => some auth
  | .getUserStats auth => some auth
  | .postUserStats auth _ => some auth
  | .getAchievements auth => some auth
  | .postAchievements auth _ => some auth
  | .verifyToken auth => some auth
  | _ => none

theorem withAuth_error (A : App) (s : State) (auth : Option String) (env : Env)
    (handler : Payload → Response × State) (res : Response)
    (h : authenticateToken A auth env.now = .error res) :
    withAuth A s auth env handler = (res, s) := by
  simp [withAuth, h]

/-- A route behind the middleware answers what the middleware answers, and keeps the
state, when the middleware rejects the request. -/
theorem handle_rejected (A : App) (s : State) (r : Request) (env : Env)
    (auth : Option String) (res : Response) (hr : r.authHeader = some auth)
    (h : authenticateToken A auth env.now = .error res) :
    handle A s r env = (res, s) := by
  cases r <;> simp only [Request.authHeader, Option.some.injEq] at hr <;>
    first
    | exact absurd hr (by simp)
    | (subst hr
       simp only [handle]
       exact withAuth_error A s _ env _ res h)

/-- C12: each of the six non-public endpoints answers 401 'Access token required' when
the request carries no token (no Authorization header, or none or an empty second field
in it) and 403 'Invalid or expired token' when the token fails verification; in both
cases the answer is the middleware's and the state, datastore included, is unchanged. -/
theorem protected_routes_gate (A : App) (s : State) (r : Request) (env : Env)
    (auth : Option String) (hr : r.authHeader = some auth) :
    ((headerToken auth = none ∨ headerToken auth = some "") →
      handle A s r env = (⟨401, .error "Access token required"⟩, s)) ∧
    (∀ token, headerToken auth = some token → token ≠ "" →
      jwtVerify A.jwt token A.JWT_SECRET env.now = none →
      handle A s r env = (⟨403, .error "Invalid or expired token"⟩, s)) := by
  constructor
  · intro h
    apply handle_rejected A s r env auth _ hr
    rcases h with h | h <;> simp [authenticateToken, h]
  · intro token ht hne hver
    apply handle_rejected A s r env auth _ hr
    simp [authenticateToken, ht, hne, hver]

/-- Witness for C12: a stats update without a header, and a profile read with a token
that does not verify. -/
theorem protected_routes_gate_witness :
    handle demoApp stNova (.postUserStats none ⟨some 5, some 2, some 12, some 1, some 340⟩)
      env0 = (⟨401, .error "Access token required"⟩, stNova) ∧
    handle demoApp stNova (.profile (some "Bearer i.i.i")) env0 =
      (⟨403, .error "Invalid or expired token"⟩, stNova) :=
  ⟨(protected_routes_gate demoApp stNova
      (.postUserStats none ⟨some 5, some 2, some 12, some 1, some 340⟩) env0 none rfl).1
      (Or.inl rfl),
    (protected_routes_gate demoApp stNova (.profile (some "Bearer i.i.i")) env0
      (some "Bearer i.i.i") rfl).2 "i.i.i" (by decide) (by decide) (by decide)⟩

/-! ## Validation before writes -/

theorem signup_400 (A : App) (s : State) (b : SignupBody) (env : Env)
    (h : (signup A s b env).1.status = 400) : (signup A s b env).2 = s := by
  revert h
  unfold signup
  simp only
  split
  · intro _; rfl
  · split
    · intro _; rfl
    · split
      · intro _; rfl
      · split
        · intro _; rfl
        · intro h
          simp [Response.json] at h

theorem login_400 (A : App) (s : State) (cookie : Option String) (b : LoginBody) (env : Env)
    (h : (login A s cookie b env).1.status = 400) : (login A s cookie b env).2 = s := by
  revert h
  unfold login
  simp only
  split
  · intro _; rfl
  · split
    · intro _; rfl
    · split
      · intro _; rfl
      · split
        · intro _; rfl
        · split
          · intro _; rfl
          · intro h
            simp [Response.json] at h

theorem logout_400 (s : State) (cookie : Option String) (env : Env)
    (h : (logout s cookie env).1.status = 400) : (logout s cookie env).2 = s := by
  revert h
  unfold logout
  split
  · intro _; rfl
  · intro h
    simp [Response.json] at h

theorem getUserStats_400 (s : State) (user : Payload) (env : Env)
    (h : (getUserStats s user env).1.status = 400) : (getUserStats s user env).2 = s := by
  revert h
  unfold getUserStats
  split
  · intro _; rfl
  · split
    · split
      · intro _; rfl
      · intro h
        simp [Response.json] at h
    · intro _; rfl

theorem postUserStats_400 (s : State) (user : Payload) (body : StatsBody) (env : Env)
    (h : (postUserStats s user body env).1.status = 400) :
    (postUserStats s user body env).2 = s := by
  revert h
  unfold postUserStats
  split
  · intro _; rfl
  · intro h
    simp [Response.json] at h

theorem postAchievements_400 (s : State) (user : Payload) (aid : Option String) (env : Env)
    (h : (postAchievements s user aid env).1.status = 400) :
    (postAchievements s user aid env).2 = s := by
  revert h
  unfold postAchievements
  split
  · intro _; rfl
  · split
    · intro _; rfl
    · split
      · intro _; rfl
      · split
        · intro _; rfl
        · split
          · intro _; rfl
          · intro h
            simp [Response.json] at h

theorem withAuth_400 (A : App) (s : State) (auth : Option String) (env : Env)
    (handler : Payload → Response × State)
    (hh : ∀ user, (handler user).1.status = 400 → (handler user).2 = s)
    (h : (withAuth A s auth env handler).1.status = 400) :
    (withAuth A s auth env handler).2 = s := by
  revert h
  unfold withAuth
  split
  · intro _; rfl
  · exact hh _

/-- C19: a request answered with status 400 (a signup or login that fails validation, an
achievement unlock without `achievementId`) leaves the state as it was, the users, stats
and achievements tables in particular. -/
theorem bad_request_writes_nothing (A : App) (s : State) (r : Request) (env : Env)
    (h : (handle A s r env).1.status = 400) :
    (handle A s r env).2 = s ∧
    (handle A s r env).2.db.users = s.db.users ∧
    (handle A s r env).2.db.stats = s.db.stats ∧
    (handle A s r env).2.db.achievements = s.db.achievements := by
  have key : (handle A s r env).2 = s := by
    cases r with
    | health => rfl
    | signup body => exact signup_400 A s body env h
    | login cookie body => exact login_400 A s cookie body env h
    | logout cookie => exact logout_400 s cookie env h
    | profile auth =>
      exact withAuth_400 A s auth env _ (fun u _ => profile_state s u env) h
    | getUserStats auth =>
      exact withAuth_400 A s auth env _ (fun u hu => getUserStats_400 s u env hu) h
    | postUserStats auth body =>
      exact withAuth_400 A s auth env _ (fun u hu => postUserStats_400 s u body env hu) h
    | getAchievements auth =>
      exact withAuth_400 A s auth env _ (fun u _ => getAchievements_state s u env) h
    | postAchievements auth aid =>
      exact withAuth_400 A s auth env _ (fun u hu => postAchievements_400 s u aid env hu) h
    | verifyToken auth => exact withAuth_400 A s auth env _ (fun _ _ => rfl) h
  rw [key]
  exact ⟨rfl, rfl, rfl, rfl⟩

/-- Witness for C19: a signup with the password `"abc123"` on the store of `nova1`. -/
theorem bad_request_writes_nothing_witness :
    (handle demoApp stNova (.signup ⟨"nova2", "nova2@test.io", "abc123"⟩) env0).2 = stNova ∧
    (handle demoApp stNova (.signup ⟨"nova2", "nova2@test.io", "abc123"⟩) env0).2.db.users =
      stNova.db.users ∧
    (handle demoApp stNova (.signup ⟨"nova2", "nova2@test.io", "abc123"⟩) env0).2.db.stats =
      stNova.db.stats ∧
    (handle demoApp stNova (.signup ⟨"nova2", "nova2@test.io", "abc123"⟩)
      env0).2.db.achievements = stNova.db.achievements :=
  bad_request_writes_nothing demoApp stNova (.signup ⟨"nova2", "nova2@test.io", "abc123"⟩) env0
    (by decide)

/-! ## A signup whose stats insert fails -/

/-- C20: when a signup passes validation, finds no stored user, inserts the user row, and
the stats insert that follows fails, the response is still 201 with the id of the new row,
the user row is kept, the stats table is left as it was and (every stats row referring to
a stored user, as the schema declares) no stats row exists for the new user. -/
theorem signup_stats_insert_fails (A : App) (s : State) (b : SignupBody) (env : Env)
    (hvalid : validateSignup A.email b = [])
    (hfresh : ∀ u ∈ s.db.users,
      u.username ≠ b.username ∧ u.email ≠ A.email.normalizeEmail b.email)
    (h0 : env.fails 0 = false) (h1 : env.fails 1 = false) (h2 : env.fails 2 = true)
    (hfk : ∀ r ∈ s.db.stats, ∃ u ∈ s.db.users, u.id = r.user_id) :
    ∃ row : UserRow,
      (signup A s b env).1 = ⟨201, .userCreated row.id⟩ ∧
      (signup A s b env).2.db.users = s.db.users ++ [row] ∧
      row.username = b.username ∧
      row.email = A.email.normalizeEmail b.email ∧
      (signup A s b env).2.db.stats = s.db.stats ∧
      ∀ r ∈ (signup A s b env).2.db.stats, r.user_id ≠ row.id := by
  have hnone : s.db.users.find?
      (fun u => u.username == b.username || u.email == A.email.normalizeEmail b.email) = none := by
    rw [List.find?_eq_none]
    intro u hu
    have := hfresh u hu
    simp [this.1, this.2]
  have hany : s.db.users.any
      (fun u => u.username == b.username || u.email == A.email.normalizeEmail b.email) = false := by
    rw [List.any_eq_false]
    intro u hu
    have := hfresh u hu
    simp [this.1, this.2]
  have hrun : signup A s b env =
      (⟨201, .userCreated (nextId (s.db.users.map (·.id)))⟩,
        ⟨⟨s.db.users ++
          [⟨nextId (s.db.users.map (·.id)), b.username, A.email.normalizeEmail b.email,
            A.bcrypt.hash b.password 12 env.salt, env.now, none, true⟩],
          s.db.stats, s.db.achievements⟩, s.sessions⟩) := by
    simp [signup, hvalid, h0, h1, h2, sanitizeSignup, hnone, insertUser, hany]
  refine ⟨⟨nextId (s.db.users.map (·.id)), b.username, A.email.normalizeEmail b.email,
      A.bcrypt.hash b.password 12 env.salt, env.now, none, true⟩, ?_⟩
  rw [hrun]
  refine ⟨rfl, rfl, rfl, rfl, rfl, ?_⟩
  intro r hr heq
  obtain ⟨u, hu, hid⟩ := hfk r hr
  have hlt := lt_nextId (s.db.users.map (·.id)) u.id (List.mem_map_of_mem _ hu)
  simp only at heq
  omega

/-- Witness for C20: a second signup on the store of `nova1` whose stats insert fails. -/
theorem signup_stats_insert_fails_witness :
    ∃ row : UserRow,
      (signup demoApp stNova ⟨"nova2", "nova2@test.io", "Abcdef2"⟩ envStatsInsertFails).1 =
        ⟨201, .userCreated row.id⟩ ∧
      (signup demoApp stNova ⟨"nova2", "nova2@test.io", "Abcdef2"⟩
        envStatsInsertFails).2.db.users = stNova.db.users ++ [row] ∧
      row.username = "nova2" ∧
      row.email = demoApp.email.normalizeEmail "nova2@test.io" ∧
      (signup demoApp stNova ⟨"nova2", "nova2@test.io", "Abcdef2"⟩
        envStatsInsertFails).2.db.stats = stNova.db.stats ∧
      ∀ r ∈ (signup demoApp stNova ⟨"nova2", "nova2@test.io", "Abcdef2"⟩
        envStatsInsertFails).2.db.stats, r.user_id ≠ row.id :=
  signup_stats_insert_fails demoApp stNova ⟨"nova2", "nova2@test.io", "Abcdef2"⟩
    envStatsInsertFails (by decide) (by decide) (by decide) (by decide) (by decide) (by decide)

/-! ## Stats updates when the stats row is missing -/

/-- The store after `nova1` signed up while the stats insert failed: the user row with
id 1 and no stats row. -/
def stNoStats : State :=
  (handle demoApp State.empty (.signup ⟨"nova1", "nova1@test.io", "Abcdef1"⟩)
    envStatsInsertFails).2

/-- The claims `novaToken` carries. -/
def novaPayload : Payload := ⟨1, "nova1", "nova1@test.io", 1000, 1000 + expiresIn⟩

/-- A body for `POST /api/user-stats`. -/
def statsFive : StatsBody := ⟨some 5, some 2, some 12, some 1, some 340⟩

/-- A request with `novaToken` runs the handler of its route on `novaPayload`. -/
theorem handle_nova_postUserStats (s : State) (body : StatsBody) (now : Nat)
    (h : now < 1000 + expiresIn) :
    handle demoApp s (.postUserStats (some ("Bearer " ++ novaToken)) body) (envAt now) =
      postUserStats s novaPayload body (envAt now) := by
  simp only [handle]
  exact withAuth_ok demoApp s _ (envAt now) novaPayload _ (authenticate_nova now h)

theorem handle_nova_getUserStats (s : State) (now : Nat) (h : now < 1000 + expiresIn) :
    handle demoApp s (.getUserStats (some ("Bearer " ++ novaToken))) (envAt now) =
      getUserStats s novaPayload (envAt now) := by
  simp only [handle]
  exact withAuth_ok demoApp s _ (envAt now) novaPayload _ (authenticate_nova now h)

/-- C13: the round trip (what a stats update answered 200 wrote is what the next read
returns) breaks when the user has no stats row.  User 1 exists in `stNoStats` without a
stats row; the update with analyses 5, discoveries 2, starsExplored 12, uploads 1, xp 340
is answered 200 'Stats updated successfully', and the read that follows returns five
zeros. -/
theorem stats_roundtrip_missing_row :
    (∃ u ∈ stNoStats.db.users, u.id = 1 ∧ u.username = "nova1") ∧
    (handle demoApp stNoStats (.postUserStats (some ("Bearer " ++ novaToken)) statsFive)
      (envAt 2000)).1 = ⟨200, .message "Stats updated successfully"⟩ ∧
    (handle demoApp
      (handle demoApp stNoStats (.postUserStats (some ("Bearer " ++ novaToken)) statsFive)
        (envAt 2000)).2
      (.getUserStats (some ("Bearer " ++ novaToken))) (envAt 2001)).1 =
      ⟨200, .stats (some 0) (some 0) (some 0) (some 0) (some 0)⟩ := by
  rw [handle_nova_postUserStats stNoStats statsFive 2000 (by decide),
    handle_nova_getUserStats _ 2001 (by decide)]
  decide

/-- C15: a first stats update that completes successfully does not create the stats row.
User 1 exists in `stNoStats` without a stats row; the update is answered 200, and
afterwards the stats table still holds no row of user 1, while a first read in the same
state is answered 200 and does leave such a row. -/
theorem stats_row_missing_after_update :
    (∃ u ∈ stNoStats.db.users, u.id = 1 ∧ u.username = "nova1") ∧
    (∀ r ∈ stNoStats.db.stats, r.user_id ≠ 1) ∧
    (handle demoApp stNoStats (.postUserStats (some ("Bearer " ++ novaToken)) statsFive)
      (envAt 2000)).1.status = 200 ∧
    (∀ r ∈ (handle demoApp stNoStats
      (.postUserStats (some ("Bearer " ++ novaToken)) statsFive) (envAt 2000)).2.db.stats,
      r.user_id ≠ 1) ∧
    (handle demoApp stNoStats (.getUserStats (some ("Bearer " ++ novaToken)))
      (envAt 2000)).1.status = 200 ∧
    (∃ r ∈ (handle demoApp stNoStats (.getUserStats (some ("Bearer " ++ novaToken)))
      (envAt 2000)).2.db.stats, r.user_id = 1) := by
  rw [handle_nova_postUserStats stNoStats statsFive 2000 (by decide),
    handle_nova_getUserStats _ 2000 (by decide)]
  decide

/-- When the user has a stats row, the round trip holds: after an update answered 200,
the next read by the same user (no store error) returns the submitted values. -/
theorem stats_roundtrip_of_row (s : State) (user₁ user₂ : Payload) (body : StatsBody)
    (env₁ env₂ : Env) (hsame : user₂.userId = user₁.userId)
    (hrow : ∃ r ∈ s.db.stats, r.user_id = user₁.userId)
    (hok : (postUserStats s user₁ body env₁).1.status = 200)
    (hstore : env₂.fails 0 = false) :
    (getUserStats (postUserStats s user₁ body env₁).2 user₂ env₂).1 =
      ⟨200, .stats body.analyses body.discoveries body.starsExplored body.uploads body.xp⟩ := by
  have hf : env₁.fails 0 = false := by
    cases hfe : env₁.fails 0 with
    | false => rfl
    | true => simp [postUserStats, hfe] at hok
  have hst : (postUserStats s user₁ body env₁).2.db.stats =
      s.db.stats.map (fun r =>
        if r.user_id == user₁.userId then
          { r with analyses := body.analyses, discoveries := body.discoveries,
                   stars_explored := body.starsExplored, uploads := body.uploads,
                   total_xp := body.xp, last_updated := env₁.now }
        else r) := by
    simp [postUserStats, hf, updateStats]
  obtain ⟨r, hr, hru⟩ := hrow
  obtain ⟨y, hy, hyp⟩ := find?_of_exists (fun r => r.user_id == user₂.userId)
    (postUserStats s user₁ body env₁).2.db.stats (by
      rw [hst]
      refine ⟨_, List.mem_map_of_mem _ hr, ?_⟩
      simp [hru, hsame])
  have hymem := List.mem_of_find?_eq_some hy
  rw [hst] at hymem
  obtain ⟨r₀, _, hmap⟩ := List.mem_map.1 hymem
  have hyu : y.user_id = user₁.userId := by
    rw [← hsame]
    simpa using hyp
  have hr₀ : r₀.user_id = user₁.userId := by
    by_cases h : r₀.user_id = user₁.userId
    · exact h
    · have hb : (r₀.user_id == user₁.userId) = false := by simpa using h
      simp only [hb] at hmap
      rw [← hmap] at hyu
      exact absurd hyu h
  simp only [hr₀, beq_self_eq_true, if_true] at hmap
  simp only [getUserStats, hstore, hy, Response.json]
  rw [← hmap]
  simp

/-! ## Logout and tokens -/

/-- Every row of `old` is still in `new` with the same id, username, email and creation
time. -/
def Persists (old new : List UserRow) : Prop :=
  ∀ u ∈ old, ∃ v ∈ new,
    v.id = u.id ∧ v.username = u.username ∧ v.email = u.email ∧ v.created_at = u.created_at

theorem persists_refl (l : List UserRow) : Persists l l :=
  fun u hu => ⟨u, hu, rfl, rfl, rfl, rfl⟩

theorem persists_trans (a b c : List UserRow) (hab : Persists a b) (hbc : Persists b c) :
    Persists a c := by
  intro u hu
  obtain ⟨v, hv, h1, h2, h3, h4⟩ := hab u hu
  obtain ⟨w, hw, g1, g2, g3, g4⟩ := hbc v hv
  exact ⟨w, hw, g1.trans h1, g2.trans h2, g3.trans h3, g4.trans h4⟩

/-- No request removes a user row or changes its id, username, email or creation time. -/
theorem handle_persists (A : App) (s : State) (r : Request) (env : Env) :
    Persists s.db.users (handle A s r env).2.db.users := by
  rcases handle_users A s r env with hu | ⟨id, now, hu⟩ | ⟨b, _, _, hu⟩
  · rw [hu]
    exact persists_refl _
  · rw [hu]
    intro u hmem
    exact ⟨touchLogin id now u, List.mem_map_of_mem _ hmem, touchLogin_id id now u,
      touchLogin_username id now u, touchLogin_email id now u, touchLogin_created_at id now u⟩
  · rw [hu]
    intro u hmem
    exact ⟨u, List.mem_append_left _ hmem, rfl, rfl, rfl, rfl⟩

theorem run_persists (A : App) (trace : List (Request × Env)) (s : State) :
    Persists s.db.users (run A s trace).db.users := by
  induction trace generalizing s with
  | nil => exact persists_refl _
  | cons x rest ih =>
    obtain ⟨r, env⟩ := x
    exact persists_trans _ _ _ (handle_persists A s r env) (ih _)

/-- The profile read of a stored user, in a state with the invariant of the users table,
is answered 200 with that user. -/
theorem profile_of_row (s : State) (user : Payload) (env : Env) (v : UserRow)
    (hinv : UsersInv s.db.users) (hv : v ∈ s.db.users) (hid : v.id = user.userId)
    (hstore : env.fails 0 = false) :
    profile s user env =
      (⟨200, .profile v.id v.username v.email v.created_at v.last_login⟩, s) := by
  obtain ⟨y, hy, hyp⟩ := find?_of_exists (fun u => u.id == user.userId) s.db.users
    ⟨v, hv, by simpa using hid⟩
  have hyid : y.id = user.userId := by simpa using hyp
  have hyv : y = v := eq_of_nodup_map (·.id) _ hinv.ids y v (List.mem_of_find?_eq_some hy) hv
    (hyid.trans hid.symm)
  simp [profile, hstore, hy, hyv, Response.json]

/-- The answer of `GET /api/verify-token` does not depend on the state. -/
theorem verifyToken_state_independent (A : App) (s t : State) (auth : Option String)
    (env : Env) :
    (handle A s (.verifyToken auth) env).1 = (handle A t (.verifyToken auth) env).1 := by
  simp only [handle, withAuth, verifyToken]
  split <;> rfl

/-- C16: take a token issued by a login answered 200 in a reachable state; serve any
requests, then a logout answered 200, then any requests.  The logout left the datastore
as it was and removed only the session it refers to; it changes the middleware's answer
for no header; and a `GET /api/profile` with the header `Bearer <token>`, before the
token expires and with no store error, is answered 200 with the id, username and email the
login returned. -/
theorem logout_keeps_token (A : App) (pre mid post : List (Request × Env))
    (cookie cookieL : Option String) (b : LoginBody) (env envL envP : Env)
    (token : String) (id : Nat) (username email : String) (s₁ : State)
    (hlogin : login A (run A State.empty pre) cookie b env =
      (⟨200, .loginOk token id username email⟩, s₁))
    (hlogout : (logout (run A s₁ mid) cookieL envL).1 = ⟨200, .message "Logout successful"⟩)
    (hnow : envP.now < env.now + 24 * 60 * 60) (hstore : envP.fails 0 = false) :
    (logout (run A s₁ mid) cookieL envL).2 =
      ⟨(run A s₁ mid).db, (run A s₁ mid).sessions.filter
        (fun x => x.sid != sessionId (run A s₁ mid).sessions cookieL envL)⟩ ∧
    (∀ (auth : Option String) (e : Env),
      (handle A (logout (run A s₁ mid) cookieL envL).2 (.verifyToken auth) e).1 =
        (handle A (run A s₁ mid) (.verifyToken auth) e).1) ∧
    ∃ created last,
      handle A (run A (logout (run A s₁ mid) cookieL envL).2 post)
          (.profile (some ("Bearer " ++ token))) envP =
        (⟨200, .profile id username email created last⟩,
          run A (logout (run A s₁ mid) cookieL envL).2 post) := by
  -- the logout
  have hf : envL.fails 0 = false := by
    cases hfe : envL.fails 0 with
    | false => rfl
    | true => simp [logout, hfe] at hlogout
  have hout : (logout (run A s₁ mid) cookieL envL).2 =
      ⟨(run A s₁ mid).db, (run A s₁ mid).sessions.filter
        (fun x => x.sid != sessionId (run A s₁ mid).sessions cookieL envL)⟩ := by
    simp [logout, hf]
  refine ⟨hout, fun auth e => verifyToken_state_independent A _ _ auth e, ?_⟩
  -- the row of the login
  obtain ⟨u, hu, _, _, _, hid, hun, hem, htok⟩ :=
    login_ok_inv A _ s₁ cookie b env token id username email hlogin
  have hs₁ : s₁ = (handle A (run A State.empty pre) (.login cookie b) env).2 := by
    simp only [handle, hlogin]
  have hinv₁ : UsersInv s₁.db.users := by
    rw [hs₁]
    exact handle_usersInv A _ _ env (reachable_usersInv A pre)
  have hp₁ : Persists (run A State.empty pre).db.users s₁.db.users := by
    rw [hs₁]
    exact handle_persists A _ _ env
  have hdb : (logout (run A s₁ mid) cookieL envL).2.db.users = (run A s₁ mid).db.users :=
    congrArg Db.users (logout_db _ cookieL envL)
  have hinv₂ : UsersInv (logout (run A s₁ mid) cookieL envL).2.db.users := by
    rw [hdb]
    exact run_usersInv A mid s₁ hinv₁
  have hp₂ : Persists s₁.db.users (logout (run A s₁ mid) cookieL envL).2.db.users := by
    rw [hdb]
    exact run_persists A mid s₁
  have hinv₃ := run_usersInv A post _ hinv₂
  have hp₃ := persists_trans _ _ _ (persists_trans _ _ _ hp₁ hp₂) (run_persists A post _)
  obtain ⟨v, hv, hvid, hvun, hvem, _⟩ := hp₃ u hu
  -- the profile read
  have hacc : authenticateToken A (some ("Bearer " ++ token)) envP.now =
      .ok ⟨u.id, u.username, u.email, env.now, env.now + expiresIn⟩ := by
    rw [htok, authenticateToken_issued, if_neg]
    simp only [expiresIn, ge_iff_le, not_le]
    exact hnow
  refine ⟨v.created_at, v.last_login, ?_⟩
  simp only [handle]
  rw [withAuth_ok A _ _ envP _ _ hacc,
    profile_of_row _ _ envP v hinv₃ hv hvid hstore, hvid, hvun, hvem, hid, hun, hem]

/-- Witness for C16: `nova1` signs up, logs in, logs out, and reads its profile. -/
theorem logout_keeps_token_witness :
    (logout (run demoApp (login demoApp (run demoApp State.empty novaTrace) none
        ⟨"nova1", "Abcdef1"⟩ env0).2 []) none (envAt 1200)).2 =
      ⟨(run demoApp (login demoApp (run demoApp State.empty novaTrace) none
          ⟨"nova1", "Abcdef1"⟩ env0).2 []).db,
        (run demoApp (login demoApp (run demoApp State.empty novaTrace) none
          ⟨"nova1", "Abcdef1"⟩ env0).2 []).sessions.filter
          (fun x => x.sid != sessionId
            (run demoApp (login demoApp (run demoApp State.empty novaTrace) none
              ⟨"nova1", "Abcdef1"⟩ env0).2 []).sessions none (envAt 1200))⟩ ∧
    (∀ (auth : Option String) (e : Env),
      (handle demoApp (logout (run demoApp (login demoApp (run demoApp State.empty novaTrace)
          none ⟨"nova1", "Abcdef1"⟩ env0).2 []) none (envAt 1200)).2 (.verifyToken auth) e).1 =
        (handle demoApp (run demoApp (login demoApp (run demoApp State.empty novaTrace) none
          ⟨"nova1", "Abcdef1"⟩ env0).2 []) (.verifyToken auth) e).1) ∧
    ∃ created last,
      handle demoApp
          (run demoApp (logout (run demoApp (login demoApp (run demoApp State.empty novaTrace)
            none ⟨"nova1", "Abcdef1"⟩ env0).2 []) none (envAt 1200)).2 [])
          (.profile (some ("Bearer " ++ novaToken))) (envAt 1300) =
        (⟨200, .profile 1 "nova1" "nova1@test.io" created last⟩,
          run demoApp (logout (run demoApp (login demoApp (run demoApp State.empty novaTrace)
            none ⟨"nova1", "Abcdef1"⟩ env0).2 []) none (envAt 1200)).2 []) :=
  logout_keeps_token demoApp novaTrace [] [] none none ⟨"nova1", "Abcdef1"⟩ env0 (envAt 1200)
    (envAt 1300) novaToken 1 "nova1" "nova1@test.io" _ rfl rfl (by decide) (by decide)

/-! ## The middleware stack around the routes

The requests of `handle` are requests a route has already matched.  `serve` is the whole
stack in the order of `server.js`: the rate limiter on `/api/`, CORS, the static files of
`public`, the API routes, the catch-all `app.get('*')`, and the 404 handler. -/

/-- The parsed JSON body of a request: a missing string field is empty, other missing
fields are `none`. -/
structure ReqBody where
  username : String
  email : String
  password : String
  achievementId : Option String
  stats : StatsBody
deriving DecidableEq, Repr

/-- A request as the server receives it; `path` is the path without the query string. -/
structure HttpRequest where
  method : String
  path : String
  ip : String
  authorization : Option String
  cookie : Option String
  body : ReqBody
deriving DecidableEq, Repr

/-- What the server sends: JSON, the text of the rate limiter, a file, or nothing. -/
inductive HttpBody
  | json (b : Body)
  | text (s : String)
  | file (path : String)
  | empty
deriving DecidableEq, Repr

/-- Status code and content of an HTTP response. -/
structure HttpResponse where
  status : Nat
  body : HttpBody
deriving DecidableEq, Repr

/-- One counter of the rate limiter: the requests of `ip` in the window ending at
`resetTime`. -/
structure RateEntry where
  ip : String
  hits : Nat
  resetTime : Nat
deriving DecidableEq, Repr

/-- The server between requests: the application state and the counters of the limiter. -/
structure Server where
  state : State
  limiter : List RateEntry
deriving DecidableEq, Repr

/-- A freshly started server on an empty store. -/
def Server.empty : Server := ⟨State.empty, []⟩

/-- Route paths are matched without regard to case. -/
def lowerPath (p : String) : List Char := p.data.map Char.toLower

/-- Whether `p` matches the route path `route` (case-insensitive, with an optional
trailing slash). -/
def pathIs (route : String) (p : String) : Bool :=
  lowerPath p == route.data || lowerPath p == route.data ++ ['/']

/-- Whether `p` lies under the mount point `/api/` of the limiter. -/
def underApi (p : String) : Bool :=
  lowerPath p == "/api".data || "/api/".data.isPrefixOf (lowerPath p)

/-- The deployed site: the application, and which request paths `express.static` finds a
file for under `public`.  The directory holds the front-end; it has no `api` folder. -/
structure Site where
  app : App
  publicFile : String → Bool
  noApiFiles : ∀ p, underApi p = true → publicFile p = false

/-- A `GET` route also answers `HEAD`. -/
def isGet (method : String) : Bool := method == "GET" || method == "HEAD"

/-- `windowMs: 15 * 60 * 1000`, in seconds. -/
def windowSeconds : Nat := 15 * 60

/-- `max: 100`: "limit each IP to 100 requests per windowMs". -/
def maxRequests : Nat := 100

/-- The number of requests of `ip` in its current window, this one included. -/
def limiterHits (entries : List RateEntry) (ip : String) (now : Nat) : Nat :=
  match entries.find? (fun e => e.ip == ip && decide (now < e.resetTime)) with
  | some e => e.hits + 1
  | none => 1

/-- The counters after counting one request of `ip`. -/
def limiterIncrement (entries : List RateEntry) (ip : String) (now : Nat) : List RateEntry :=
  match entries.find? (fun e => e.ip == ip && decide (now < e.resetTime)) with
  | some _ => entries.map (fun x => if x.ip == ip then { x with hits := x.hits + 1 } else x)
  | none => ⟨ip, 1, now + windowSeconds⟩ :: entries.filter (fun x => x.ip != ip)

/-- The API route a request matches, with the parts of the request its handler reads. -/
def route (h : HttpRequest) : Option Request :=
  if isGet h.method && pathIs "/api/health" h.path then some .health
  else if h.method == "POST" && pathIs "/api/signup" h.path then
    some (.signup ⟨h.body.username, h.body.email, h.body.password⟩)
  else if h.method == "POST" && pathIs "/api/login" h.path then
    some (.login h.cookie ⟨h.body.username, h.body.password⟩)
  else if h.method == "POST" && pathIs "/api/logout" h.path then some (.logout h.cookie)
  else if isGet h.method && pathIs "/api/profile" h.path then some (.profile h.authorization)
  else if isGet h.method && pathIs "/api/user-stats" h.path then
    some (.getUserStats h.authorization)
  else if h.method == "POST" && pathIs "/api/user-stats" h.path then
    some (.postUserStats h.authorization h.body.stats)
  else if isGet h.method && pathIs "/api/achievements" h.path then
    some (.getAchievements h.authorization)
  else if h.method == "POST" && pathIs "/api/achievements" h.path then
    some (.postAchievements h.authorization h.body.achievementId)
  else if isGet h.method && pathIs "/api/verify-token" h.path then
    some (.verifyToken h.authorization)
  else none

/-- Whether the process exits once this response is under way: the login cut short by the
`error` event of the failed `UPDATE`. -/
def Response.exits (r : Response) : Bool :=
  match r.body with
  | .loginCutShort _ _ _ _ => true
  | _ => false

/-- The server: one request through the middleware stack. The counters of the limiter are
kept in the memory of the process, so they start again from nothing after an exit. -/
def serve (D : Site) (sv : Server) (h : HttpRequest) (env : Env) : HttpResponse × Server :=
  let limiter := if underApi h.path then limiterIncrement sv.limiter h.ip env.now else sv.limiter
  if underApi h.path && decide (maxRequests < limiterHits sv.limiter h.ip env.now) then
    (⟨429, .text "Too many requests from this IP, please try again later."⟩,
      ⟨sv.state, limiter⟩)
  else if h.method == "OPTIONS" then (⟨204, .empty⟩, ⟨sv.state, limiter⟩)
  else if isGet h.method && D.publicFile h.path then (⟨200, .file h.path⟩, ⟨sv.state, limiter⟩)
  else
    match route h with
    | some r =>
      (⟨(handle D.app sv.state r env).1.status, .json (handle D.app sv.state r env).1.body⟩,
        ⟨(handle D.app sv.state r env).2,
          if (handle D.app sv.state r env).1.exits then [] else limiter⟩)
    | none =>
      if isGet h.method then
        if D.publicFile "/index.html" then (⟨200, .file "/index.html"⟩, ⟨sv.state, limiter⟩)
        else (⟨500, .json (.error "Internal server error")⟩, ⟨sv.state, limiter⟩)
      else (⟨404, .json (.error "Route not found")⟩, ⟨sv.state, limiter⟩)

/-- The server after a sequence of requests, served one after the other. -/
def serveAll (D : Site) (sv : Server) : List (HttpRequest × Env) → Server
  | [] => sv
  | (h, env) :: rest => serveAll D (serve D sv h env).2 rest

/-- A body with no field set. -/
def emptyBody : ReqBody := ⟨"", "", "", none, ⟨none, none, none, none, none⟩⟩

/-- The request `GET /api/health` from the address `10.0.0.7`. -/
def healthRequest : HttpRequest := ⟨"GET", "/api/health", "10.0.0.7", none, none, emptyBody⟩

/-- A site for evaluating requests: `public` holds `index.html` and `script.js`. -/
def demoSite : Site where
  app := demoApp
  publicFile p := p == "/index.html" || p == "/" || p == "/script.js"
  noApiFiles := by
    intro p hp
    by_cases h1 : p = "/index.html"
    · subst h1
      exact absurd hp (by decide)
    by_cases h2 : p = "/"
    · subst h2
      exact absurd hp (by decide)
    by_cases h3 : p = "/script.js"
    · subst h3
      exact absurd hp (by decide)
    simp [h1, h2, h3]

theorem underApi_of_prefix (p : String) (rest : List Char)
    (h : lowerPath p = "/api/".data ++ rest) : underApi p = true := by
  simp only [underApi, h, Bool.or_eq_true]
  right
  simp [List.isPrefixOf]

theorem underApi_of_pathIs_health (p : String) (h : pathIs "/api/health" p = true) :
    underApi p = true := by
  simp only [pathIs, Bool.or_eq_true, beq_iff_eq] at h
  rcases h with h | h
  · exact underApi_of_prefix p "health".data (by rw [h]; rfl)
  · exact underApi_of_prefix p "health/".data (by rw [h]; rfl)

set_option maxRecDepth 100000 in
/-- C17, as stated, fails: on a freshly started server, after 100 requests
`GET /api/health` from one address within the same window, the next such request is
answered 429 with the text of the limiter, not 200. -/
theorem health_rate_limited_counterexample :
    (serve demoSite
      (serveAll demoSite Server.empty (List.replicate 100 (healthRequest, env0)))
      healthRequest env0).1 =
      ⟨429, .text "Too many requests from this IP, please try again later."⟩ := by
  decide

/-- C17, amended: in every server state, a `GET /api/health` that the rate limiter lets
through (at most 100 requests of that address in its current window, this one included)
is answered 200 with the health body, and leaves the application state as it was. -/
theorem health_ok (D : Site) (sv : Server) (h : HttpRequest) (env : Env)
    (hm : h.method = "GET") (hp : pathIs "/api/health" h.path = true)
    (hlim : limiterHits sv.limiter h.ip env.now ≤ maxRequests) :
    (serve D sv h env).1 = ⟨200, .json .health⟩ ∧ (serve D sv h env).2.state = sv.state := by
  have hapi := underApi_of_pathIs_health h.path hp
  have hfile : D.publicFile h.path = false := D.noApiFiles _ hapi
  have hnl : decide (maxRequests < limiterHits sv.limiter h.ip env.now) = false := by
    simp only [decide_eq_false_iff_not, not_lt]
    exact hlim
  have hget : isGet h.method = true := by rw [hm]; rfl
  have hopt : (h.method == "OPTIONS") = false := by rw [hm]; rfl
  have hroute : route h = some .health := by simp [route, hget, hp]
  simp [serve, hapi, hnl, hopt, hfile, hroute, handle, Response.json]

/-- Witness for C17, amended: the first health check on a freshly started server. -/
theorem health_ok_witness :
    (serve demoSite Server.empty healthRequest env0).1 = ⟨200, .json .health⟩ ∧
    (serve demoSite Server.empty healthRequest env0).2.state = Server.empty.state :=
  health_ok demoSite Server.empty healthRequest env0 rfl (by decide) (by decide)

/-- The request `GET /nope`: no API route has this path. -/
def nopeRequest : HttpRequest := ⟨"GET", "/nope", "10.0.0.7", none, none, emptyBody⟩

/-- C18, as stated, fails for `GET`: the request `GET /nope` matches no API route and is
answered by the catch-all route with the file `index.html` and status 200, not with 404
'Route not found'. -/
theorem unmatched_get_counterexample :
    route nopeRequest = none ∧
    (serve demoSite Server.empty nopeRequest env0).1 = ⟨200, .file "/index.html"⟩ := by
  decide

/-- C18, amended: a request that matches no API route and that the rate limiter lets
through is answered 404 `{ error: 'Route not found' }` when its method is not GET, HEAD
or OPTIONS, and the application state is unchanged; an unmatched GET or HEAD never gets
that answer: it is served a file of `public`, `index.html` by the catch-all route, or 500
when that file is missing. -/
theorem unmatched_route (D : Site) (sv : Server) (h : HttpRequest) (env : Env)
    (hroute : route h = none)
    (hlim : underApi h.path = true → limiterHits sv.limiter h.ip env.now ≤ maxRequests) :
    (h.method ≠ "GET" → h.method ≠ "HEAD" → h.method ≠ "OPTIONS" →
      (serve D sv h env).1 = ⟨404, .json (.error "Route not found")⟩ ∧
      (serve D sv h env).2.state = sv.state) ∧
    ((h.method = "GET" ∨ h.method = "HEAD") →
      (serve D sv h env).1 = ⟨200, .file h.path⟩ ∨
      (serve D sv h env).1 = ⟨200, .file "/index.html"⟩ ∨
      (serve D sv h env).1 = ⟨500, .json (.error "Internal server error")⟩) := by
  have hnl : (underApi h.path && decide (maxRequests < limiterHits sv.limiter h.ip env.now))
      = false := by
    cases hu : underApi h.path with
    | false => rfl
    | true =>
      have := hlim hu
      simp only [Bool.true_and, decide_eq_false_iff_not, not_lt]
      exact this
  constructor
  · intro hg hh ho
    have hget : isGet h.method = false := by simp [isGet, hg, hh]
    have hopt : (h.method == "OPTIONS") = false := by simpa using ho
    simp [serve, hnl, hopt, hget, hroute]
  · intro hm
    have hget : isGet h.method = true := by
      rcases hm with hm | hm <;> rw [hm] <;> rfl
    have hopt : (h.method == "OPTIONS") = false := by
      rcases hm with hm | hm <;> rw [hm] <;> rfl
    by_cases hf : D.publicFile h.path = true
    · left
      simp [serve, hnl, hopt, hget, hf]
    · by_cases hi : D.publicFile "/index.html" = true
      · right; left
        simp [serve, hnl, hopt, hget, hf, hroute, hi]
      · right; right
        simp [serve, hnl, hopt, hget, hf, hroute, hi]

/-- The request `DELETE /api/users/1`: no API route has this method and path. -/
def deleteRequest : HttpRequest := ⟨"DELETE", "/api/users/1", "10.0.0.7", none, none, emptyBody⟩

/-- Witness for C18, amended: `DELETE /api/users/1` on a freshly started server. -/
theorem unmatched_route_witness :
    ("DELETE" ≠ "GET" → "DELETE" ≠ "HEAD" → "DELETE" ≠ "OPTIONS" →
      (serve demoSite Server.empty deleteRequest env0).1 =
        ⟨404, .json (.error "Route not found")⟩ ∧
      (serve demoSite Server.empty deleteRequest env0).2.state = Server.empty.state) ∧
    (("DELETE" = "GET" ∨ "DELETE" = "HEAD") →
      (serve demoSite Server.empty deleteRequest env0).1 = ⟨200, .file "/api/users/1"⟩ ∨
      (serve demoSite Server.empty deleteRequest env0).1 = ⟨200, .file "/index.html"⟩ ∨
      (serve demoSite Server.empty deleteRequest env0).1 =
        ⟨500, .json (.error "Internal server error")⟩) :=
  unmatched_route demoSite Server.empty deleteRequest env0 (by decide) (by decide)

/-- A request under `/api/` from an address over the limit of its window is answered 429
with the text of the limiter, whatever it asks for. -/
theorem serve_over_limit (D : Site) (sv : Server) (h : HttpRequest) (env : Env)
    (hapi : underApi h.path = true)
    (hlim : maxRequests < limiterHits sv.limiter h.ip env.now) :
    (serve D sv h env).1 =
      ⟨429, .text "Too many requests from this IP, please try again later."⟩ := by
  simp [serve, hapi, hlim]

/-- The application state after a request through the stack: untouched, or what the
matched route made of it. -/
theorem serve_state (D : Site) (sv : Server) (h : HttpRequest) (env : Env) :
    (serve D sv h env).2.state = sv.state ∨
    ∃ r, route h = some r ∧ (serve D sv h env).2.state = (handle D.app sv.state r env).2 := by
  unfold serve
  simp only
  split
  · exact Or.inl rfl
  · split
    · exact Or.inl rfl
    · split
      · exact Or.inl rfl
      · split
        · rename_i r hr
          exact Or.inr ⟨r, hr, rfl⟩
        · split
          · split <;> exact Or.inl rfl
          · exact Or.inl rfl

theorem run_append (A : App) (s : State) (xs ys : List (Request × Env)) :
    run A s (xs ++ ys) = run A (run A s xs) ys := by
  induction xs generalizing s with
  | nil => rfl
  | cons x rest ih =>
    obtain ⟨r, env⟩ := x
    simp only [List.cons_append, run]
    exact ih _

/-- A state the server reaches through the stack is a state the routes reach: the
invariants of `run` hold of the histories of `serveAll`. -/
theorem serveAll_state (D : Site) (requests : List (HttpRequest × Env)) (sv : Server)
    (pre : List (Request × Env)) (hsv : sv.state = run D.app State.empty pre) :
    ∃ trace, (serveAll D sv requests).state = run D.app State.empty trace := by
  induction requests generalizing sv pre with
  | nil => exact ⟨pre, hsv⟩
  | cons x rest ih =>
    obtain ⟨h, env⟩ := x
    simp only [serveAll]
    rcases serve_state D sv h env with hs | ⟨r, _, hs⟩
    · exact ih _ pre (hs.trans hsv)
    · apply ih _ (pre ++ [(r, env)])
      rw [hs, hsv, run_append]
      rfl

/-! ## Front-end (`script.js`): the prediction generator

`generateAIPrediction` and `generateConfidence` are embedded over exact arithmetic: a
number is a rational, and the draw of `Math.random()` is an argument. -/

/-- The fields of a planet record the two generators read. -/
structure Planet where
  status : String
  planetRadius : ℚ
  orbitalPeriod : ℚ

/-- The array `predictions`. -/
def predictions : List String := ["Confirmed", "Candidate", "False Positive"]

/-- The array `weights` after the branch on `planet.status`. -/
def initialWeights (planet : Planet) : List ℚ :=
  if planet.status = "Confirmed" then [7 / 10, 2 / 10, 1 / 10]
  else if planet.status = "Candidate" then [3 / 10, 5 / 10, 2 / 10]
  else [4 / 10, 4 / 10, 2 / 10]

/-- The assignment `weights[i] *= k`. -/
def scaleAt (i : Nat) (k : ℚ) (weights : List ℚ) : List ℚ := weights.modify (· * k) i

/-- The array `weights` after the adjustments for radius and orbital period. -/
def adjustedWeights (planet : Planet) : List ℚ :=
  let w0 := initialWeights planet
  let w1 := if planet.planetRadius < 1 then scaleAt 1 (12 / 10) (scaleAt 0 (8 / 10) w0) else w0
  if planet.orbitalPeriod < 5 then scaleAt 2 (15 / 10) w1 else w1

/-- The array `weights` after `weights.map(w => w / total)`. -/
def normalizedWeights (planet : Planet) : List ℚ :=
  let weights := adjustedWeights planet
  let total := weights.foldl (fun sum w => sum + w) 0
  weights.map (fun w => w / total)

/-- The `for` loop over `predictions`: `none` when the loop ends without returning. -/
def pickLoop (random : ℚ) : List String → List ℚ → ℚ → Option String
  | p :: ps, w :: ws, cumulative =>
    if random ≤ cumulative + w then some p else pickLoop random ps ws (cumulative + w)
  | _, _, _ => none

/-- The method `generateAIPrediction(planet)` when `Math.random()` returns `random`. -/
def generateAIPrediction (planet : Planet) (random : ℚ) : String :=
  match pickLoop random predictions (normalizedWeights planet) 0 with
  | some p => p
  | none => "Confirmed"

/-- The function `Math.round`: the nearest integer, halves rounded up. -/
def mathRound (x : ℚ) : ℤ := ⌊x + 1 / 2⌋

/-- The method `generateConfidence(planet, prediction)` when `Math.random()` returns
`random`. -/
def generateConfidence (planet : Planet) (_prediction : String) (random : ℚ) : ℤ :=
  let base0 : ℚ := 75
  let base1 :=
    if planet.status = "Confirmed" then base0 + 15
    else if planet.status = "Candidate" then base0 + 5
    else base0
  let base2 :=
    if planet.planetRadius > 15 / 10 then base1 + 10
    else if planet.planetRadius < 1 then base1 - 15
    else base1
  let base3 :=
    if planet.orbitalPeriod > 30 then base2 + 5
    else if planet.orbitalPeriod < 10 then base2 - 10
    else base2
  let baseConfidence := base3 + (random - 1 / 2) * 20
  max 45 (min 95 (mathRound baseConfidence))

/-- The normalized weights as the description of the generator gives them: the base
weights by status, the first times 0.8 and the second times 1.2 for a radius below 1, the
third times 1.5 for a period below 5, each divided by their sum. -/
def specWeights (planet : Planet) : ℚ × ℚ × ℚ :=
  let base : ℚ × ℚ × ℚ :=
    if planet.status = "Confirmed" then (7 / 10, 2 / 10, 1 / 10)
    else if planet.status = "Candidate" then (3 / 10, 5 / 10, 2 / 10)
    else (4 / 10, 4 / 10, 2 / 10)
  let a := if planet.planetRadius < 1 then base.1 * (8 / 10) else base.1
  let b := if planet.planetRadius < 1 then base.2.1 * (12 / 10) else base.2.1
  let c := if planet.orbitalPeriod < 5 then base.2.2 * (15 / 10) else base.2.2
  (a / (a + b + c), b / (a + b + c), c / (a + b + c))

/-- The first label, in the order Confirmed, Candidate, False Positive, whose cumulative
normalized weight is at least `r`. -/
def specPrediction (planet : Planet) (r : ℚ) : Option String :=
  ([("Confirmed", (specWeights planet).1),
    ("Candidate", (specWeights planet).1 + (specWeights planet).2.1),
    ("False Positive",
      (specWeights planet).1 + (specWeights planet).2.1 + (specWeights planet).2.2)].find?
      (fun x => decide (r ≤ x.2))).map (·.1)

/-- The adjusted weights are three positive numbers, the ones of the description. -/
theorem adjustedWeights_eq (planet : Planet) :
    ∃ a b c : ℚ, 0 < a ∧ 0 < b ∧ 0 < c ∧ adjustedWeights planet = [a, b, c] ∧
      specWeights planet = (a / (a + b + c), b / (a + b + c), c / (a + b + c)) := by
  unfold adjustedWeights specWeights initialWeights scaleAt
  by_cases h1 : planet.status = "Confirmed" <;> by_cases h2 : planet.status = "Candidate" <;>
    by_cases h3 : planet.planetRadius < 1 <;> by_cases h4 : planet.orbitalPeriod < 5 <;>
    simp only [h1, h2, h3, h4, if_true, if_false, List.modify] <;>
    exact ⟨_, _, _, by norm_num, by norm_num, by norm_num, rfl, rfl⟩

/-- The loop returns the label of the description, and it does return. -/
theorem pickLoop_spec (planet : Planet) (r : ℚ) (h1 : r ≤ 1) :
    pickLoop r predictions (normalizedWeights planet) 0 = specPrediction planet r ∧
    (pickLoop r predictions (normalizedWeights planet) 0).isSome = true := by
  obtain ⟨a, b, c, ha, hb, hc, hadj, hspec⟩ := adjustedWeights_eq planet
  have ht : a + b + c ≠ 0 := by positivity
  have hsum : a / (a + b + c) + b / (a + b + c) + c / (a + b + c) = 1 := by
    field_simp
  have hn : normalizedWeights planet =
      [a / (a + b + c), b / (a + b + c), c / (a + b + c)] := by
    simp [normalizedWeights, hadj]
  rw [hn]
  simp only [specPrediction, hspec, predictions, pickLoop, zero_add, hsum]
  by_cases c1 : r ≤ a / (a + b + c)
  · simp [c1]
  · by_cases c2 : r ≤ a / (a + b + c) + b / (a + b + c)
    · simp [c1, c2]
    · simp [c1, c2, h1]

/-- C21: over exact arithmetic, for every planet and every draw `r` with `r ≤ 1` (the
draws in `[0, 1]` in particular),
`generateAIPrediction` returns the first label, in the order Confirmed, Candidate, False
Positive, whose cumulative normalized weight is at least `r`, the weights being those of
`specWeights`; the loop always returns, so the fallback `return predictions[0]` is never
reached. -/
theorem generateAIPrediction_spec (planet : Planet) (r : ℚ) (h1 : r ≤ 1) :
    specPrediction planet r = some (generateAIPrediction planet r) ∧
    pickLoop r predictions (normalizedWeights planet) 0 =
      some (generateAIPrediction planet r) := by
  obtain ⟨hs, hsome⟩ := pickLoop_spec planet r h1
  cases hp : pickLoop r predictions (normalizedWeights planet) 0 with
  | none => simp [hp] at hsome
  | some label =>
    have hg : generateAIPrediction planet r = label := by simp [generateAIPrediction, hp]
    rw [← hs, hp, hg]
    exact ⟨rfl, rfl⟩

/-- Witness for C21: TRAPPIST-1e (Confirmed, radius 0.92, period 6.1) at the draw 0.99. -/
theorem generateAIPrediction_spec_witness :
    specPrediction ⟨"Confirmed", 92 / 100, 61 / 10⟩ (99 / 100) =
      some (generateAIPrediction ⟨"Confirmed", 92 / 100, 61 / 10⟩ (99 / 100)) ∧
    pickLoop (99 / 100) predictions (normalizedWeights ⟨"Confirmed", 92 / 100, 61 / 10⟩) 0 =
      some (generateAIPrediction ⟨"Confirmed", 92 / 100, 61 / 10⟩ (99 / 100)) :=
  generateAIPrediction_spec ⟨"Confirmed", 92 / 100, 61 / 10⟩ (99 / 100) (by norm_num)

/-- C30: for every planet, label and draw in `[0, 1)`, `generateConfidence` returns an
integer between 45 and 95 inclusive; 45 is returned for a planet of unknown status with
radius 0.5 and period 1 at the draw 0, and 95 for a Confirmed planet with radius 2 and
period 40 at the draw 0.5. -/
theorem generateConfidence_bounds :
    (∀ (planet : Planet) (prediction : String) (r : ℚ), 0 ≤ r → r < 1 →
      45 ≤ generateConfidence planet prediction r ∧
      generateConfidence planet prediction r ≤ 95) ∧
    generateConfidence ⟨"Unknown", 1 / 2, 1⟩ "Candidate" 0 = 45 ∧
    generateConfidence ⟨"Confirmed", 2, 40⟩ "Confirmed" (1 / 2) = 95 := by
  refine ⟨?_, ?_, ?_⟩
  · intro planet prediction r _ _
    unfold generateConfidence
    simp only
    exact ⟨le_max_left _ _, max_le (by norm_num) (min_le_left _ _)⟩
  · have h1 : ¬ ("Unknown" = "Confirmed") := by decide
    have h2 : ¬ ("Unknown" = "Candidate") := by decide
    norm_num [generateConfidence, mathRound, h1, h2]
  · norm_num [generateConfidence, mathRound]

/-- Witness for C30: Kepler-452b (Confirmed, radius 1.63, period 384.8) at the draw 0.25. -/
theorem generateConfidence_bounds_witness :
    45 ≤ generateConfidence ⟨"Confirmed", 163 / 100, 3848 / 10⟩ "Confirmed" (1 / 4) ∧
    generateConfidence ⟨"Confirmed", 163 / 100, 3848 / 10⟩ "Confirmed" (1 / 4) ≤ 95 :=
  generateConfidence_bounds.1 ⟨"Confirmed", 163 / 100, 3848 / 10⟩ "Confirmed" (1 / 4)
    (by norm_num) (by norm_num)

/-! ## Front-end (`script.js`): achievements

The gamification state of `ExoAIExplorer` and the methods that change it.  Rendering,
notifications and storage writes leave the state alone and are left out.  Two counters
record history the source keeps no trace of: how often `loadNasaData` completed and how
often `endTour` ran. -/

/-- The object `userStats`. -/
structure UserStats where
  analyses : Nat
  discoveries : Nat
  starsExplored : Nat
  uploads : Nat
  xp : Nat
deriving DecidableEq, Repr

/-- An entry of the array `achievements`; its `condition` closure is `condition` below. -/
structure Achievement where
  id : String
  name : String
  description : String
  xp : Nat
  unlocked : Bool
deriving DecidableEq, Repr

/-- The gamification state, with the two history counters. -/
structure Client where
  userStats : UserStats
  achievements : List Achievement
  tourMode : Bool
  tourStep : Nat
  nasaLoads : Nat
  toursEnded : Nat
deriving DecidableEq, Repr

/-- The `condition` closure of the achievement `id`, evaluated in state `c`. -/
def condition (c : Client) (id : String) : Bool :=
  if id = "first_analysis" then decide (c.userStats.analyses ≥ 1)
  else if id = "nasa_explorer" then decide (c.userStats.analyses ≥ 1)
  else if id = "star_gazer" then decide (c.userStats.starsExplored ≥ 10)
  else if id = "planet_hunter" then decide (c.userStats.discoveries ≥ 5)
  else if id = "data_uploader" then decide (c.userStats.uploads ≥ 3)
  else if id = "ai_master" then decide (c.userStats.analyses ≥ 10)
  else if id = "space_tourist" then decide (c.tourStep > 0)
  else false

/-- The array `initializeAchievements` builds, nothing being saved. -/
def initializeAchievements : List Achievement :=
  [⟨"first_analysis", "Data Scientist", "Run your first AI analysis", 50, false⟩,
   ⟨"nasa_explorer", "NASA Collaborator", "Load NASA exoplanet data", 75, false⟩,
   ⟨"star_gazer", "Star Gazer", "Explore 10 stars", 100, false⟩,
   ⟨"planet_hunter", "Planet Hunter", "Discover 5 planets", 150, false⟩,
   ⟨"data_uploader", "Data Uploader", "Upload 3 datasets", 75, false⟩,
   ⟨"ai_master", "AI Master", "Run 10 AI analyses", 200, false⟩,
   ⟨"space_tourist", "Space Tourist", "Complete a space tour", 100, false⟩]

/-- The fresh client: no saved achievements, all counters zero. -/
def Client.fresh : Client := ⟨⟨0, 0, 0, 0, 0⟩, initializeAchievements, false, 0, 0, 0⟩

/-- The method `awardXP(amount, reason)`. -/
def awardXP (c : Client) (amount : Nat) : Client :=
  { c with userStats := { c.userStats with xp := c.userStats.xp + amount } }

/-- The method `unlockAchievement(achievement)`. -/
def unlockAchievement (c : Client) (achievement : Achievement) : Client :=
  let unlocked := c.achievements.map
    (fun a => if a.id == achievement.id then { a with unlocked := true } else a)
  awardXP { c with achievements := unlocked } achievement.xp

/-- The method `checkAchievements()`: one pass over the array. -/
def checkAchievements (c : Client) : Client :=
  c.achievements.foldl
    (fun acc achievement =>
      if !achievement.unlocked && condition acc achievement.id then
        unlockAchievement acc achievement
      else acc)
    c

/-- The method `trackAnalysis()`. -/
def trackAnalysis (c : Client) : Client :=
  let stats := { c.userStats with analyses := c.userStats.analyses + 1 }
  checkAchievements (awardXP { c with userStats := stats } 25)

/-- The method `trackDiscovery()`. -/
def trackDiscovery (c : Client) : Client :=
  let stats := { c.userStats with discoveries := c.userStats.discoveries + 1 }
  checkAchievements (awardXP { c with userStats := stats } 50)

/-- The method `trackStarExploration()`. -/
def trackStarExploration (c : Client) : Client :=
  let stats := { c.userStats with starsExplored := c.userStats.starsExplored + 1 }
  checkAchievements (awardXP { c with userStats := stats } 10)

/-- The method `trackUpload()`. -/
def trackUpload (c : Client) : Client :=
  let stats := { c.userStats with uploads := c.userStats.uploads + 1 }
  checkAchievements (awardXP { c with userStats := stats } 30)

/-- The method `endTour()`. -/
def endTour (c : Client) : Client :=
  let c1 := { c with tourMode := false, toursEnded := c.toursEnded + 1 }
  match c1.achievements.find? (fun a => a.id == "space_tourist") with
  | some tourAchievement =>
    if !tourAchievement.unlocked then unlockAchievement c1 tourAchievement else c1
  | none => c1

/-- The method `nextTourStep()`; `tourSteps` has five entries. -/
def nextTourStep (c : Client) : Client :=
  if c.tourStep < 5 then { c with tourStep := c.tourStep + 1 } else endTour c

/-- The method `startSpaceTour()`. -/
def startSpaceTour (c : Client) : Client :=
  nextTourStep { c with tourMode := true, tourStep := 0 }

/-- The method `loadNasaData()` when the simulated call succeeds. -/
def loadNasaData (c : Client) : Client :=
  trackUpload { c with nasaLoads := c.nasaLoads + 1 }

/-- The tracking and tour operations. -/
inductive ClientOp
  | trackAnalysis
  | trackDiscovery
  | trackStarExploration
  | trackUpload
  | loadNasaData
  | startSpaceTour
  | nextTourStep
  | endTour
deriving DecidableEq, Repr

/-- One operation. -/
def applyOp (c : Client) : ClientOp → Client
  | .trackAnalysis => trackAnalysis c
  | .trackDiscovery => trackDiscovery c
  | .trackStarExploration => trackStarExploration c
  | .trackUpload => trackUpload c
  | .loadNasaData => loadNasaData c
  | .startSpaceTour => startSpaceTour c
  | .nextTourStep => nextTourStep c
  | .endTour => endTour c

/-- A sequence of operations. -/
def applyOps (c : Client) (ops : List ClientOp) : Client := ops.foldl applyOp c

/-- Whether the achievement `id` is unlocked in `c`. -/
def isUnlocked (c : Client) (id : String) : Bool :=
  c.achievements.any (fun a => a.id == id && a.unlocked)

/-- C22: the rule "an achievement is unlocked only if the condition in its description
has been met" does not hold of the code for two achievements.  From the fresh client, one
`trackAnalysis` unlocks `nasa_explorer` ('Load NASA exoplanet data') although NASA data
was never loaded, and `startSpaceTour` followed by one `trackStarExploration` unlocks
`space_tourist` ('Complete a space tour') although `endTour` never ran and the tour stands
at its first step. -/
theorem achievements_unlocked_early :
    (isUnlocked (applyOps Client.fresh [.trackAnalysis]) "nasa_explorer" = true ∧
      (applyOps Client.fresh [.trackAnalysis]).nasaLoads = 0) ∧
    (isUnlocked (applyOps Client.fresh [.startSpaceTour, .trackStarExploration])
        "space_tourist" = true ∧
      (applyOps Client.fresh [.startSpaceTour, .trackStarExploration]).toursEnded = 0 ∧
      (applyOps Client.fresh [.startSpaceTour, .trackStarExploration]).tourStep = 1) := by
  decide

/-- What the descriptions of the five counter achievements ask of the counters. -/
def counterMet (stats : UserStats) (id : String) : Prop :=
  (id = "first_analysis" → stats.analyses ≥ 1) ∧
  (id = "star_gazer" → stats.starsExplored ≥ 10) ∧
  (id = "planet_hunter" → stats.discoveries ≥ 5) ∧
  (id = "data_uploader" → stats.uploads ≥ 3) ∧
  (id = "ai_master" → stats.analyses ≥ 10)

/-- Every unlocked achievement among the five counter achievements has its described
count reached. -/
def CountersSound (c : Client) : Prop :=
  ∀ a ∈ c.achievements, a.unlocked = true → counterMet c.userStats a.id

theorem counterMet_of_condition (c : Client) (id : String) (h : condition c id = true) :
    counterMet c.userStats id := by
  unfold condition at h
  refine ⟨?_, ?_, ?_, ?_, ?_⟩ <;> intro hid <;> subst hid <;> simpa using h

theorem counterMet_mono (s t : UserStats) (id : String)
    (h1 : s.analyses ≤ t.analyses) (h2 : s.starsExplored ≤ t.starsExplored)
    (h3 : s.discoveries ≤ t.discoveries) (h4 : s.uploads ≤ t.uploads)
    (h : counterMet s id) : counterMet t id := by
  obtain ⟨a, b, c, d, e⟩ := h
  exact ⟨fun hid => le_trans (a hid) h1, fun hid => le_trans (b hid) h2,
    fun hid => le_trans (c hid) h3, fun hid => le_trans (d hid) h4,
    fun hid => le_trans (e hid) h1⟩

theorem countersSound_awardXP (c : Client) (amount : Nat) (h : CountersSound c) :
    CountersSound (awardXP c amount) := by
  intro a ha hu
  exact counterMet_mono c.userStats _ a.id (le_refl _) (le_refl _) (le_refl _) (le_refl _)
    (h a ha hu)

theorem countersSound_unlock (c : Client) (achievement : Achievement)
    (hm : counterMet c.userStats achievement.id) (h : CountersSound c) :
    CountersSound (unlockAchievement c achievement) := by
  intro a ha hu
  simp only [unlockAchievement, awardXP, List.mem_map] at ha
  obtain ⟨a₀, ha₀, hmap⟩ := ha
  have hstats : counterMet c.userStats a.id := by
    by_cases hid : a₀.id = achievement.id
    · simp only [hid, beq_self_eq_true, if_true] at hmap
      rw [← hmap]
      exact hm
    · have hb : (a₀.id == achievement.id) = false := by simpa using hid
      simp only [hb] at hmap
      rw [← hmap] at hu ⊢
      exact h a₀ ha₀ hu
  exact counterMet_mono c.userStats _ a.id (le_refl _) (le_refl _) (le_refl _) (le_refl _)
    hstats

theorem countersSound_foldl (l : List Achievement) (c : Client) (h : CountersSound c) :
    CountersSound (l.foldl
      (fun acc achievement =>
        if !achievement.unlocked && condition acc achievement.id then
          unlockAchievement acc achievement
        else acc) c) := by
  induction l generalizing c with
  | nil => exact h
  | cons a rest ih =>
    simp only [List.foldl_cons]
    apply ih
    split
    · rename_i hc
      simp only [Bool.and_eq_true] at hc
      exact countersSound_unlock c a (counterMet_of_condition c a.id hc.2) h
    · exact h

theorem countersSound_check (c : Client) (h : CountersSound c) :
    CountersSound (checkAchievements c) :=
  countersSound_foldl c.achievements c h

theorem countersSound_stats (c : Client) (stats : UserStats)
    (h1 : c.userStats.analyses ≤ stats.analyses)
    (h2 : c.userStats.starsExplored ≤ stats.starsExplored)
    (h3 : c.userStats.discoveries ≤ stats.discoveries)
    (h4 : c.userStats.uploads ≤ stats.uploads) (h : CountersSound c) :
    CountersSound { c with userStats := stats } := by
  intro a ha hu
  exact counterMet_mono c.userStats stats a.id h1 h2 h3 h4 (h a ha hu)

theorem countersSound_endTour (c : Client) (h : CountersSound c) :
    CountersSound (endTour c) := by
  unfold endTour
  simp only
  have h1 : CountersSound { c with tourMode := false, toursEnded := c.toursEnded + 1 } :=
    fun a ha hu => h a ha hu
  split
  · rename_i tourAchievement hf
    have hid : tourAchievement.id = "space_tourist" := by simpa using List.find?_some hf
    split
    · apply countersSound_unlock _ _ _ h1
      unfold counterMet
      rw [hid]
      refine ⟨?_, ?_, ?_, ?_, ?_⟩ <;> intro hne <;> exact absurd hne (by decide)
    · exact h1
  · exact h1

theorem countersSound_nextTourStep (c : Client) (h : CountersSound c) :
    CountersSound (nextTourStep c) := by
  unfold nextTourStep
  split
  · exact fun a ha hu => h a ha hu
  · exact countersSound_endTour c h

theorem countersSound_applyOp (c : Client) (op : ClientOp) (h : CountersSound c) :
    CountersSound (applyOp c op) := by
  cases op with
  | trackAnalysis =>
    exact countersSound_check _ (countersSound_awardXP _ 25
      (countersSound_stats c _ (Nat.le_succ _) (le_refl _) (le_refl _) (le_refl _) h))
  | trackDiscovery =>
    exact countersSound_check _ (countersSound_awardXP _ 50
      (countersSound_stats c _ (le_refl _) (le_refl _) (Nat.le_succ _) (le_refl _) h))
  | trackStarExploration =>
    exact countersSound_check _ (countersSound_awardXP _ 10
      (countersSound_stats c _ (le_refl _) (Nat.le_succ _) (le_refl _) (le_refl _) h))
  | trackUpload =>
    exact countersSound_check _ (countersSound_awardXP _ 30
      (countersSound_stats c _ (le_refl _) (le_refl _) (le_refl _) (Nat.le_succ _) h))
  | loadNasaData =>
    have h1 : CountersSound { c with nasaLoads := c.nasaLoads + 1 } :=
      fun a ha hu => h a ha hu
    exact countersSound_check _ (countersSound_awardXP _ 30
      (countersSound_stats _ _ (le_refl _) (le_refl _) (le_refl _) (Nat.le_succ _) h1))
  | startSpaceTour =>
    have h1 : CountersSound { c with tourMode := true, tourStep := 0 } :=
      fun a ha hu => h a ha hu
    exact countersSound_nextTourStep _ h1
  | nextTourStep => exact countersSound_nextTourStep c h
  | endTour => exact countersSound_endTour c h

/-- In every state reachable from the fresh client, the five counter achievements
(`first_analysis`, `star_gazer`, `planet_hunter`, `data_uploader`, `ai_master`) are
unlocked only when the count in their description is reached. -/
theorem counter_achievements_sound (ops : List ClientOp) :
    CountersSound (applyOps Client.fresh ops) := by
  have key : ∀ (l : List ClientOp) (c : Client), CountersSound c →
      CountersSound (applyOps c l) := by
    intro l
    induction l with
    | nil => exact fun _ h => h
    | cons op rest ih =>
      intro c h
      exact ih _ (countersSound_applyOp c op h)
  apply key
  intro a ha hu
  have hall : ∀ b ∈ Client.fresh.achievements, b.unlocked = false := by decide
  rw [hall a ha] at hu
  cases hu

/-! ## Front-end (`login.js`): the demo login -/

/-- White space as `String.prototype.trim` strips it. -/
def isJsWhitespace (c : Char) : Bool :=
  c.toNat ∈ [0x09, 0x0A, 0x0B, 0x0C, 0x0D, 0x20, 0xA0, 0x1680, 0x2028, 0x2029, 0x202F, 0x205F,
    0x3000, 0xFEFF] || (decide (0x2000 ≤ c.toNat) && decide (c.toNat ≤ 0x200A))

/-- The string method `trim()`. -/
def jsTrim (s : String) : String :=
  String.mk ((s.data.dropWhile isJsWhitespace).reverse.dropWhile isJsWhitespace).reverse

/-- The property `length` of a string: its number of UTF-16 code units. -/
def jsLength (s : String) : Nat :=
  s.data.foldl (fun n c => n + (if c.toNat ≥ 0x10000 then 2 else 1)) 0

/-- The method `validateForm(email, password)`: `none` for `true`, otherwise the message
shown before `false` is returned. -/
def validateForm (email password : String) : Option String :=
  if email = "" then some "Please enter your email or username"
  else if password = "" then some "Please enter your password"
  else if jsLength password < 6 then some "Password must be at least 6 characters long"
  else none

/-- The array `validCredentials` ("Demo credentials for testing"). -/
def validCredentials : List (String × String) :=
  [("admin@exoai.com", "admin123"), ("user@exoai.com", "user123"),
   ("demo@exoai.com", "demo123"), ("test", "test123"), ("demo", "demo")]

/-- The expression `cred.email.split('@')[0]`. -/
def beforeAt (s : String) : String := String.mk (s.data.takeWhile (fun c => c != '@'))

/-- The method `simulateLogin(email, password, rememberMe)`: the message of the error it
throws, or `none` when it returns. -/
def simulateLogin (email password : String) : Option String :=
  let isValid := validCredentials.any
    (fun cred => (cred.1 == email || beforeAt cred.1 == email) && cred.2 == password)
  if !isValid then some "Invalid email/username or password. Try: demo@exoai.com / demo123"
  else none

/-- What `handleLogin` ends with. -/
inductive LoginOutcome
  | invalidForm (message : String)
  | loginError (message : String)
  | success (message : String)
deriving DecidableEq, Repr

/-- The method `handleLogin()` on the contents of the email and password fields. -/
def handleLogin (emailField passwordField : String) : LoginOutcome :=
  let email := jsTrim emailField
  let password := passwordField
  match validateForm email password with
  | some message => .invalidForm message
  | none =>
    match simulateLogin email password with
    | some message => .loginError message
    | none => .success "Login successful! Redirecting to ExoAI Explorer..."

/-- C24: the pair `demo` / `demo` of `validCredentials` cannot log in: its password has
four characters, so `validateForm` stops `handleLogin` with 'Password must be at least 6
characters long' before `simulateLogin` is called, although `simulateLogin` accepts the
pair; the other four listed pairs do reach 'Login successful'. -/
theorem demo_credentials_rejected :
    ("demo", "demo") ∈ validCredentials ∧
    simulateLogin "demo" "demo" = none ∧
    handleLogin "demo" "demo" = .invalidForm "Password must be at least 6 characters long" ∧
    ∀ cred ∈ validCredentials, cred ≠ ("demo", "demo") →
      handleLogin cred.1 cred.2 = .success "Login successful! Redirecting to ExoAI Explorer..." := by
  decide

/-! ## Two achievement unlocks in flight

`postAchievements` serves a request in one piece.  The handler itself runs in two pieces,
the callback of `db.get` and the callback of `db.run`, and another request may run between
them.  `Unlock` is a request past the check of `achievementId`, with no store error. -/

/-- Where a `POST /api/achievements` stands: its `SELECT` is queued, its `INSERT` is queued
(the `SELECT` found no row), or it is answered. -/
inductive Unlock
  | selecting (user : Payload) (achievementId : String)
  | inserting (user : Payload) (achievementId : String)
  | answered (res : Response)
deriving DecidableEq, Repr

/-- The next piece of a request. -/
def Unlock.step (db : Db) (now : Nat) : Unlock → Unlock × Db
  | .selecting user aid =>
    match db.achievements.find? (fun r => r.user_id == user.userId && r.achievement_id == aid) with
    | some _ => (.answered ⟨409, .error "Achievement already unlocked"⟩, db)
    | none => (.inserting user aid, db)
  | .inserting user aid =>
    (.answered (.json (.achievementUnlocked aid)), insertAchievement db user.userId aid now)
  | .answered res => (.answered res, db)

/-- Two requests in flight; the schedule says which of them runs its next piece (`true`
for the first). -/
def interleave (now : Nat) : Unlock → Unlock → Db → List Bool → Unlock × Unlock × Db
  | a, b, db, [] => (a, b, db)
  | a, b, db, true :: rest => interleave now (a.step db now).1 b (a.step db now).2 rest
  | a, b, db, false :: rest => interleave now a (b.step db now).1 (b.step db now).2 rest

/-- The two pieces run back to back are the handler. -/
theorem unlock_steps_atomic (s : State) (user : Payload) (aid : String) (env : Env)
    (haid : aid ≠ "") (hstore : env.failing = []) :
    (((Unlock.selecting user aid).step s.db env.now).1.step
        ((Unlock.selecting user aid).step s.db env.now).2 env.now) =
      (.answered (postAchievements s user (some aid) env).1,
        (postAchievements s user (some aid) env).2.db) := by
  have hf : ∀ n, env.fails n = false := fun n => by simp [Env.fails, hstore]
  cases hfind : s.db.achievements.find?
      (fun r => r.user_id == user.userId && r.achievement_id == aid) with
  | none => simp [Unlock.step, postAchievements, haid, hf, hfind]
  | some row => simp [Unlock.step, postAchievements, haid, hf, hfind]

/-- C23: the check-then-insert of the achievement unlock is not atomic.  For two requests
of the same user with the same non-empty `achievementId`, not unlocked before, there is an
interleaving (first `SELECT`, second `SELECT`, first `INSERT`, second `INSERT`) in which
both pass the existence check, both are answered 200, and two rows for the same user and
achievement are stored. -/
theorem unlock_race (db : Db) (user₁ user₂ : Payload) (aid : String) (now : Nat)
    (hsame : user₂.userId = user₁.userId)
    (hnew : ∀ r ∈ db.achievements, ¬ (r.user_id = user₁.userId ∧ r.achievement_id = aid)) :
    ∃ schedule : List Bool,
      (interleave now (.selecting user₁ aid) (.selecting user₂ aid) db schedule).1 =
        .answered ⟨200, .achievementUnlocked aid⟩ ∧
      (interleave now (.selecting user₁ aid) (.selecting user₂ aid) db schedule).2.1 =
        .answered ⟨200, .achievementUnlocked aid⟩ ∧
      ((interleave now (.selecting user₁ aid) (.selecting user₂ aid) db
        schedule).2.2.achievements.filter
          (fun r => r.user_id == user₁.userId && r.achievement_id == aid)).length = 2 := by
  have hnone₁ : db.achievements.find?
      (fun r => r.user_id == user₁.userId && r.achievement_id == aid) = none := by
    rw [List.find?_eq_none]
    intro r hr
    simpa using hnew r hr
  have hnone₂ : db.achievements.find?
      (fun r => r.user_id == user₂.userId && r.achievement_id == aid) = none := by
    rw [hsame]
    exact hnone₁
  have hold : db.achievements.filter
      (fun r => r.user_id == user₁.userId && r.achievement_id == aid) = [] := by
    rw [List.filter_eq_nil_iff]
    intro r hr
    simpa using hnew r hr
  refine ⟨[true, false, true, false], ?_⟩
  simp [interleave, Unlock.step, hnone₁, hnone₂, Response.json, insertAchievement,
    List.filter_append, hold, hsame]

/-- Witness for C23: two unlocks of `first_analysis` by user 1 on the store of `nova1`. -/
theorem unlock_race_witness :
    ∃ schedule : List Bool,
      (interleave 2000 (.selecting novaPayload "first_analysis")
        (.selecting novaPayload "first_analysis") stNova.db schedule).1 =
        .answered ⟨200, .achievementUnlocked "first_analysis"⟩ ∧
      (interleave 2000 (.selecting novaPayload "first_analysis")
        (.selecting novaPayload "first_analysis") stNova.db schedule).2.1 =
        .answered ⟨200, .achievementUnlocked "first_analysis"⟩ ∧
      ((interleave 2000 (.selecting novaPayload "first_analysis")
        (.selecting novaPayload "first_analysis") stNova.db
        schedule).2.2.achievements.filter
          (fun r => r.user_id == novaPayload.userId &&
            r.achievement_id == "first_analysis")).length = 2 :=
  unlock_race stNova.db novaPayload novaPayload "first_analysis" 2000 rfl (by decide)

/-! ## Signup, then login by email -/

/-- C25: a login with the email exactly as it was submitted at signup is not always
answered 200.  The signup with the email `Nova1@Test.io` is answered 201 and stores the
normalized `nova1@test.io`; the login with `Nova1@Test.io` and the same password looks
the submitted string up as it is, finds no row, and is answered 401, while the login with
`nova1@test.io` is answered 200. -/
theorem signup_then_login_by_email_fails :
    (signup demoApp State.empty ⟨"nova1", "Nova1@Test.io", "Abcdef1"⟩ env0).1 =
      ⟨201, .userCreated 1⟩ ∧
    (∃ u ∈ (signup demoApp State.empty ⟨"nova1", "Nova1@Test.io", "Abcdef1"⟩ env0).2.db.users,
      u.email = "nova1@test.io") ∧
    (login demoApp (signup demoApp State.empty ⟨"nova1", "Nova1@Test.io", "Abcdef1"⟩ env0).2
      none ⟨"Nova1@Test.io", "Abcdef1"⟩ (envAt 1500)).1 =
      ⟨401, .error "Invalid credentials"⟩ ∧
    (login demoApp (signup demoApp State.empty ⟨"nova1", "Nova1@Test.io", "Abcdef1"⟩ env0).2
      none ⟨"nova1@test.io", "Abcdef1"⟩ (envAt 1500)).1.status = 200 := by
  decide

/-- A signup answered 201 passed validation and appended its row. -/
theorem signup_201_inv (A : App) (s : State) (b : SignupBody) (env : Env)
    (h : (signup A s b env).1.status = 201) :
    validateSignup A.email b = [] ∧
    (signup A s b env).2.db.users = s.db.users ++
      [⟨nextId (s.db.users.map (·.id)), b.username, A.email.normalizeEmail b.email,
        A.bcrypt.hash b.password 12 env.salt, env.now, none, true⟩] := by
  rcases signup_users A s b env with hu | ⟨hv, _, hu⟩
  · exfalso
    revert h hu
    unfold signup
    simp only
    split
    · intro h; simp at h
    · split
      · intro h; simp at h
      · split
        · intro h; simp at h
        · split
          · intro h; simp at h
          · rename_i db1 lastID hins
            intro _ hu
            unfold insertUser at hins
            split at hins
            · cases hins
            · split at hins
              · cases hins
              · simp only [Option.some.injEq, Prod.mk.injEq] at hins
                have hlen := congrArg List.length hu
                revert hlen
                split <;> simp [← hins.1, insertStats]
  · exact ⟨hv, hu⟩

/-- When normalization leaves the submitted email as it is, the login by that email after
the signup is answered 200 (in a reachable state, the two store calls of the login meeting
no error). -/
theorem signup_then_login_normalized (A : App) (trace : List (Request × Env))
    (b : SignupBody) (envS envL : Env) (cookie : Option String)
    (hsignup : (signup A (run A State.empty trace) b envS).1.status = 201)
    (hnorm : A.email.normalizeEmail b.email = b.email)
    (hstore : envL.fails 0 = false) (hupdate : envL.fails 1 = false) :
    (login A (signup A (run A State.empty trace) b envS).2 cookie ⟨b.email, b.password⟩
      envL).1.status = 200 := by
  obtain ⟨hvalid, husers⟩ := signup_201_inv A _ b envS hsignup
  have hv := (validateSignup_eq_nil A.email b).1 hvalid
  have hreach : (signup A (run A State.empty trace) b envS).2 =
      run A State.empty (trace ++ [(.signup b, envS)]) := by
    rw [run_append]
    rfl
  have hat : '@' ∈ b.email.data := by
    have := A.email.normalize_at b.email hv.2.1
    rwa [hnorm] at this
  have hid : b.email ≠ "" := by
    intro e
    rw [e] at hat
    cases hat
  have hpw : b.password ≠ "" := by
    intro e
    have hl := ((passwordErrors_eq_nil b.password).1 hv.2.2).1
    rw [e] at hl
    revert hl
    decide
  have hinv : UsersInv (signup A (run A State.empty trace) b envS).2.db.users := by
    rw [hreach]
    exact reachable_usersInv A _
  have hrow : (⟨nextId ((run A State.empty trace).db.users.map (·.id)), b.username,
      A.email.normalizeEmail b.email, A.bcrypt.hash b.password 12 envS.salt, envS.now, none,
      true⟩ : UserRow) ∈ (signup A (run A State.empty trace) b envS).2.db.users := by
    rw [husers]
    exact List.mem_append_right _ (List.mem_singleton_self _)
  obtain ⟨y, hy, hyp⟩ := find?_of_exists
    (fun u => (u.username == b.email || u.email == b.email) && u.is_active)
    (signup A (run A State.empty trace) b envS).2.db.users
    ⟨_, hrow, by simp [hnorm]⟩
  simp only [Bool.and_eq_true, Bool.or_eq_true, beq_iff_eq] at hyp
  have hyrow := lookup_unambiguous _ hinv b.email y _ (List.mem_of_find?_eq_some hy) hrow
    hyp.1 (Or.inr hnorm)
  have hres := login_response A (signup A (run A State.empty trace) b envS).2 cookie
    ⟨b.email, b.password⟩ envL hid hpw hstore hupdate
  simp only [hy] at hres
  rw [hres, hyrow, if_pos (A.bcrypt.compare_hash _ _ _)]

/-! ## The login lookup is unambiguous -/

/-- C26: in every state reachable from the empty store, an identifier names at most one
user row: two rows whose username or email equals the same string are one row.  The
reason is the one the lookup relies on: no stored username holds an `@`, every stored
email holds one, and usernames and emails are each without repetition. -/
theorem login_lookup_unambiguous (A : App) (trace : List (Request × Env)) :
    (∀ (x : String), ∀ u ∈ (run A State.empty trace).db.users,
      ∀ v ∈ (run A State.empty trace).db.users,
      (u.username = x ∨ u.email = x) → (v.username = x ∨ v.email = x) → u = v) ∧
    (∀ u ∈ (run A State.empty trace).db.users, '@' ∉ u.username.data ∧ '@' ∈ u.email.data) ∧
    ((run A State.empty trace).db.users.map (·.username)).Nodup ∧
    ((run A State.empty trace).db.users.map (·.email)).Nodup := by
  have h := reachable_usersInv A trace
  refine ⟨?_, ?_, h.usernames, h.emails⟩
  · intro x u hu v hv hux hvx
    exact lookup_unambiguous _ h x u v hu hv hux hvx
  · intro u hu
    exact ⟨no_at_of_usernameErrors _ (h.nameOk u hu), h.emailAt u hu⟩

/-! ## The Authorization header -/

/-- After a first field without a space, the token is the first field of the rest. -/
theorem headerToken_scheme (scheme rest : String) (h : ' ' ∉ scheme.data) :
    headerToken (some (scheme ++ " " ++ rest)) =
      ((splitSpace rest.data).head?).map String.mk := by
  have hdata : (scheme ++ " " ++ rest).data = scheme.data ++ ' ' :: rest.data := by
    simp [String.data_append]
  have hne : (scheme ++ " " ++ rest) ≠ "" := by
    intro e
    have hd : (scheme ++ " " ++ rest).data = [] := congrArg String.data e
    rw [hdata] at hd
    simp at hd
  simp only [headerToken, if_neg hne, hdata]
  rw [splitSpace_append _ _ h]
  cases splitSpace rest.data <;> rfl

/-- A header without a space has no second field. -/
theorem headerToken_one_field (header : String) (h : ' ' ∉ header.data) :
    headerToken (some header) = none ∨ headerToken (some header) = some "" := by
  by_cases he : header = ""
  · right
    simp [headerToken, he]
  · left
    simp [headerToken, he, splitSpace_noSpace _ h]

/-- C28: the middleware takes the second space-separated field of the Authorization
header as the token and does not look at the first: for every word `scheme` without a
space and every `token`, the header `scheme token` gets the answer the header
`Bearer token` gets; a missing header, a header of one field, and a header whose second
field is empty (two spaces after the scheme) are answered 401 'Access token required'. -/
theorem header_scheme_ignored (A : App) (scheme token rest : String) (now : Nat)
    (h : ' ' ∉ scheme.data) :
    authenticateToken A (some (scheme ++ " " ++ token)) now =
      authenticateToken A (some ("Bearer " ++ token)) now ∧
    authenticateToken A none now = .error ⟨401, .error "Access token required"⟩ ∧
    authenticateToken A (some scheme) now = .error ⟨401, .error "Access token required"⟩ ∧
    authenticateToken A (some (scheme ++ " " ++ (" " ++ rest))) now =
      .error ⟨401, .error "Access token required"⟩ := by
  refine ⟨?_, rfl, ?_, ?_⟩
  · have hb : headerToken (some ("Bearer " ++ token)) =
        ((splitSpace token.data).head?).map String.mk := by
      have := headerToken_scheme "Bearer" token (by decide)
      simpa using this
    simp only [authenticateToken, headerToken_scheme scheme token h, hb]
  · rcases headerToken_one_field scheme h with h1 | h1 <;> simp [authenticateToken, h1]
  · have hrest : (" " ++ rest).data = ' ' :: rest.data := by simp [String.data_append]
    have : headerToken (some (scheme ++ " " ++ (" " ++ rest))) = some "" := by
      rw [headerToken_scheme scheme _ h, hrest]
      simp [splitSpace]
    simp [authenticateToken, this]

/-- Witness for C28: the scheme `Token` in front of the token of `nova1`. -/
theorem header_scheme_ignored_witness :
    authenticateToken demoApp (some ("Token" ++ " " ++ novaToken)) 2000 =
      authenticateToken demoApp (some ("Bearer " ++ novaToken)) 2000 ∧
    authenticateToken demoApp none 2000 = .error ⟨401, .error "Access token required"⟩ ∧
    authenticateToken demoApp (some "Token") 2000 =
      .error ⟨401, .error "Access token required"⟩ ∧
    authenticateToken demoApp (some ("Token" ++ " " ++ (" " ++ "abc"))) 2000 =
      .error ⟨401, .error "Access token required"⟩ :=
  header_scheme_ignored demoApp "Token" novaToken "abc" 2000 (by decide)

/-! ## What a stats update touches -/

/-- What `UPDATE user_stats ... WHERE user_id = ?` does to one row. -/
def overwriteStats (userId : Nat) (b : StatsBody) (now : Nat) (r : StatsRow) : StatsRow :=
  if r.user_id == userId then
    { r with analyses := b.analyses, discoveries := b.discoveries,
             stars_explored := b.starsExplored, uploads := b.uploads, total_xp := b.xp,
             last_updated := now }
  else r

/-- C29: a `POST /api/user-stats` authenticated as user `A` leaves the users table, the
achievements table and the sessions as they were, and maps the stats table row by row,
keeping every row of another user as it is (and every row's id and owner); when the
store reports an error nothing changes at all. -/
theorem postUserStats_frame (A : App) (s : State) (auth : Option String) (body : StatsBody)
    (env : Env) (user : Payload) (hauth : authenticateToken A auth env.now = .ok user) :
    (handle A s (.postUserStats auth body) env).2.db.users = s.db.users ∧
    (handle A s (.postUserStats auth body) env).2.db.achievements = s.db.achievements ∧
    (handle A s (.postUserStats auth body) env).2.sessions = s.sessions ∧
    ∃ f : StatsRow → StatsRow,
      (handle A s (.postUserStats auth body) env).2.db.stats = s.db.stats.map f ∧
      (∀ r, r.user_id ≠ user.userId → f r = r) ∧
      (∀ r, (f r).user_id = r.user_id ∧ (f r).id = r.id) := by
  simp only [handle]
  rw [withAuth_ok A s auth env user _ hauth]
  by_cases hf : env.fails 0 = true
  · have hp : postUserStats s user body env = (⟨500, .error "Failed to update stats"⟩, s) := by
      simp [postUserStats, hf]
    rw [hp]
    exact ⟨rfl, rfl, rfl, id, by simp, fun _ _ => rfl, fun _ => ⟨rfl, rfl⟩⟩
  · have hp : postUserStats s user body env =
        (.json (.message "Stats updated successfully"),
          ⟨updateStats s.db user.userId body env.now, s.sessions⟩) := by
      simp [postUserStats, hf]
    rw [hp]
    refine ⟨rfl, rfl, rfl, overwriteStats user.userId body env.now, rfl, ?_, ?_⟩
    · intro r hr
      have hb : (r.user_id == user.userId) = false := by simpa using hr
      simp [overwriteStats, hb]
    · intro r
      unfold overwriteStats
      split <;> exact ⟨rfl, rfl⟩

/-- Witness for C29: user 1 overwrites its counters on the store of `nova1`. -/
theorem postUserStats_frame_witness :
    (handle demoApp stNova (.postUserStats (some ("Bearer " ++ novaToken)) statsFive)
      (envAt 2000)).2.db.users = stNova.db.users ∧
    (handle demoApp stNova (.postUserStats (some ("Bearer " ++ novaToken)) statsFive)
      (envAt 2000)).2.db.achievements = stNova.db.achievements ∧
    (handle demoApp stNova (.postUserStats (some ("Bearer " ++ novaToken)) statsFive)
      (envAt 2000)).2.sessions = stNova.sessions ∧
    ∃ f : StatsRow → StatsRow,
      (handle demoApp stNova (.postUserStats (some ("Bearer " ++ novaToken)) statsFive)
        (envAt 2000)).2.db.stats = stNova.db.stats.map f ∧
      (∀ r, r.user_id ≠ novaPayload.userId → f r = r) ∧
      (∀ r, (f r).user_id = r.user_id ∧ (f r).id = r.id) :=
  postUserStats_frame demoApp stNova _ statsFive (envAt 2000) novaPayload
    (authenticate_nova 2000 (by decide))

/-! ## What response bodies carry -/

/-- The strings of a JSON body the server sends. -/
def Body.strings : Body → List String
  | .error msg => [msg]
  | .validationFailed details =>
    "Validation failed" :: details.flatMap (fun e => [e.param, e.msg, e.value])
  | .userCreated _ => ["User created successfully"]
  | .loginOk token _ username email => ["Login successful", token, username, email]
  | .loginCutShort token _ username email => ["Login successful", token, username, email]
  | .message msg => [msg]
  | .profile _ username email _ _ => [username, email]
  | .stats _ _ _ _ _ => []
  | .achievements rows => rows.map (·.1)
  | .achievementUnlocked achievementId => ["Achievement unlocked successfully", achievementId]
  | .tokenValid _ username email => [username, email]
  | .health => ["OK", "ExoAI Explorer Backend is running"]

/-- The message literals of the route handlers and the middleware. -/
def messages : List String :=
  ["Access token required", "Invalid or expired token", "Validation failed", "Database error",
   "Username or email already exists", "Failed to create user", "User created successfully",
   "Internal server error", "Invalid credentials", "Login successful", "Failed to logout",
   "Logout successful", "User not found", "Failed to create user stats",
   "Failed to update stats", "Stats updated successfully", "Achievement ID is required",
   "Achievement already unlocked", "Failed to unlock achievement",
   "Achievement unlocked successfully", "OK", "ExoAI Explorer Backend is running"]

/-- Where a string of a response may come from, none of the sources being a stored
password digest or the `password` field of a request: a message literal, a stored
username, email or achievement id, a token signed for a stored user's id, username and
email, the `achievementId` of the request, or the username and email in the claims of
the request's own token. -/
inductive Disclosed (A : App) (s : State) (r : Request) (env : Env) : String → Prop
  | fixed {x : String} : x ∈ messages → Disclosed A s r env x
  | username {u : UserRow} : u ∈ s.db.users → Disclosed A s r env u.username
  | email {u : UserRow} : u ∈ s.db.users → Disclosed A s r env u.email
  | token {u : UserRow} : u ∈ s.db.users →
      Disclosed A s r env (jwtSign A.jwt u.id u.username u.email A.JWT_SECRET env.now)
  | unlocked {a : AchievementRow} : a ∈ s.db.achievements →
      Disclosed A s r env a.achievement_id
  | requested {auth : Option String} {aid : String} :
      r = .postAchievements auth (some aid) → Disclosed A s r env aid
  | claimsUsername {auth : Option String} {p : Payload} : r.authHeader = some auth →
      authenticateToken A auth env.now = .ok p → Disclosed A s r env p.username
  | claimsEmail {auth : Option String} {p : Payload} : r.authHeader = some auth →
      authenticateToken A auth env.now = .ok p → Disclosed A s r env p.email

/-- The two answers the middleware sends itself. -/
theorem authenticateToken_error (A : App) (auth : Option String) (now : Nat) (res : Response)
    (h : authenticateToken A auth now = .error res) :
    res = ⟨401, .error "Access token required"⟩ ∨
      res = ⟨403, .error "Invalid or expired token"⟩ := by
  unfold authenticateToken at h
  split at h
  · left
    injection h with h
    exact h.symm
  · split at h
    · left
      injection h with h
      exact h.symm
    · split at h
      · right
        injection h with h
        exact h.symm
      · cases h

theorem disclosed_error (A : App) (s : State) (r : Request) (env : Env) (msg : String)
    (hm : msg ∈ messages) : ∀ x ∈ (Body.error msg).strings, Disclosed A s r env x := by
  intro x hx
  simp only [Body.strings, List.mem_singleton] at hx
  rw [hx]
  exact .fixed hm

theorem disclosed_message (A : App) (s : State) (r : Request) (env : Env) (msg : String)
    (hm : msg ∈ messages) : ∀ x ∈ (Body.message msg).strings, Disclosed A s r env x := by
  intro x hx
  simp only [Body.strings, List.mem_singleton] at hx
  rw [hx]
  exact .fixed hm

theorem signup_disclosed (A : App) (s : State) (r : Request) (b : SignupBody) (env : Env)
    (h : (signup A s b env).1.status ≠ 400) :
    ∀ x ∈ (signup A s b env).1.body.strings, Disclosed A s r env x := by
  revert h
  unfold signup
  simp only
  split
  · intro h
    exact absurd rfl h
  · split
    · intro _
      exact disclosed_error A s r env _ (by decide)
    · split
      · intro _
        exact disclosed_error A s r env _ (by decide)
      · split
        · intro _
          exact disclosed_error A s r env _ (by decide)
        · intro _ x hx
          simp only [Body.strings, List.mem_singleton] at hx
          rw [hx]
          exact .fixed (by decide)

theorem login_disclosed (A : App) (s : State) (r : Request) (cookie : Option String)
    (b : LoginBody) (env : Env) (h : (login A s cookie b env).1.status ≠ 400) :
    ∀ x ∈ (login A s cookie b env).1.body.strings, Disclosed A s r env x := by
  revert h
  unfold login
  simp only
  split
  · intro h
    exact absurd rfl h
  · split
    · intro _
      exact disclosed_error A s r env _ (by decide)
    · split
      · intro _
        exact disclosed_error A s r env _ (by decide)
      · rename_i user hf
        have hmem := List.mem_of_find?_eq_some hf
        split
        · intro _
          exact disclosed_error A s r env _ (by decide)
        · have hbody : ∀ x ∈ ["Login successful",
              jwtSign A.jwt user.id user.username user.email A.JWT_SECRET env.now,
              user.username, user.email], Disclosed A s r env x := by
            intro x hx
            simp only [List.mem_cons, List.mem_singleton, List.not_mem_nil, or_false] at hx
            rcases hx with hx | hx | hx | hx
            · rw [hx]
              exact .fixed (by decide)
            · rw [hx]
              exact .token hmem
            · rw [hx]
              exact .username hmem
            · rw [hx]
              exact .email hmem
          split
          · intro _ x hx
            exact hbody x hx
          · intro _ x hx
            exact hbody x hx

theorem profile_disclosed (A : App) (s : State) (r : Request) (user : Payload) (env : Env) :
    ∀ x ∈ (profile s user env).1.body.strings, Disclosed A s r env x := by
  unfold profile
  split
  · exact disclosed_error A s r env _ (by decide)
  · split
    · exact disclosed_error A s r env _ (by decide)
    · rename_i u hf
      have hmem := List.mem_of_find?_eq_some hf
      intro x hx
      simp only [Response.json, Body.strings, List.mem_cons, List.mem_singleton,
        List.not_mem_nil, or_false] at hx
      rcases hx with hx | hx
      · rw [hx]
        exact .username hmem
      · rw [hx]
        exact .email hmem

theorem getUserStats_disclosed (A : App) (s : State) (r : Request) (user : Payload)
    (env : Env) : ∀ x ∈ (getUserStats s user env).1.body.strings, Disclosed A s r env x := by
  unfold getUserStats
  split
  · exact disclosed_error A s r env _ (by decide)
  · split
    · split
      · exact disclosed_error A s r env _ (by decide)
      · intro x hx
        simp [Response.json, Body.strings] at hx
    · intro x hx
      simp [Response.json, Body.strings] at hx

theorem postUserStats_disclosed (A : App) (s : State) (r : Request) (user : Payload)
    (body : StatsBody) (env : Env) :
    ∀ x ∈ (postUserStats s user body env).1.body.strings, Disclosed A s r env x := by
  unfold postUserStats
  split
  · exact disclosed_error A s r env _ (by decide)
  · exact disclosed_message A s r env _ (by decide)

theorem getAchievements_disclosed (A : App) (s : State) (r : Request) (user : Payload)
    (env : Env) : ∀ x ∈ (getAchievements s user env).1.body.strings, Disclosed A s r env x := by
  unfold getAchievements
  split
  · exact disclosed_error A s r env _ (by decide)
  · intro x hx
    simp only [Response.json, Body.strings, List.map_map, List.mem_map, List.mem_filter,
      Function.comp_apply] at hx
    obtain ⟨a, ⟨ha, _⟩, rfl⟩ := hx
    exact .unlocked ha

theorem postAchievements_disclosed (A : App) (s : State) (auth : Option String)
    (user : Payload) (aid : Option String) (env : Env)
    (h : (postAchievements s user aid env).1.status ≠ 400) :
    ∀ x ∈ (postAchievements s user aid env).1.body.strings,
      Disclosed A s (.postAchievements auth aid) env x := by
  revert h
  unfold postAchievements
  split
  · intro h
    exact absurd rfl h
  · rename_i v
    split
    · intro h
      exact absurd rfl h
    · split
      · intro _
        exact disclosed_error A s _ env _ (by decide)
      · split
        · intro _
          exact disclosed_error A s _ env _ (by decide)
        · split
          · intro _
            exact disclosed_error A s _ env _ (by decide)
          · intro _ x hx
            simp only [Response.json, Body.strings, List.mem_cons, List.mem_singleton,
              List.not_mem_nil, or_false] at hx
            rcases hx with hx | hx
            · rw [hx]
              exact .fixed (by decide)
            · rw [hx]
              exact .requested rfl

theorem withAuth_disclosed (A : App) (s : State) (r : Request) (auth : Option String)
    (env : Env) (handler : Payload → Response × State)
    (hh : ∀ user, authenticateToken A auth env.now = .ok user →
      (handler user).1.status ≠ 400 →
      ∀ x ∈ (handler user).1.body.strings, Disclosed A s r env x)
    (h : (withAuth A s auth env handler).1.status ≠ 400) :
    ∀ x ∈ (withAuth A s auth env handler).1.body.strings, Disclosed A s r env x := by
  revert h
  unfold withAuth
  split
  · rename_i res hres
    intro _
    rcases authenticateToken_error A auth env.now res hres with h | h <;> rw [h] <;>
      exact disclosed_error A s r env _ (by decide)
  · rename_i user hok
    exact hh user hok

/-- C27, as stated, fails: the signup with the password `"abc123"` is answered 400, and
the entry of the details list for the field `password` carries the submitted plaintext
password as its `value`. -/
theorem validation_echoes_password_counterexample :
    ∃ details,
      (handle demoApp stNova (.signup ⟨"nova2", "nova2@test.io", "abc123"⟩) env0).1 =
        ⟨400, .validationFailed details⟩ ∧
      (∃ e ∈ details, e.param = "password" ∧ e.value = "abc123") ∧
      "abc123" ∈
        (handle demoApp stNova (.signup ⟨"nova2", "nova2@test.io", "abc123"⟩)
          env0).1.body.strings :=
  ⟨[⟨"password", msgPasswordRule, "abc123"⟩], by decide, by decide, by decide⟩

/-- C27, amended: for every request and every state, every string in a response that is
not a 400 validation failure is a message literal, a stored username, email or
achievement id, a token signed for the id, username and email of a stored user, the
`achievementId` of the request, or the username or email in the claims of the request's
own token; none of these is a stored password digest or the submitted password.  (A 400
validation failure echoes the submitted value of each failing field.) -/
theorem responses_disclose (A : App) (s : State) (r : Request) (env : Env)
    (h : (handle A s r env).1.status ≠ 400) :
    ∀ x ∈ (handle A s r env).1.body.strings, Disclosed A s r env x := by
  cases r with
  | health =>
    intro x hx
    exact .fixed (by
      simp only [handle, Response.json, Body.strings, List.mem_cons, List.mem_singleton,
        List.not_mem_nil, or_false] at hx
      rcases hx with hx | hx <;> rw [hx] <;> decide)
  | signup body => exact signup_disclosed A s _ body env h
  | login cookie body => exact login_disclosed A s _ cookie body env h
  | logout cookie =>
    simp only [handle, logout]
    split
    · exact disclosed_error A s _ env _ (by decide)
    · exact disclosed_message A s _ env _ (by decide)
  | profile auth =>
    exact withAuth_disclosed A s _ auth env _ (fun u _ _ => profile_disclosed A s _ u env) h
  | getUserStats auth =>
    exact withAuth_disclosed A s _ auth env _
      (fun u _ _ => getUserStats_disclosed A s _ u env) h
  | postUserStats auth body =>
    exact withAuth_disclosed A s _ auth env _
      (fun u _ _ => postUserStats_disclosed A s _ u body env) h
  | getAchievements auth =>
    exact withAuth_disclosed A s _ auth env _
      (fun u _ _ => getAchievements_disclosed A s _ u env) h
  | postAchievements auth aid =>
    exact withAuth_disclosed A s _ auth env _
      (fun u _ hu => postAchievements_disclosed A s auth u aid env hu) h
  | verifyToken auth =>
    apply withAuth_disclosed A s _ auth env _ _ h
    intro u hu _ x hx
    simp only [verifyToken, Response.json, Body.strings, List.mem_cons, List.mem_singleton,
      List.not_mem_nil, or_false] at hx
    rcases hx with hx | hx
    · rw [hx]
      exact .claimsUsername rfl hu
    · rw [hx]
      exact .claimsEmail rfl hu

theorem handle_nova_profile (s : State) (now : Nat) (h : now < 1000 + expiresIn) :
    handle demoApp s (.profile (some ("Bearer " ++ novaToken))) (envAt now) =
      profile s novaPayload (envAt now) := by
  simp only [handle]
  exact withAuth_ok demoApp s _ (envAt now) novaPayload _ (authenticate_nova now h)

/-- Witness for C27, amended: the profile read of `nova1` is answered 200 and carries the
stored username `nova1`. -/
theorem responses_disclose_witness :
    (handle demoApp stNova (.profile (some ("Bearer " ++ novaToken)))
      (envAt 2000)).1.status ≠ 400 ∧
    "nova1" ∈ (handle demoApp stNova (.profile (some ("Bearer " ++ novaToken)))
      (envAt 2000)).1.body.strings ∧
    Disclosed demoApp stNova (.profile (some ("Bearer " ++ novaToken))) (envAt 2000) "nova1" :=
  ⟨by rw [handle_nova_profile stNova 2000 (by decide)]; decide,
    by rw [handle_nova_profile stNova 2000 (by decide)]; decide,
    responses_disclose demoApp stNova (.profile (some ("Bearer " ++ novaToken))) (envAt 2000)
      (by rw [handle_nova_profile stNova 2000 (by decide)]; decide) "nova1"
      (by rw [handle_nova_profile stNova 2000 (by decide)]; decide)⟩

end ExoAI
